import Mathlib

/-!
# gpgpu: a shallow embedding of the OpenGL wrapper classes

The C++ classes of `include/gpgpu/*.hpp` are embedded as functions over an explicit
driver state.  Every call into OpenGL is recorded, in order, in `Driver.trace`; the
pieces of driver state that the wrappers read back or that the properties talk about
(error flag, texture bindings, sampling parameters, level parameters, layer contents)
are fields of `Driver`.

Conventions:
* `size_t`, `unsigned int`, `GLuint`, `GLenum` values are natural numbers, `int` and
  `GLint` values are integers; a conversion or a wrapping addition is written out where
  the source performs one.
* `float` coefficients and pixel bytes are carried as their bit patterns (`Nat`): the
  wrappers move them around but never compute with them.
* A driver call is recorded with the values of the argument expressions written at the
  call site; the parameter types of the entry points are declared in the OpenGL headers,
  which are not part of the library.
* A thrown C++ exception is `Outcome.raised`, undefined behaviour is `Outcome.undefined`.
* An object method that changes its object returns the object after the call next to
  the outcome, so that the state left behind by a throwing call can be read off.
* What `glGetError` reports is an input (`Driver.errors`): statements quantify over every
  way the driver may answer unless they say otherwise.
-/

namespace gpgpu

/-! ## Constants of the OpenGL and Eigen headers -/

def GL_NO_ERROR : Nat := 0
def GL_FALSE : Nat := 0
def GL_TRUE : Nat := 1
def GL_RGB : Nat := 0x1907
def GL_RGBA : Nat := 0x1908
def GL_BGRA : Nat := 0x80E1
def GL_UNSIGNED_BYTE : Nat := 0x1401
def GL_TEXTURE_2D : Nat := 0x0DE1
def GL_TEXTURE_2D_ARRAY : Nat := 0x8C1A
def GL_TEXTURE_WIDTH : Nat := 0x1000
def GL_TEXTURE_HEIGHT : Nat := 0x1001
def GL_TEXTURE_INTERNAL_FORMAT : Nat := 0x1003
def GL_TEXTURE_DEPTH : Nat := 0x8071
def GL_TEXTURE_MAG_FILTER : Nat := 0x2800
def GL_TEXTURE_MIN_FILTER : Nat := 0x2801
def GL_TEXTURE_WRAP_S : Nat := 0x2802
def GL_TEXTURE_WRAP_T : Nat := 0x2803
def GL_NEAREST : Nat := 0x2600
def GL_LINEAR : Nat := 0x2601
def GL_NEAREST_MIPMAP_LINEAR : Nat := 0x2702
def GL_REPEAT : Nat := 0x2901
def GL_CLAMP_TO_BORDER : Nat := 0x812D
def GL_FRAMEBUFFER : Nat := 0x8D40
def GL_RENDERBUFFER : Nat := 0x8D41
def GL_FRAMEBUFFER_COMPLETE : Nat := 0x8CD5
def GL_COLOR_ATTACHMENT0 : Nat := 0x8CE0
def GL_DEPTH_ATTACHMENT : Nat := 0x8D00
def GL_DEPTH_COMPONENT32F : Nat := 0x8CAC
def GL_DEPTH_TEST : Nat := 0x0B71
def GL_DEPTH_BUFFER_BIT : Nat := 0x0100
def GL_COLOR_BUFFER_BIT : Nat := 0x4000
def GL_TEXTURE0 : Nat := 0x84C0
def GL_ARRAY_BUFFER : Nat := 0x8892
def GL_ELEMENT_ARRAY_BUFFER : Nat := 0x8893
def GL_STATIC_DRAW : Nat := 0x88E4
def GL_TRIANGLES : Nat := 0x0004
def GL_BYTE : Nat := 0x1400
def GL_SHORT : Nat := 0x1402
def GL_UNSIGNED_SHORT : Nat := 0x1403
def GL_INT : Nat := 0x1404
def GL_UNSIGNED_INT : Nat := 0x1405
def GL_FLOAT : Nat := 0x1406
def GL_DOUBLE : Nat := 0x140A
def GL_HALF_FLOAT : Nat := 0x140B
def GL_FIXED : Nat := 0x140C
def GL_VERTEX_SHADER : Nat := 0x8B31
def GL_FRAGMENT_SHADER : Nat := 0x8B30

/-- Eigen storage option `Eigen::ColMajor`. -/
def Eigen.ColMajor : Nat := 0
/-- Eigen storage option `Eigen::RowMajor` (the row-major bit of `_Options`). -/
def Eigen.RowMajor : Nat := 0x1
/-- Eigen storage option `Eigen::DontAlign`. -/
def Eigen.DontAlign : Nat := 0x2

def DEFAULT_TEXTURE_CHANNELS : Int := 4
def DEFAULT_TEXTURE_INTERNAL_FORMAT : Nat := GL_RGBA
def DEFAULT_TEXTURE_FORMAT : Nat := GL_RGBA
def DEFAULT_TEXTURE_TYPE : Nat := GL_UNSIGNED_BYTE

/-- Value of an `int` converted to `unsigned int`. -/
def toUnsigned (i : Int) : Nat := (i % 4294967296).toNat

/-- Addition of two `unsigned int` values. -/
def uadd (a b : Nat) : Nat := (a + b) % 4294967296

/-! ## Exceptions and outcomes -/

/-- The exception classes of the library, each carrying its `what()` text. -/
inductive Exn where
  | OpenGLError (what : String)
  | ShaderError (what : String)
  | ProgramError (what : String)
  | FramebufferError (what : String)
  | TextureError (what : String)
  deriving DecidableEq, Repr

/-- How a call ends: it returns a value, throws, or has undefined behaviour. -/
inductive Outcome (α : Type) where
  | returned (a : α)
  | raised (e : Exn)
  | undefined
  deriving DecidableEq, Repr

/-! ## The driver -/

/-- The thirteen `glUniform*fv` entry points used by the matrix-uniform dispatch. -/
inductive UniformOp where
  | glUniform1fv | glUniform2fv | glUniform3fv | glUniform4fv
  | glUniformMatrix2fv | glUniformMatrix2x3fv | glUniformMatrix2x4fv
  | glUniformMatrix3x2fv | glUniformMatrix3fv | glUniformMatrix3x4fv
  | glUniformMatrix4x2fv | glUniformMatrix4x3fv | glUniformMatrix4fv
  deriving DecidableEq, Repr

set_option maxHeartbeats 4000000 in
/-- One call into OpenGL with the arguments written at the call site (pointer arguments
are left out, except the coefficient and pixel arrays handed to the driver).  The
`glUniform*fv` family is one constructor: `op` names the entry point, and `transpose` is
`none` for the vector setters, which have no such parameter. -/
inductive GLCall where
  | glGetError
  | glUniformfv (op : UniformOp) (location count : Nat) (transpose : Option Nat) (value : List Nat)
  | glGenTextures (n : Nat)
  | glDeleteTextures (n texture : Nat)
  | glBindTexture (target texture : Nat)
  | glTexParameteri (target pname param : Nat)
  | glTexImage2D (target level internalFormat width height border format type : Nat)
  | glTexImage3D (target level internalFormat width height depth border format type : Nat)
  | glTexSubImage3D (target level xoffset yoffset zoffset : Nat) (width height : Int)
      (depth format type : Nat) (pixels : List Nat)
  | glGetTexLevelParameteriv (target level pname : Nat)
  | glGetTexImage (target level format type : Nat)
  | glGenFramebuffers (n : Nat)
  | glDeleteFramebuffers (n framebuffer : Nat)
  | glBindFramebuffer (target framebuffer : Nat)
  | glFramebufferTexture2D (target attachment textarget texture level : Nat)
  | glFramebufferTextureLayer (target attachment texture level layer : Nat)
  | glCheckFramebufferStatus (target : Nat)
  | glGenRenderbuffers (n : Nat)
  | glBindRenderbuffer (target renderbuffer : Nat)
  | glRenderbufferStorage (target internalformat width height : Nat)
  | glFramebufferRenderbuffer (target attachment renderbuffertarget renderbuffer : Nat)
  | glViewport (x y width height : Nat)
  | glDrawBuffers (n : Nat) (bufs : List Nat)
  | glEnable (cap : Nat)
  | glDisable (cap : Nat)
  | glClear (mask : Nat)
  | glReadBuffer (src : Nat)
  | glReadPixels (x y : Nat) (width height : Int) (format type : Nat)
  | glDeleteRenderbuffers (n renderbuffer : Nat)
  | glActiveTexture (texture : Nat)
  | glGenBuffers (n : Nat)
  | glDeleteBuffers (n buffer : Nat)
  | glBindBuffer (target buffer : Nat)
  | glBufferData (target size : Nat) (data : List Nat) (usage : Nat)
  | glVertexAttribPointer (index size type normalized stride : Nat)
  | glEnableVertexAttribArray (index : Nat)
  | glDisableVertexAttribArray (index : Nat)
  | glDrawElements (mode count type : Nat)
  | glDrawArrays (mode first count : Nat)
  | glGetUniformLocation (program : Nat) (name : String)
  | glGetAttribLocation (program : Nat) (name : String)
  | glUniform1i (location : Nat) (v0 : Int)
  | glUniform1f (location : Nat) (v0 : Nat)
  | glCreateShader (type : Nat)
  | glDeleteShader (shader : Nat)
  | glCreateProgram
  | glDeleteProgram (program : Nat)
  | glAttachShader (program shader : Nat)
  | glDetachShader (program shader : Nat)
  | glUseProgram (program : Nat)
  deriving DecidableEq, Repr

/-- Driver-side state of one texture name: the four sampling parameters the wrappers
write, the level-0 parameters they read back, and the pixels of each layer. -/
structure TextureObject where
  minFilter : Nat
  magFilter : Nat
  wrapS : Nat
  wrapT : Nat
  width : Int
  height : Int
  depth : Int
  internalFormat : Int
  layers : List (List Nat)
  deriving DecidableEq, Repr

/-- The state of the OpenGL driver as far as the wrappers observe it.

* `trace`: every call issued so far, oldest first.
* `errors`: what the coming `glGetError` queries report, in order; once exhausted the
  flag reads `GL_NO_ERROR`.
* `fresh`: the name the next `glGen*` call hands out.
* `bound target`: the texture name bound to `target` on the active texture unit.
* `textures name`: the texture object behind a name.
* `framebufferStatus`: what `glCheckFramebufferStatus` reports.
* `readback`: the bytes `glReadPixels` and `glGetTexImage` deliver.
* `activeTexture`: the active texture unit, as the enum value given to `glActiveTexture`.
* `inactive unit target`: the texture name bound to `target` on a unit that is not the
  active one.
* `uniformLocation program name`, `attribLocation program name`: what
  `glGetUniformLocation` and `glGetAttribLocation` report (negative for an unknown
  name). -/
structure Driver where
  trace : List GLCall
  errors : List Nat
  fresh : Nat
  bound : Nat → Nat
  textures : Nat → TextureObject
  framebufferStatus : Nat
  readback : List Nat
  activeTexture : Nat
  inactive : Nat → Nat → Nat
  uniformLocation : Nat → String → Int
  attribLocation : Nat → String → Int

/-- A computation that talks to the driver and may throw. -/
def GLM (α : Type) : Type := Driver → Outcome α × Driver

/-- Return a value without touching the driver. -/
def GLM.pure {α : Type} (a : α) : GLM α := fun d => (Outcome.returned a, d)

/-- Run `m`, then `f` on its value; an exception or undefined behaviour in `m` ends the
whole computation with the driver as `m` left it. -/
def GLM.bind {α β : Type} (m : GLM α) (f : α → GLM β) : GLM β := fun d =>
  match m d with
  | (Outcome.returned a, d1) => f a d1
  | (Outcome.raised e, d1) => (Outcome.raised e, d1)
  | (Outcome.undefined, d1) => (Outcome.undefined, d1)

instance : Monad GLM where
  pure := GLM.pure
  bind := GLM.bind

/-- The C++ `throw`. -/
def GLM.raise {α : Type} (e : Exn) : GLM α := fun d => (Outcome.raised e, d)

/-- Record a driver call that has no effect on the modelled driver state. -/
def issue (c : GLCall) : GLM Unit := fun d =>
  (Outcome.returned (), { d with trace := d.trace ++ [c] })

/-- The driver call `glGetError()`: reports the pending error code and clears it. -/
def glGetError : GLM Nat := fun d =>
  (Outcome.returned (d.errors.headD GL_NO_ERROR),
    { d with trace := d.trace ++ [GLCall.glGetError], errors := d.errors.tail })

/-- Text of `s << std::hex << error`. -/
def hex (n : Nat) : String := String.mk (Nat.toDigits 16 n)

/-- Method `OpenGLObject::assertNoGLError`. -/
def assertNoGLError (component : String) : GLM Unit := do
  let error ← glGetError
  if error ≠ GL_NO_ERROR then
    GLM.raise (Exn.OpenGLError ("OpenGL error 0x" ++ hex error ++ " at " ++ component))
  else
    pure ()

/-! ## Program: the matrix-uniform dispatch -/

/-- An `Eigen::Matrix<float, _Rows, _Cols, _Options, _MaxRows, _MaxCols>` value: its
run-time shape, the template parameter `_Options`, and the coefficient array that
`data()` points to, in storage order. -/
structure EigenMatrix where
  rows : Nat
  cols : Nat
  Options : Nat
  data : List Nat
  deriving DecidableEq, Repr

/-- Whether the storage order of the matrix type is row-major: the row-major bit of
`_Options` is set. -/
def EigenMatrix.isRowMajor (m : EigenMatrix) : Bool := m.Options &&& Eigen.RowMajor != 0

/-- Coefficient `(i, j)` read from the storage array. -/
def EigenMatrix.coeff (m : EigenMatrix) (i j : Nat) : Nat :=
  if m.isRowMajor then m.data.getD (i * m.cols + j) 0 else m.data.getD (j * m.rows + i) 0

/-- The matrix `m` after `Eigen::Matrix<float, _Rows, _Cols, _Options, ...> m =
value.transpose();`: the declared type of `m` is the type of `value`, so `m` keeps
`_Options`; it takes the shape of the transposed expression and holds its coefficients. -/
def EigenMatrix.transposeAssign (value : EigenMatrix) : EigenMatrix :=
  { rows := value.cols
    cols := value.rows
    Options := value.Options
    data := (List.range (value.rows * value.cols)).map fun k =>
      if value.isRowMajor then value.coeff (k % value.rows) (k / value.rows)
      else value.coeff (k / value.cols) (k % value.cols) }

/-- Static member `ProgramError::uniform`. -/
def ProgramError.uniform (rows cols arrayLength : Nat) : Exn :=
  Exn.ProgramError ("Failed to set uniform with dimension " ++ toString rows ++ "x"
    ++ toString cols ++ " and array length " ++ toString arrayLength)

/-- Method `Program::setUniformLocation`.  The method calls itself in its row-major
branch, so the embedding takes a bound on the depth of calls: `none` means that the
bound was reached before the outermost call came back. -/
def Program.setUniformLocation :
    Nat → Nat → EigenMatrix → Nat → Driver → Option (Outcome Unit × Driver)
  | 0, _, _, _, _ => none
  | fuel + 1, location, value, arrayLength, d =>
    if arrayLength = 0 then some (Outcome.undefined, d) else
    let cols := value.cols
    let rows := value.rows / arrayLength
    if value.Options = Eigen.RowMajor then
      let m := value.transposeAssign
      Program.setUniformLocation fuel location m arrayLength d
    else
      some ((do
        if cols = 1 then
          if rows = 1 then
            issue (GLCall.glUniformfv UniformOp.glUniform1fv location arrayLength none value.data)
          else if rows = 2 then
            issue (GLCall.glUniformfv UniformOp.glUniform2fv location arrayLength none value.data)
          else if rows = 3 then
            issue (GLCall.glUniformfv UniformOp.glUniform3fv location arrayLength none value.data)
          else if rows = 4 then
            issue (GLCall.glUniformfv UniformOp.glUniform4fv location arrayLength none value.data)
          else
            GLM.raise (ProgramError.uniform rows cols arrayLength)
        else if cols = 2 then
          if rows = 2 then
            issue (GLCall.glUniformfv UniformOp.glUniformMatrix2fv location arrayLength
              (some GL_FALSE) value.data)
          else if rows = 3 then
            issue (GLCall.glUniformfv UniformOp.glUniformMatrix2x3fv location arrayLength
              (some GL_FALSE) value.data)
          else if rows = 4 then
            issue (GLCall.glUniformfv UniformOp.glUniformMatrix2x4fv location arrayLength
              (some GL_FALSE) value.data)
          else
            GLM.raise (ProgramError.uniform rows cols arrayLength)
        else if cols = 3 then
          if rows = 2 then
            issue (GLCall.glUniformfv UniformOp.glUniformMatrix3x2fv location arrayLength
              (some GL_FALSE) value.data)
          else if rows = 3 then
            issue (GLCall.glUniformfv UniformOp.glUniformMatrix3fv location arrayLength
              (some GL_FALSE) value.data)
          else if rows = 4 then
            issue (GLCall.glUniformfv UniformOp.glUniformMatrix3x4fv location arrayLength
              (some GL_FALSE) value.data)
          else
            GLM.raise (ProgramError.uniform rows cols arrayLength)
        else if cols = 4 then
          if rows = 2 then
            issue (GLCall.glUniformfv UniformOp.glUniformMatrix4x2fv location arrayLength
              (some GL_FALSE) value.data)
          else if rows = 3 then
            issue (GLCall.glUniformfv UniformOp.glUniformMatrix4x3fv location arrayLength
              (some GL_FALSE) value.data)
          else if rows = 4 then
            issue (GLCall.glUniformfv UniformOp.glUniformMatrix4fv location arrayLength
              (some GL_FALSE) value.data)
          else
            GLM.raise (ProgramError.uniform rows cols arrayLength)
        else
          GLM.raise (ProgramError.uniform rows cols arrayLength)
        assertNoGLError "setUniform(Eigen::Matrix)" : GLM Unit) d)

/-- The calls issued while the driver went from state `d` to state `d1`. -/
def issuedSince (d d1 : Driver) : List GLCall := d1.trace.drop d.trace.length

/-- The set-uniform operations among a list of driver calls, in order. -/
def uniformOps : List GLCall → List UniformOp
  | [] => []
  | GLCall.glUniformfv op _ _ _ _ :: cs => op :: uniformOps cs
  | _ :: cs => uniformOps cs

/-- The set-uniform operations that one call of `Program::setUniformLocation` issues
(empty when the call does not come back within `fuel`). -/
def Program.dispatchedOps (fuel location : Nat) (value : EigenMatrix) (arrayLength : Nat)
    (d : Driver) : List UniformOp :=
  match Program.setUniformLocation fuel location value arrayLength d with
  | some r => uniformOps (issuedSince d r.2)
  | none => []

/-- The dispatch contract's vector setter for a rank: `glUniform1fv` .. `glUniform4fv`. -/
def vectorSetter : Nat → Option UniformOp
  | 1 => some UniformOp.glUniform1fv
  | 2 => some UniformOp.glUniform2fv
  | 3 => some UniformOp.glUniform3fv
  | 4 => some UniformOp.glUniform4fv
  | _ => none

/-- The dispatch contract's matrix setter for `c` columns and `r` rows:
`glUniformMatrix{c}fv` when `r = c`, `glUniformMatrix{c}x{r}fv` otherwise. -/
def matrixSetter : Nat → Nat → Option UniformOp
  | 2, 2 => some UniformOp.glUniformMatrix2fv
  | 2, 3 => some UniformOp.glUniformMatrix2x3fv
  | 2, 4 => some UniformOp.glUniformMatrix2x4fv
  | 3, 2 => some UniformOp.glUniformMatrix3x2fv
  | 3, 3 => some UniformOp.glUniformMatrix3fv
  | 3, 4 => some UniformOp.glUniformMatrix3x4fv
  | 4, 2 => some UniformOp.glUniformMatrix4x2fv
  | 4, 3 => some UniformOp.glUniformMatrix4x3fv
  | 4, 4 => some UniformOp.glUniformMatrix4fv
  | _, _ => none

/-- The shapes the dispatch contract accepts: a vector of rank 1 to 4, or a matrix with
2 to 4 columns and 2 to 4 rows. -/
def AcceptedShape (rows cols : Nat) : Prop :=
  (cols = 1 ∧ (rows = 1 ∨ rows = 2 ∨ rows = 3 ∨ rows = 4)) ∨
  ((cols = 2 ∨ cols = 3 ∨ cols = 4) ∧ (rows = 2 ∨ rows = 3 ∨ rows = 4))

instance (rows cols : Nat) : Decidable (AcceptedShape rows cols) := by
  unfold AcceptedShape; infer_instance

/-- The dispatch contract as a table: the setter for a `rows × cols` value together with
its transpose argument (`none` for a vector setter), or `none` for a rejected shape. -/
def contractSetter (rows cols : Nat) : Option (UniformOp × Option Nat) :=
  if cols = 1 then (vectorSetter rows).map fun op => (op, none)
  else (matrixSetter cols rows).map fun op => (op, some GL_FALSE)

/-- Rows (components, for a vector setter) and columns that an entry point of the
`glUniform*fv` family sets, as its name says: `glUniformMatrix2x3fv` is 2 columns by
3 rows. -/
def UniformOp.shape : UniformOp → Nat × Nat
  | UniformOp.glUniform1fv => (1, 1)
  | UniformOp.glUniform2fv => (2, 1)
  | UniformOp.glUniform3fv => (3, 1)
  | UniformOp.glUniform4fv => (4, 1)
  | UniformOp.glUniformMatrix2fv => (2, 2)
  | UniformOp.glUniformMatrix2x3fv => (3, 2)
  | UniformOp.glUniformMatrix2x4fv => (4, 2)
  | UniformOp.glUniformMatrix3x2fv => (2, 3)
  | UniformOp.glUniformMatrix3fv => (3, 3)
  | UniformOp.glUniformMatrix3x4fv => (4, 3)
  | UniformOp.glUniformMatrix4x2fv => (2, 4)
  | UniformOp.glUniformMatrix4x3fv => (3, 4)
  | UniformOp.glUniformMatrix4fv => (4, 4)

/-- A driver in its initial state: nothing issued, no error pending, name 1 free, unit 0
active, no texture bound, every texture object with the parameters OpenGL gives a new
texture, no uniform or attribute name known. -/
def Driver.initial : Driver :=
  { trace := []
    errors := []
    fresh := 1
    bound := fun _ => 0
    textures := fun _ =>
      { minFilter := GL_NEAREST_MIPMAP_LINEAR, magFilter := GL_LINEAR, wrapS := GL_REPEAT,
        wrapT := GL_REPEAT, width := 0, height := 0, depth := 0, internalFormat := 0,
        layers := [] }
    framebufferStatus := GL_FRAMEBUFFER_COMPLETE
    readback := []
    activeTexture := GL_TEXTURE0
    inactive := fun _ _ => 0
    uniformLocation := fun _ _ => -1
    attribLocation := fun _ _ => -1 }

/-! ## Driver calls with an effect or a result -/

/-- A `glGen*` call for one name: hands out the next free name. -/
def glGen (c : GLCall) : GLM Nat := fun d =>
  (Outcome.returned d.fresh, { d with trace := d.trace ++ [c], fresh := d.fresh + 1 })

/-- The driver call `glBindTexture`: `texture` becomes the texture bound to `target`. -/
def glBindTexture (target texture : Nat) : GLM Unit := fun d =>
  (Outcome.returned (),
    { d with trace := d.trace ++ [GLCall.glBindTexture target texture]
             bound := Function.update d.bound target texture })

/-- A texture object after one of its sampling parameters is written. -/
def TextureObject.setParameter (t : TextureObject) (pname param : Nat) : TextureObject :=
  if pname = GL_TEXTURE_MIN_FILTER then { t with minFilter := param }
  else if pname = GL_TEXTURE_MAG_FILTER then { t with magFilter := param }
  else if pname = GL_TEXTURE_WRAP_S then { t with wrapS := param }
  else if pname = GL_TEXTURE_WRAP_T then { t with wrapT := param }
  else t

/-- The driver call `glTexParameteri`: writes the parameter of the texture that is bound
to `target` at the time of the call. -/
def glTexParameteri (target pname param : Nat) : GLM Unit := fun d =>
  (Outcome.returned (),
    { d with trace := d.trace ++ [GLCall.glTexParameteri target pname param]
             textures := Function.update d.textures (d.bound target)
               ((d.textures (d.bound target)).setParameter pname param) })

/-- A level-0 parameter of a texture object. -/
def TextureObject.levelParameter (t : TextureObject) (pname : Nat) : Int :=
  if pname = GL_TEXTURE_WIDTH then t.width
  else if pname = GL_TEXTURE_HEIGHT then t.height
  else if pname = GL_TEXTURE_DEPTH then t.depth
  else if pname = GL_TEXTURE_INTERNAL_FORMAT then t.internalFormat
  else 0

/-- The driver call `glGetTexLevelParameteriv`: reads a level parameter of the texture
that is bound to `target` at the time of the call. -/
def glGetTexLevelParameteriv (target level pname : Nat) : GLM Int := fun d =>
  (Outcome.returned ((d.textures (d.bound target)).levelParameter pname),
    { d with trace := d.trace ++ [GLCall.glGetTexLevelParameteriv target level pname] })

/-- A texture object after whole layers `zoffset .. zoffset + depth - 1` are replaced by
the consecutive blocks of `pixels`.  The wrappers upload at offset (0, 0) only, so the
model keeps layers as units. -/
def TextureObject.subImage (t : TextureObject) (zoffset depth : Nat) (pixels : List Nat) :
    TextureObject :=
  { t with layers := (List.range t.layers.length).map fun z =>
      if zoffset ≤ z ∧ z < zoffset + depth then
        (pixels.drop ((z - zoffset) * (pixels.length / depth))).take (pixels.length / depth)
      else t.layers.getD z [] }

/-- The driver call `glTexSubImage3D` on the texture bound to `target`. -/
def glTexSubImage3D (target level xoffset yoffset zoffset : Nat) (width height : Int)
    (depth format type : Nat) (pixels : List Nat) : GLM Unit := fun d =>
  (Outcome.returned (),
    { d with trace := d.trace ++ [GLCall.glTexSubImage3D target level xoffset yoffset zoffset
               width height depth format type pixels]
             textures := Function.update d.textures (d.bound target)
               ((d.textures (d.bound target)).subImage zoffset depth pixels) })

/-- The driver call `glTexImage2D` with a null data pointer: the texture bound to `target`
gets a level-0 image of the given size and internal format, contents undefined (modelled
as one empty layer). -/
def glTexImage2D (target level internalFormat width height border format type : Nat) :
    GLM Unit := fun d =>
  (Outcome.returned (),
    { d with trace := d.trace ++ [GLCall.glTexImage2D target level internalFormat width height
               border format type]
             textures := Function.update d.textures (d.bound target)
               { d.textures (d.bound target) with
                 width := width, height := height, depth := 1,
                 internalFormat := internalFormat, layers := [[]] } })

/-- The driver call `glTexImage3D` with a null data pointer: the texture bound to `target`
gets `depth` layers of the given size and internal format, contents undefined (modelled
as empty layers). -/
def glTexImage3D (target level internalFormat width height depth border format type : Nat) :
    GLM Unit := fun d =>
  (Outcome.returned (),
    { d with trace := d.trace ++ [GLCall.glTexImage3D target level internalFormat width height
               depth border format type]
             textures := Function.update d.textures (d.bound target)
               { d.textures (d.bound target) with
                 width := width, height := height, depth := depth,
                 internalFormat := internalFormat, layers := List.replicate depth [] } })

/-- The driver call `glCheckFramebufferStatus`. -/
def glCheckFramebufferStatus (target : Nat) : GLM Nat := fun d =>
  (Outcome.returned d.framebufferStatus,
    { d with trace := d.trace ++ [GLCall.glCheckFramebufferStatus target] })

/-- The driver call `glReadPixels`: delivers the bytes read. -/
def glReadPixels (x y : Nat) (width height : Int) (format type : Nat) : GLM (List Nat) :=
  fun d => (Outcome.returned d.readback,
    { d with trace := d.trace ++ [GLCall.glReadPixels x y width height format type] })

/-- The driver call `glGetTexImage`: delivers the bytes read. -/
def glGetTexImage (target level format type : Nat) : GLM (List Nat) :=
  fun d => (Outcome.returned d.readback,
    { d with trace := d.trace ++ [GLCall.glGetTexImage target level format type] })

/-- No error is pending and none will be reported. -/
def Driver.quiet (d : Driver) : Prop := ∀ e ∈ d.errors, e = GL_NO_ERROR

/-! ## Texture -/

/-- The data members of class `Texture`: `_id` and `_target`. -/
structure Texture where
  id : Nat
  target : Nat
  deriving DecidableEq, Repr

/-- The fields of `OpenImageIO::ImageSpec` that the wrappers use. -/
structure ImageSpec where
  width : Int
  height : Int
  depth : Int
  nchannels : Int
  deriving DecidableEq, Repr

/-- Constructor `OpenImageIO::ImageSpec(xres, yres, nchans)`; the depth of a 2D image
is 1. -/
def ImageSpec.create (xres yres nchans : Int) : ImageSpec :=
  { width := xres, height := yres, depth := 1, nchannels := nchans }

/-- An `OpenImageIO::ImageBuf`: its spec and the bytes behind `localpixels()`. -/
structure ImageBuf where
  spec : ImageSpec
  localpixels : List Nat
  deriving DecidableEq, Repr

/-- Method `Texture::set_filter`. -/
def Texture.set_filter (self : Texture) (filter : Nat) : GLM Unit := do
  glTexParameteri self.target GL_TEXTURE_MIN_FILTER filter
  glTexParameteri self.target GL_TEXTURE_MAG_FILTER filter
  glTexParameteri self.target GL_TEXTURE_WRAP_S GL_CLAMP_TO_BORDER
  glTexParameteri self.target GL_TEXTURE_WRAP_T GL_CLAMP_TO_BORDER
  assertNoGLError "glTexParameteri"

/-- Constructor `Texture::Texture(GLenum target)`. -/
def Texture.create (target : Nat) : GLM Texture := do
  let id ← glGen (GLCall.glGenTextures 1)
  let self : Texture := { id := id, target := target }
  self.set_filter GL_LINEAR
  pure self

/-- Method `Texture::bind`. -/
def Texture.bind (self : Texture) : GLM Unit := do
  glBindTexture self.target self.id
  assertNoGLError "glBindTexture"

/-- Constructor `Texture2D::Texture2D`. -/
def Texture2D.create (width height : Nat)
    (internalFormat : Nat) (format : Nat) (type : Nat) : GLM Texture := do
  let self ← Texture.create GL_TEXTURE_2D
  glBindTexture self.target self.id
  glTexImage2D self.target 0 internalFormat width height 0 format type
  assertNoGLError "glTexImage2D"
  pure self

/-- Constructor `TextureArray2D::TextureArray2D`. -/
def TextureArray2D.create (width height layers : Nat)
    (internalFormat : Nat) (format : Nat) (type : Nat) : GLM Texture := do
  let self ← Texture.create GL_TEXTURE_2D_ARRAY
  glBindTexture self.target self.id
  assertNoGLError "glBindTexture"
  glTexImage3D self.target 0 internalFormat width height layers 0 format type
  assertNoGLError "glTexImage3D"
  pure self

/-- Method `TextureArray2D::size`. -/
def TextureArray2D.size (self : Texture) : GLM ImageSpec := do
  let width ← glGetTexLevelParameteriv self.target 0 GL_TEXTURE_WIDTH
  let height ← glGetTexLevelParameteriv self.target 0 GL_TEXTURE_HEIGHT
  let depth ← glGetTexLevelParameteriv self.target 0 GL_TEXTURE_DEPTH
  assertNoGLError "glGetTexLevelParameteriv"
  let spec := ImageSpec.create width height DEFAULT_TEXTURE_CHANNELS
  pure { spec with depth := depth }

/-- Text of the bounds error of `TextureArray2D::set`. -/
def layerMessage (layer : Nat) (depth : Int) : String :=
  "Layer (" ++ toString layer ++ ") exceeds layer count (" ++ toString depth ++ ")."

/-- Text of the size error of `TextureArray2D::set`. -/
def sizeMessage (i s : ImageSpec) : String :=
  "Image needs to have the same size as an array layer (image=" ++ toString i.width ++ "x"
    ++ toString i.height ++ ", array=" ++ toString s.width ++ "x" ++ toString s.height ++ ")."

/-- Method `TextureArray2D::set`.  In `layer >= s.depth` the `int` on the right is
converted to `unsigned int`. -/
def TextureArray2D.set (self : Texture) (layer : Nat) (image : ImageBuf) : GLM Unit := do
  let s ← TextureArray2D.size self
  let i := image.spec
  if layer ≥ toUnsigned s.depth then
    GLM.raise (Exn.TextureError (layerMessage layer s.depth))
  if i.width ≠ s.width ∨ i.height ≠ s.height then
    GLM.raise (Exn.TextureError (sizeMessage i s))
  let type := if i.nchannels = 4 then GL_RGBA else GL_RGB
  glBindTexture self.target self.id
  glTexSubImage3D self.target 0 0 0 layer s.width s.height 1 type GL_UNSIGNED_BYTE
    image.localpixels
  assertNoGLError "glTexSubImage3D"

/-- Method `TextureArray2D::image`. -/
def TextureArray2D.image (self : Texture) (layer : Nat) : GLM ImageBuf := do
  glBindTexture self.target self.id
  let internalFormat ← glGetTexLevelParameteriv self.target 0 GL_TEXTURE_INTERNAL_FORMAT
  if internalFormat ≠ GL_RGBA ∧ internalFormat ≠ GL_BGRA then
    GLM.raise (Exn.TextureError "Internal format must be GL_RGBA or GL_BGRA to extract image.")
  let s ← TextureArray2D.size self
  let s := { s with depth := 0 }
  let fb ← glGen (GLCall.glGenFramebuffers 1)
  issue (GLCall.glBindFramebuffer GL_FRAMEBUFFER fb)
  issue (GLCall.glFramebufferTextureLayer GL_FRAMEBUFFER GL_COLOR_ATTACHMENT0 self.id 0 layer)
  assertNoGLError "glFramebufferTextureLayer"
  issue (GLCall.glReadBuffer GL_COLOR_ATTACHMENT0)
  let pixels ← glReadPixels 0 0 s.width s.height GL_RGBA GL_UNSIGNED_BYTE
  assertNoGLError "glReadPixels"
  issue (GLCall.glDeleteFramebuffers 1 fb)
  assertNoGLError "glDeleteFramebuffers"
  pure { spec := s, localpixels := pixels }

/-! ## Framebuffer -/

/-- The data members of class `Framebuffer`.  `depth_buffer` is `none` while the member
has not been assigned. -/
structure Framebuffer where
  width : Nat
  height : Nat
  use_depth_test : Bool
  color_attachments : List Texture
  id : Nat
  depth_buffer : Option Nat
  deriving DecidableEq, Repr

/-- Constructor `Framebuffer::Framebuffer`. -/
def Framebuffer.create (width height : Nat) (use_depth_test : Bool) : GLM Framebuffer := do
  let id ← glGen (GLCall.glGenFramebuffers 1)
  assertNoGLError "glGenFramebuffers"
  issue (GLCall.glBindFramebuffer GL_FRAMEBUFFER id)
  assertNoGLError "glBindFramebuffer"
  if use_depth_test then
    let depth_buffer ← glGen (GLCall.glGenRenderbuffers 1)
    issue (GLCall.glBindRenderbuffer GL_RENDERBUFFER depth_buffer)
    assertNoGLError "glBindRenderbuffer"
    issue (GLCall.glRenderbufferStorage GL_RENDERBUFFER GL_DEPTH_COMPONENT32F width height)
    assertNoGLError "glRenderbufferStorage"
    issue (GLCall.glFramebufferRenderbuffer GL_FRAMEBUFFER GL_DEPTH_ATTACHMENT GL_RENDERBUFFER
      depth_buffer)
    assertNoGLError "glFramebufferRenderbuffer"
    pure { width := width, height := height, use_depth_test := use_depth_test,
           color_attachments := [], id := id, depth_buffer := some depth_buffer }
  else
    pure { width := width, height := height, use_depth_test := use_depth_test,
           color_attachments := [], id := id, depth_buffer := none }

/-- Method `Framebuffer::bind`. -/
def Framebuffer.bind (self : Framebuffer) : GLM Unit := do
  if self.color_attachments.length = 0 then
    GLM.raise (Exn.FramebufferError "No color attachments, nothing to draw to.")
  issue (GLCall.glBindFramebuffer GL_FRAMEBUFFER self.id)
  assertNoGLError "glBindFramebuffer"
  let status ← glCheckFramebufferStatus GL_FRAMEBUFFER
  if status ≠ GL_FRAMEBUFFER_COMPLETE then
    GLM.raise (Exn.FramebufferError "Framebuffer is not complete.")
  issue (GLCall.glViewport 0 0 self.width self.height)
  let size := self.color_attachments.length % 4294967296
  let parameter := (List.range size).map fun i => uadd GL_COLOR_ATTACHMENT0 i
  issue (GLCall.glDrawBuffers size parameter)
  assertNoGLError "glDrawBuffers"
  if self.use_depth_test then
    issue (GLCall.glEnable GL_DEPTH_TEST)
    issue (GLCall.glClear GL_DEPTH_BUFFER_BIT)
  else
    issue (GLCall.glDisable GL_DEPTH_TEST)
  issue (GLCall.glClear GL_COLOR_BUFFER_BIT)

/-- Method `Framebuffer::store_color_attachment`: the outcome and the object after the
call. -/
def Framebuffer.store_color_attachment (self : Framebuffer) (texture : Texture) (id : Nat) :
    Outcome Unit × Framebuffer :=
  if id < self.color_attachments.length then
    (Outcome.returned (),
      { self with color_attachments := self.color_attachments.set id texture })
  else if id = self.color_attachments.length then
    (Outcome.returned (), { self with color_attachments := self.color_attachments ++ [texture] })
  else
    (Outcome.raised (Exn.FramebufferError "Attachment id's must be sequential."), self)

/-- Method `Framebuffer::set_color_attachment(std::shared_ptr<Texture>, unsigned int)`:
the outcome, the object after the call and the driver after the call. -/
def Framebuffer.set_color_attachment (self : Framebuffer) (texture : Texture) (id : Nat)
    (d : Driver) : Outcome Unit × Framebuffer × Driver :=
  match self.store_color_attachment texture id with
  | (Outcome.returned _, self1) =>
    let r := (do
      issue (GLCall.glBindFramebuffer GL_FRAMEBUFFER self1.id)
      issue (GLCall.glFramebufferTexture2D GL_FRAMEBUFFER (uadd GL_COLOR_ATTACHMENT0 id)
        texture.target texture.id 0)
      assertNoGLError "glFramebufferTexture2D" : GLM Unit) d
    (r.1, self1, r.2)
  | (Outcome.raised e, self1) => (Outcome.raised e, self1, d)
  | (Outcome.undefined, self1) => (Outcome.undefined, self1, d)

/-- Method `Framebuffer::set_color_attachment(std::shared_ptr<TextureArray2D>, unsigned
int layer, unsigned int id)`. -/
def Framebuffer.set_color_attachment_layer (self : Framebuffer) (texture_array : Texture)
    (layer id : Nat) (d : Driver) : Outcome Unit × Framebuffer × Driver :=
  match self.store_color_attachment texture_array id with
  | (Outcome.returned _, self1) =>
    let r := (do
      issue (GLCall.glBindFramebuffer GL_FRAMEBUFFER self1.id)
      issue (GLCall.glFramebufferTextureLayer GL_FRAMEBUFFER (uadd GL_COLOR_ATTACHMENT0 id)
        texture_array.id 0 layer)
      assertNoGLError "glFramebufferTextureLayer" : GLM Unit) d
    (r.1, self1, r.2)
  | (Outcome.raised e, self1) => (Outcome.raised e, self1, d)
  | (Outcome.undefined, self1) => (Outcome.undefined, self1, d)

/-- Attach the textures of a list at the consecutive slots `id`, `id + 1`, .. with
`store_color_attachment`, stopping at the first call that throws. -/
def Framebuffer.store_sequence : Framebuffer → Nat → List Texture → Outcome Unit × Framebuffer
  | self, _, [] => (Outcome.returned (), self)
  | self, id, texture :: rest =>
    match self.store_color_attachment texture id with
    | (Outcome.returned _, self1) => Framebuffer.store_sequence self1 (id + 1) rest
    | failed => failed

/-- Attach the textures of a list at the consecutive slots `id`, `id + 1`, .. with
`set_color_attachment`, stopping at the first call that throws. -/
def Framebuffer.attach_sequence :
    Framebuffer → Nat → List Texture → Driver → Outcome Unit × Framebuffer × Driver
  | self, _, [], d => (Outcome.returned (), self, d)
  | self, id, texture :: rest, d =>
    match self.set_color_attachment texture id d with
    | (Outcome.returned _, self1, d1) => Framebuffer.attach_sequence self1 (id + 1) rest d1
    | failed => failed

/-- The driver after the `size()` call at the start of `set`. -/
def afterSize (self : Texture) (d : Driver) : Driver :=
  { d with
    trace := d.trace ++
      [GLCall.glGetTexLevelParameteriv self.target 0 GL_TEXTURE_WIDTH,
        GLCall.glGetTexLevelParameteriv self.target 0 GL_TEXTURE_HEIGHT,
        GLCall.glGetTexLevelParameteriv self.target 0 GL_TEXTURE_DEPTH,
        GLCall.glGetError]
    errors := d.errors.tail }

/-- The driver after the upload of `set`, before the closing error check. -/
def afterUpload (self : Texture) (layer : Nat) (image : ImageBuf) (d : Driver) : Driver :=
  { d with
    trace := d.trace ++
      [GLCall.glGetTexLevelParameteriv self.target 0 GL_TEXTURE_WIDTH,
        GLCall.glGetTexLevelParameteriv self.target 0 GL_TEXTURE_HEIGHT,
        GLCall.glGetTexLevelParameteriv self.target 0 GL_TEXTURE_DEPTH,
        GLCall.glGetError,
        GLCall.glBindTexture self.target self.id,
        GLCall.glTexSubImage3D self.target 0 0 0 layer
          (d.textures (d.bound self.target)).width (d.textures (d.bound self.target)).height 1
          (if image.spec.nchannels = 4 then GL_RGBA else GL_RGB) GL_UNSIGNED_BYTE
          image.localpixels]
    errors := d.errors.tail
    bound := Function.update d.bound self.target self.id
    textures := Function.update d.textures self.id
      ((d.textures self.id).subImage layer 1 image.localpixels) }

/-- A driver in which texture 3, a 2 x 2 array of three RGBA layers, is bound to
`GL_TEXTURE_2D_ARRAY`; everything else as in `Driver.initial`. -/
def Driver.sample : Driver :=
  { Driver.initial with
    bound := fun target => if target = GL_TEXTURE_2D_ARRAY then 3 else 0
    textures := fun name =>
      if name = 3 then
        { minFilter := GL_LINEAR, magFilter := GL_LINEAR, wrapS := GL_CLAMP_TO_BORDER,
          wrapT := GL_CLAMP_TO_BORDER, width := 2, height := 2, depth := 3,
          internalFormat := GL_RGBA, layers := [[10], [20], [30]] }
      else Driver.initial.textures name }

/-- The sample driver with a given list of coming error reports. -/
def Driver.sampleWithErrors (errors : List Nat) : Driver :=
  { Driver.sample with errors := errors }

/-- A driver that holds two 2 x 2 RGBA texture arrays, texture 3 with the three layers
`[10]`, `[20]`, `[30]` and texture 4 with the one layer `[40]`, and has texture `current`
bound to `GL_TEXTURE_2D_ARRAY`; everything else as in `Driver.initial`. -/
def Driver.twoArrays (current : Nat) : Driver :=
  { Driver.initial with
    bound := fun target => if target = GL_TEXTURE_2D_ARRAY then current else 0
    textures := fun name =>
      if name = 3 then
        { minFilter := GL_LINEAR, magFilter := GL_LINEAR, wrapS := GL_CLAMP_TO_BORDER,
          wrapT := GL_CLAMP_TO_BORDER, width := 2, height := 2, depth := 3,
          internalFormat := GL_RGBA, layers := [[10], [20], [30]] }
      else if name = 4 then
        { minFilter := GL_LINEAR, magFilter := GL_LINEAR, wrapS := GL_CLAMP_TO_BORDER,
          wrapT := GL_CLAMP_TO_BORDER, width := 2, height := 2, depth := 1,
          internalFormat := GL_RGBA, layers := [[40]] }
      else Driver.initial.textures name }

/-! ## Further driver calls -/

/-- Undefined behaviour at this point of a computation. -/
def GLM.undefined {α : Type} : GLM α := fun d => (Outcome.undefined, d)

/-- The driver call `glActiveTexture`: `texture` becomes the active unit; the bindings of
the unit left are kept aside and those of the unit entered become the current ones. -/
def glActiveTexture (texture : Nat) : GLM Unit := fun d =>
  (Outcome.returned (),
    if texture = d.activeTexture then
      { d with trace := d.trace ++ [GLCall.glActiveTexture texture] }
    else
      { d with trace := d.trace ++ [GLCall.glActiveTexture texture]
               activeTexture := texture
               bound := d.inactive texture
               inactive := Function.update d.inactive d.activeTexture d.bound })

/-- The texture name bound to `target` on texture unit `unit`. -/
def Driver.unitBinding (d : Driver) (unit target : Nat) : Nat :=
  if unit = d.activeTexture then d.bound target else d.inactive unit target

/-- The driver call `glGetUniformLocation`. -/
def glGetUniformLocation (program : Nat) (name : String) : GLM Int := fun d =>
  (Outcome.returned (d.uniformLocation program name),
    { d with trace := d.trace ++ [GLCall.glGetUniformLocation program name] })

/-- The driver call `glGetAttribLocation`. -/
def glGetAttribLocation (program : Nat) (name : String) : GLM Int := fun d =>
  (Outcome.returned (d.attribLocation program name),
    { d with trace := d.trace ++ [GLCall.glGetAttribLocation program name] })

/-- Value of an `unsigned int` converted to `int`. -/
def toSigned (n : Nat) : Int :=
  if n % 4294967296 < 2147483648 then ((n % 4294967296 : Nat) : Int)
  else ((n % 4294967296 : Nat) : Int) - 4294967296

/-- Value of a `size_t` expression. -/
def toSize (n : Nat) : Nat := n % 18446744073709551616

/-! ## Buffer -/

/-- The enumeration `Buffer::ValueType`. -/
inductive Buffer.ValueType where
  | Byte | UnsignedByte | Short | UnsignedShort | Integer | UnsignedInteger
  | HalfFloat | Float | Double | Fixed
  deriving DecidableEq, Repr

/-- The OpenGL constant behind an enumerator of `Buffer::ValueType`. -/
def Buffer.ValueType.toGLenum : Buffer.ValueType → Nat
  | Buffer.ValueType.Byte => GL_BYTE
  | Buffer.ValueType.UnsignedByte => GL_UNSIGNED_BYTE
  | Buffer.ValueType.Short => GL_SHORT
  | Buffer.ValueType.UnsignedShort => GL_UNSIGNED_SHORT
  | Buffer.ValueType.Integer => GL_INT
  | Buffer.ValueType.UnsignedInteger => GL_UNSIGNED_INT
  | Buffer.ValueType.HalfFloat => GL_HALF_FLOAT
  | Buffer.ValueType.Float => GL_FLOAT
  | Buffer.ValueType.Double => GL_DOUBLE
  | Buffer.ValueType.Fixed => GL_FIXED

/-- The data members of class `Buffer`.  The constructor initialises `_bufferType` and
`_id` only: `valueType`, `elements` and `dimension` are `none` until the first upload. -/
structure Buffer where
  bufferType : Nat
  valueType : Option Buffer.ValueType
  elements : Option Nat
  dimension : Option Nat
  id : Nat
  deriving DecidableEq, Repr

/-- Class `ElementArrayBuffer`: a `Buffer` with a primitive mode. -/
structure ElementArrayBuffer extends Buffer where
  mode : Nat
  deriving DecidableEq, Repr

/-- Constructor `Buffer::Buffer(BufferType type)`. -/
def Buffer.create (type : Nat) : GLM Buffer := do
  let id ← glGen (GLCall.glGenBuffers 1)
  assertNoGLError "glGenBuffers"
  pure { bufferType := type, valueType := none, elements := none, dimension := none, id := id }

/-- Constructor `ArrayBuffer::ArrayBuffer()`. -/
def ArrayBuffer.create : GLM Buffer := Buffer.create GL_ARRAY_BUFFER

/-- Constructor `ElementArrayBuffer::ElementArrayBuffer(GLenum mode)`. -/
def ElementArrayBuffer.create (mode : Nat) : GLM ElementArrayBuffer := do
  let base ← Buffer.create GL_ELEMENT_ARRAY_BUFFER
  pure { toBuffer := base, mode := mode }

/-- Destructor `Buffer::~Buffer`. -/
def Buffer.destroy (self : Buffer) : GLM Unit := do
  issue (GLCall.glDeleteBuffers 1 self.id)
  assertNoGLError "glDeleteBuffers"

/-- The protected method `Buffer::data(size_t size, const void *ptr)`. -/
def Buffer.data_bytes (self : Buffer) (size : Nat) (ptr : List Nat) : GLM Unit := do
  issue (GLCall.glBindBuffer self.bufferType self.id)
  issue (GLCall.glBufferData self.bufferType size ptr GL_STATIC_DRAW)
  assertNoGLError "glBufferData"

/-- The method template `Buffer::data<T>(size_t elements, unsigned char dimension,
ValueType valueType, const T *ptr)`: `sizeofT` is `sizeof(T)`, `ptr` the bytes behind the
pointer.  The result is the outcome, the object after the call and the driver after the
call. -/
def Buffer.data (self : Buffer) (elements dimension : Nat) (valueType : Buffer.ValueType)
    (sizeofT : Nat) (ptr : List Nat) (d : Driver) : Outcome Unit × Buffer × Driver :=
  let self1 : Buffer :=
    { self with elements := some elements, dimension := some dimension,
                valueType := some valueType }
  let r := self1.data_bytes (toSize (elements * dimension * sizeofT)) ptr d
  (r.1, self1, r.2)

/-- The overload `Buffer::data(size_t, unsigned char, const double *)`;
`sizeof(double)` is 8. -/
def Buffer.data_double (self : Buffer) (elements dimension : Nat) (ptr : List Nat)
    (d : Driver) : Outcome Unit × Buffer × Driver :=
  self.data elements dimension Buffer.ValueType.Double 8 ptr d

/-- The overload `Buffer::data(size_t, unsigned char, const float *)`;
`sizeof(float)` is 4. -/
def Buffer.data_float (self : Buffer) (elements dimension : Nat) (ptr : List Nat)
    (d : Driver) : Outcome Unit × Buffer × Driver :=
  self.data elements dimension Buffer.ValueType.Float 4 ptr d

/-- The overload `Buffer::data(size_t, unsigned char, const unsigned int *)`;
`sizeof(unsigned int)` is 4. -/
def Buffer.data_unsigned (self : Buffer) (elements dimension : Nat) (ptr : List Nat)
    (d : Driver) : Outcome Unit × Buffer × Driver :=
  self.data elements dimension Buffer.ValueType.UnsignedInteger 4 ptr d

/-- Method `ArrayBuffer::bind(GLuint index)`; reading a member that no upload has set is
undefined behaviour. -/
def ArrayBuffer.bind (self : Buffer) (index : Nat) : GLM Unit := do
  issue (GLCall.glBindBuffer self.bufferType self.id)
  match self.dimension, self.valueType with
  | some dimension, some valueType =>
    issue (GLCall.glVertexAttribPointer index dimension valueType.toGLenum GL_FALSE 0)
    assertNoGLError "glVertexAttribPointer"
  | _, _ => GLM.undefined

/-- Method `ElementArrayBuffer::bind()`. -/
def ElementArrayBuffer.bind (self : ElementArrayBuffer) : GLM Unit := do
  issue (GLCall.glBindBuffer self.bufferType self.id)
  assertNoGLError "glBindBuffer"

/-- The size in bytes that the upload contract gives a value type: 1 for `Byte` and
`UnsignedByte`, 2 for `Short`, `UnsignedShort` and `HalfFloat`, 4 for `Integer`,
`UnsignedInteger`, `Float` and `Fixed`, 8 for `Double`. -/
def Buffer.ValueType.sizeOf : Buffer.ValueType → Nat
  | Buffer.ValueType.Byte => 1
  | Buffer.ValueType.UnsignedByte => 1
  | Buffer.ValueType.Short => 2
  | Buffer.ValueType.UnsignedShort => 2
  | Buffer.ValueType.HalfFloat => 2
  | Buffer.ValueType.Integer => 4
  | Buffer.ValueType.UnsignedInteger => 4
  | Buffer.ValueType.Float => 4
  | Buffer.ValueType.Fixed => 4
  | Buffer.ValueType.Double => 8

/-- The byte counts handed to `glBufferData` among a list of driver calls, in order. -/
def uploadedSizes : List GLCall → List Nat
  | [] => []
  | GLCall.glBufferData _ size _ _ :: cs => size :: uploadedSizes cs
  | _ :: cs => uploadedSizes cs

/-! ## Texture2D readback and the destructors -/

/-- Method `Texture2D::size`. -/
def Texture2D.size (self : Texture) : GLM ImageSpec := do
  let width ← glGetTexLevelParameteriv self.target 0 GL_TEXTURE_WIDTH
  let height ← glGetTexLevelParameteriv self.target 0 GL_TEXTURE_HEIGHT
  assertNoGLError "glGetTexLevelParameteriv"
  pure (ImageSpec.create width height DEFAULT_TEXTURE_CHANNELS)

/-- Method `Texture2D::image`. -/
def Texture2D.image (self : Texture) : GLM ImageBuf := do
  glBindTexture self.target self.id
  let internalFormat ← glGetTexLevelParameteriv self.target 0 GL_TEXTURE_INTERNAL_FORMAT
  if internalFormat ≠ GL_RGBA ∧ internalFormat ≠ GL_BGRA then
    GLM.raise (Exn.TextureError "Internal format must be GL_RGBA or GL_BGRA to extract image.")
  let s ← Texture2D.size self
  let pixels ← glGetTexImage self.target 0 GL_RGBA GL_UNSIGNED_BYTE
  assertNoGLError "glGetTexImage"
  pure { spec := s, localpixels := pixels }

/-- Destructor `Texture::~Texture`. -/
def Texture.destroy (self : Texture) : GLM Unit :=
  issue (GLCall.glDeleteTextures 1 self.id)

/-- Destruction of the textures in a list, one after the other. -/
def Texture.destroyAll : List Texture → GLM Unit
  | [] => pure ()
  | texture :: rest => do
    texture.destroy
    Texture.destroyAll rest

/-- The destructor of `Framebuffer`.  The class declares none, so the implicit one runs:
it has no statement of its own and releases the shared pointers held in
`_color_attachments`; `lastOwner texture` tells that this release ends the life of the
texture, whose destructor then runs. -/
def Framebuffer.destroy (self : Framebuffer) (lastOwner : Texture → Bool) : GLM Unit :=
  Texture.destroyAll (self.color_attachments.filter lastOwner)

/-! ## Shader and Program -/

/-- The data members of class `Shader`. -/
structure Shader where
  shaderID : Nat
  type : Nat
  deriving DecidableEq, Repr

/-- Destructor `Shader::~Shader`. -/
def Shader.destroy (self : Shader) : GLM Unit := do
  issue (GLCall.glDeleteShader self.shaderID)
  assertNoGLError "glDeleteShader"

/-- The data members of class `Program`. -/
structure Program where
  programID : Nat
  shaders : List Shader
  activeAttributes : List (Nat × Buffer)
  activeTextures : List Texture
  deriving DecidableEq, Repr

/-- Constructor `Program::Program`. -/
def Program.create : GLM Program := do
  let programID ← glGen GLCall.glCreateProgram
  assertNoGLError "glCreateProgram"
  pure { programID := programID, shaders := [], activeAttributes := [], activeTextures := [] }

/-- The loop of `Program::~Program` over the attached shaders. -/
def Program.detachAll (programID : Nat) : List Shader → GLM Unit
  | [] => pure ()
  | s :: rest => do
    issue (GLCall.glDetachShader programID s.shaderID)
    assertNoGLError "glDetachShader"
    Program.detachAll programID rest

/-- Destructor `Program::~Program`. -/
def Program.destroy (self : Program) : GLM Unit := do
  Program.detachAll self.programID self.shaders
  issue (GLCall.glDeleteProgram self.programID)
  assertNoGLError "glCreateProgram"

/-- Method `Program::append(std::shared_ptr<Shader>)`. -/
def Program.append (self : Program) (shader : Shader) (d : Driver) :
    Outcome Unit × Program × Driver :=
  let self1 : Program := { self with shaders := self.shaders ++ [shader] }
  let r := (do
    issue (GLCall.glAttachShader self1.programID shader.shaderID)
    assertNoGLError "glAttachShader" : GLM Unit) d
  (r.1, self1, r.2)

/-- Method `Program::use`. -/
def Program.use (self : Program) : GLM Unit := do
  issue (GLCall.glUseProgram self.programID)
  assertNoGLError "glUseProgram"

/-- Method `Program::uniformLocation`; the `GLint` found is returned as `unsigned int`. -/
def Program.uniformLocation (self : Program) (name : String) : GLM Nat := do
  let loc ← glGetUniformLocation self.programID name
  assertNoGLError "glGetUniformLocation"
  if loc < 0 then
    GLM.raise (Exn.ProgramError ("Uniform “" ++ name ++ "” seems unknown!"))
  pure (toUnsigned loc)

/-- Method `Program::uniform(const std::string &, int)`. -/
def Program.uniform_int (self : Program) (location : String) (value : Int) : GLM Unit := do
  let loc ← self.uniformLocation location
  issue (GLCall.glUniform1i loc value)
  assertNoGLError "glUniform1i"

/-- Method `Program::uniform(const std::string &, unsigned int)`. -/
def Program.uniform_unsigned (self : Program) (location : String) (value : Nat) : GLM Unit :=
  self.uniform_int location (toSigned value)

/-- Method `Program::uniform(const std::string &, float)`. -/
def Program.uniform_float (self : Program) (location : String) (value : Nat) : GLM Unit := do
  let loc ← self.uniformLocation location
  issue (GLCall.glUniform1f loc value)
  assertNoGLError "glUniform1f"

/-- Method `Program::uniform(const std::string &, std::shared_ptr<Texture>)`: the
outcome, the object after the call and the driver after the call. -/
def Program.uniform_texture (self : Program) (location : String) (texture : Texture)
    (d : Driver) : Outcome Unit × Program × Driver :=
  let num := self.activeTextures.length
  let r := (do
    self.uniform_unsigned location (num % 4294967296)
    glActiveTexture (toSize (GL_TEXTURE0 + num))
    assertNoGLError "glActiveTexture"
    texture.bind : GLM Unit) d
  match r with
  | (Outcome.returned _, d1) =>
    (Outcome.returned (), { self with activeTextures := self.activeTextures ++ [texture] }, d1)
  | (Outcome.raised e, d1) => (Outcome.raised e, self, d1)
  | (Outcome.undefined, d1) => (Outcome.undefined, self, d1)

/-- Texture uniforms set one after the other, stopping at the first call that does not
return. -/
def Program.uniform_sequence :
    Program → List (String × Texture) → Driver → Outcome Unit × Program × Driver
  | self, [], d => (Outcome.returned (), self, d)
  | self, (name, texture) :: rest, d =>
    match self.uniform_texture name texture d with
    | (Outcome.returned _, self1, d1) => Program.uniform_sequence self1 rest d1
    | failed => failed

/-- Method `Program::attribute`. -/
def Program.attribute (self : Program) (name : String) (buffer : Buffer) (d : Driver) :
    Outcome Unit × Program × Driver :=
  let r := (do
    let loc ← glGetAttribLocation self.programID name
    assertNoGLError "glGetAttribLocation"
    if loc < 0 then
      GLM.raise (Exn.ProgramError ("Attribute “" ++ name ++ "” seems unknown!"))
    ArrayBuffer.bind buffer (toUnsigned loc)
    pure (toUnsigned loc) : GLM Nat) d
  match r with
  | (Outcome.returned loc, d1) =>
    (Outcome.returned (),
      { self with activeAttributes := self.activeAttributes ++ [(loc, buffer)] }, d1)
  | (Outcome.raised e, d1) => (Outcome.raised e, self, d1)
  | (Outcome.undefined, d1) => (Outcome.undefined, self, d1)

/-- The loop of `Program::enableAttributes`. -/
def Program.enableLoop : List (Nat × Buffer) → GLM Unit
  | [] => pure ()
  | loc :: rest => do
    issue (GLCall.glEnableVertexAttribArray loc.1)
    assertNoGLError "glEnableVertexAttribArray"
    Program.enableLoop rest

/-- Method `Program::enableAttributes`. -/
def Program.enableAttributes (self : Program) : GLM Unit :=
  Program.enableLoop self.activeAttributes

/-- The loop of `Program::disableAttributesAndClear`. -/
def Program.disableLoop : List (Nat × Buffer) → GLM Unit
  | [] => pure ()
  | attr :: rest => do
    issue (GLCall.glDisableVertexAttribArray attr.1)
    assertNoGLError "glDisableVertexAttribArray"
    Program.disableLoop rest

/-- Method `Program::disableAttributesAndClear`: the outcome, the object after the call
and the driver after the call. -/
def Program.disableAttributesAndClear (self : Program) (d : Driver) :
    Outcome Unit × Program × Driver :=
  match Program.disableLoop self.activeAttributes d with
  | (Outcome.returned _, d1) =>
    let self1 : Program := { self with activeAttributes := [] }
    if self1.activeTextures.length ≠ 0 then
      let self2 : Program := { self1 with activeTextures := [] }
      let r := (do
        glActiveTexture GL_TEXTURE0
        assertNoGLError "glActiveTexture" : GLM Unit) d1
      (r.1, self2, r.2)
    else
      (Outcome.returned (), self1, d1)
  | (Outcome.raised e, d1) => (Outcome.raised e, self, d1)
  | (Outcome.undefined, d1) => (Outcome.undefined, self, d1)

/-- Method `Program::render(const ElementArrayBuffer &)`; reading a member of `faces`
that no upload has set is undefined behaviour. -/
def Program.render (self : Program) (faces : ElementArrayBuffer) (d : Driver) :
    Outcome Unit × Program × Driver :=
  let r := (do
    self.enableAttributes
    faces.bind
    match faces.elements, faces.dimension, faces.valueType with
    | some elements, some dimension, some valueType =>
      issue (GLCall.glDrawElements faces.mode (toSize (elements * dimension))
        valueType.toGLenum)
      assertNoGLError "glDrawElements"
    | _, _, _ => GLM.undefined : GLM Unit) d
  match r with
  | (Outcome.returned _, d1) => self.disableAttributesAndClear d1
  | (Outcome.raised e, d1) => (Outcome.raised e, self, d1)
  | (Outcome.undefined, d1) => (Outcome.undefined, self, d1)

/-- Method `Program::render(std::shared_ptr<ArrayBuffer>, const std::string &, GLenum)`. -/
def Program.render_arrays (self : Program) (vertices : Buffer) (location : String)
    (mode : Nat) (d : Driver) : Outcome Unit × Program × Driver :=
  match self.attribute location vertices d with
  | (Outcome.returned _, self1, d1) =>
    let r := (do
      self1.enableAttributes
      match vertices.elements, vertices.dimension with
      | some elements, some dimension =>
        issue (GLCall.glDrawArrays mode 0 (toSize (elements * dimension)))
        assertNoGLError "glDrawArrays"
      | _, _ => GLM.undefined : GLM Unit) d1
    match r with
    | (Outcome.returned _, d2) => self1.disableAttributesAndClear d2
    | (Outcome.raised e, d2) => (Outcome.raised e, self1, d2)
    | (Outcome.undefined, d2) => (Outcome.undefined, self1, d2)
  | failed => failed

/-- A driver that knows the uniforms `tex0`, `tex1` (locations 0, 1) and the attribute
`vertex` (location 0) of every program and will report the given errors; everything
else as in `Driver.initial`. -/
def Driver.linked (errors : List Nat) : Driver :=
  { Driver.initial with
    errors := errors
    uniformLocation := fun _ name => if name = "tex0" then 0 else if name = "tex1" then 1 else -1
    attribLocation := fun _ name => if name = "vertex" then 0 else -1 }

/-- A vertex buffer holding three 3-component float vertices. -/
def Buffer.sampleVertices : Buffer :=
  { bufferType := GL_ARRAY_BUFFER, valueType := some Buffer.ValueType.Float,
    elements := some 3, dimension := some 3, id := 5 }

/-- An index buffer holding one triangle of three unsigned indices. -/
def ElementArrayBuffer.sampleFaces : ElementArrayBuffer :=
  { bufferType := GL_ELEMENT_ARRAY_BUFFER, valueType := some Buffer.ValueType.UnsignedInteger,
    elements := some 3, dimension := some 1, id := 6, mode := GL_TRIANGLES }

/-- A program with one attached shader, one active attribute (slot 0) and one active
texture. -/
def Program.sample : Program :=
  { programID := 9, shaders := [{ shaderID := 8, type := GL_VERTEX_SHADER }],
    activeAttributes := [(0, Buffer.sampleVertices)],
    activeTextures := [{ id := 3, target := GL_TEXTURE_2D }] }

/-- The outcome is a return or an `OpenGLError`. -/
def Outcome.benign {α : Type} (o : Outcome α) : Prop :=
  (∃ a, o = Outcome.returned a) ∨ ∃ what, o = Outcome.raised (Exn.OpenGLError what)

/-- On every driver the computation returns or throws an `OpenGLError`. -/
def Benign {α : Type} (m : GLM α) : Prop := ∀ d, (m d).1.benign

/-- The attribute slots enabled by the calls of a list, in order. -/
def enabledSlots (calls : List GLCall) : List Nat :=
  calls.filterMap fun c =>
    match c with
    | GLCall.glEnableVertexAttribArray index => some index
    | _ => none

/-- The attribute slots disabled by the calls of a list, in order. -/
def disabledSlots (calls : List GLCall) : List Nat :=
  calls.filterMap fun c =>
    match c with
    | GLCall.glDisableVertexAttribArray index => some index
    | _ => none

/-- The calls of the enable loop when every check passes. -/
def Program.enableCalls : List (Nat × Buffer) → List GLCall
  | [] => []
  | loc :: rest =>
    GLCall.glEnableVertexAttribArray loc.1 :: GLCall.glGetError :: Program.enableCalls rest

/-- The calls of the disable loop when every check passes. -/
def Program.disableCalls : List (Nat × Buffer) → List GLCall
  | [] => []
  | attr :: rest =>
    GLCall.glDisableVertexAttribArray attr.1 :: GLCall.glGetError :: Program.disableCalls rest

/-- The calls that reset the texture unit after a draw: none when no texture was
active. -/
def Program.resetCalls (self : Program) : List GLCall :=
  if self.activeTextures.length ≠ 0 then [GLCall.glActiveTexture GL_TEXTURE0, GLCall.glGetError]
  else []

/-- The calls that the texture-uniform contract prescribes for setting the textures of a
list one after the other, when the first of them gets the unit index `first`: for the
texture at position `i` the query of the location of its uniform, the write of the
integer `first + i` to that location, the activation of unit `GL_TEXTURE0 + (first + i)`
and the bind of the texture to its target, each followed by a query of the error flag.
`location` gives the location the driver reports for a uniform name. -/
def textureUniformCalls (program : Nat) (location : String → Int) :
    Nat → List (String × Texture) → List GLCall
  | _, [] => []
  | first, (name, texture) :: rest =>
    [GLCall.glGetUniformLocation program name, GLCall.glGetError,
      GLCall.glUniform1i (toUnsigned (location name)) (first : Int), GLCall.glGetError,
      GLCall.glActiveTexture (GL_TEXTURE0 + first), GLCall.glGetError,
      GLCall.glBindTexture texture.target texture.id, GLCall.glGetError] ++
    textureUniformCalls program location (first + 1) rest

/-! ## Theorems -/

theorem isRowMajor_false_ne (value : EigenMatrix) (h : value.isRowMajor = false) :
    value.Options ≠ Eigen.RowMajor := by
  intro h1
  rw [EigenMatrix.isRowMajor, h1] at h
  revert h
  decide

theorem assertNoGLError_trace (component : String) (d : Driver) :
    (assertNoGLError component d).2.trace = d.trace ++ [GLCall.glGetError] := by
  unfold assertNoGLError
  simp only [bind, GLM.bind, glGetError]
  split <;> simp_all [GLM.raise, pure, GLM.pure]

theorem vectorSetter_isSome (rows : Nat) :
    (vectorSetter rows).isSome = true ↔ rows = 1 ∨ rows = 2 ∨ rows = 3 ∨ rows = 4 := by
  unfold vectorSetter
  split <;> simp_all

theorem matrixSetter_isSome (cols rows : Nat) :
    (matrixSetter cols rows).isSome = true ↔
      (cols = 2 ∨ cols = 3 ∨ cols = 4) ∧ (rows = 2 ∨ rows = 3 ∨ rows = 4) := by
  unfold matrixSetter
  split <;> simp_all
  omega

theorem contractSetter_isSome (rows cols : Nat) :
    (contractSetter rows cols).isSome = true ↔ AcceptedShape rows cols := by
  unfold contractSetter AcceptedShape
  by_cases hc : cols = 1
  · simp [hc, vectorSetter_isSome]
  · simp [hc, matrixSetter_isSome]

/-- What a call on a value whose `_Options` is not `Eigen::RowMajor` does: the table's
setter followed by the error check, or the shape error with the driver untouched. -/
theorem setUniformLocation_direct (fuel location arrayLength : Nat) (value : EigenMatrix)
    (d : Driver) (hne : value.Options ≠ Eigen.RowMajor) (ha : arrayLength ≠ 0) :
    Program.setUniformLocation (fuel + 1) location value arrayLength d =
      some (match contractSetter (value.rows / arrayLength) value.cols with
        | some (op, t) =>
          assertNoGLError "setUniform(Eigen::Matrix)"
            { d with trace := d.trace ++
                [GLCall.glUniformfv op location arrayLength t value.data] }
        | none =>
          (Outcome.raised (ProgramError.uniform (value.rows / arrayLength) value.cols
            arrayLength), d)) := by
  simp only [Program.setUniformLocation, hne, ha, if_false]
  congr 1
  split_ifs <;> simp_all [contractSetter, vectorSetter, matrixSetter, bind, GLM.bind, issue, GLM.raise]

theorem contractSetter_shape (rows cols : Nat) (op : UniformOp) (t : Option Nat)
    (h : contractSetter rows cols = some (op, t)) : op.shape = (rows, cols) := by
  have hacc := (contractSetter_isSome rows cols).mp (by simp [h])
  rcases hacc with ⟨hc, hr⟩ | ⟨hc, hr⟩
  · rcases hr with hr | hr | hr | hr <;> subst hc <;> subst hr <;>
      simp [contractSetter, vectorSetter] at h <;> obtain ⟨h1, -⟩ := h <;> subst h1 <;> rfl
  · rcases hc with hc | hc | hc <;> rcases hr with hr | hr | hr <;> subst hc <;> subst hr <;>
      simp [contractSetter, matrixSetter] at h <;> obtain ⟨h1, -⟩ := h <;> subst h1 <;> rfl

theorem assertNoGLError_outcome (component : String) (d : Driver) :
    (assertNoGLError component d).1 = Outcome.returned () ∨
      ∃ what, (assertNoGLError component d).1 = Outcome.raised (Exn.OpenGLError what) := by
  unfold assertNoGLError
  simp only [bind, GLM.bind, glGetError]
  split <;> simp_all [GLM.raise, pure, GLM.pure]

/-- An accepted shape: the call comes back having issued the table's setter and the
error query, and nothing else. -/
theorem setUniformLocation_accepted (fuel location arrayLength : Nat) (value : EigenMatrix)
    (d : Driver) (hne : value.Options ≠ Eigen.RowMajor) (ha : arrayLength ≠ 0)
    (op : UniformOp) (t : Option Nat)
    (hop : contractSetter (value.rows / arrayLength) value.cols = some (op, t)) :
    ∃ r, Program.setUniformLocation (fuel + 1) location value arrayLength d = some r ∧
      issuedSince d r.2 =
        [GLCall.glUniformfv op location arrayLength t value.data, GLCall.glGetError] ∧
      Program.dispatchedOps (fuel + 1) location value arrayLength d = [op] ∧
      (r.1 = Outcome.returned () ∨ ∃ what, r.1 = Outcome.raised (Exn.OpenGLError what)) := by
  have hrun := setUniformLocation_direct fuel location arrayLength value d hne ha
  rw [hop] at hrun
  refine ⟨_, hrun, ?_, ?_, ?_⟩
  · simp [issuedSince, assertNoGLError_trace]
  · simp [Program.dispatchedOps, hrun, issuedSince, assertNoGLError_trace, uniformOps]
  · exact assertNoGLError_outcome _ _

/-- A rejected shape: the call throws the shape error and leaves the driver as it was. -/
theorem setUniformLocation_rejected (fuel location arrayLength : Nat) (value : EigenMatrix)
    (d : Driver) (hne : value.Options ≠ Eigen.RowMajor) (ha : arrayLength ≠ 0)
    (hrej : ¬ AcceptedShape (value.rows / arrayLength) value.cols) :
    Program.setUniformLocation (fuel + 1) location value arrayLength d =
      some (Outcome.raised (ProgramError.uniform (value.rows / arrayLength) value.cols
        arrayLength), d) := by
  have hrun := setUniformLocation_direct fuel location arrayLength value d hne ha
  have hnone : contractSetter (value.rows / arrayLength) value.cols = none := by
    rw [← contractSetter_isSome] at hrej
    simpa using hrej
  rw [hnone] at hrun
  exact hrun

/-- A value whose `_Options` is `Eigen::RowMajor` re-enters the row-major branch on every
level of the recursion, whatever the bound. -/
theorem setUniformLocation_rowMajor (fuel location arrayLength : Nat) (value : EigenMatrix)
    (d : Driver) (hrow : value.Options = Eigen.RowMajor) (ha : arrayLength ≠ 0) :
    Program.setUniformLocation fuel location value arrayLength d = none := by
  induction fuel generalizing value with
  | zero => rfl
  | succ n ih =>
    simp only [Program.setUniformLocation, ha, hrow, if_true, if_false]
    exact ih value.transposeAssign hrow

/-! ### Program: matrix-uniform dispatch -/

/-- C1: on a column-major value and `arrayLength ≥ 1`, with `cols = value.cols()` and
`rows = value.rows() / arrayLength`: a rank-1..4 vector (`cols = 1`) issues exactly one
set-uniform call, the `rows`-component vector setter; a shape with 2..4 columns and 2..4
rows issues exactly one set-uniform call, the matrix setter for `cols` columns and `rows`
rows with transpose flag `GL_FALSE`; the count argument is `arrayLength` in both cases;
and two accepted shapes that select the same operation are the same shape. -/
theorem C1_dispatch_selects_setter (fuel location arrayLength : Nat) (value : EigenMatrix)
    (d : Driver) (hcol : value.isRowMajor = false) (hlen : 1 ≤ arrayLength) :
    (value.cols = 1 →
      (value.rows / arrayLength = 1 ∨ value.rows / arrayLength = 2 ∨
        value.rows / arrayLength = 3 ∨ value.rows / arrayLength = 4) →
      ∃ op r, vectorSetter (value.rows / arrayLength) = some op ∧
        Program.setUniformLocation (fuel + 1) location value arrayLength d = some r ∧
        issuedSince d r.2 =
          [GLCall.glUniformfv op location arrayLength none value.data, GLCall.glGetError] ∧
        uniformOps (issuedSince d r.2) = [op]) ∧
    ((value.cols = 2 ∨ value.cols = 3 ∨ value.cols = 4) →
      (value.rows / arrayLength = 2 ∨ value.rows / arrayLength = 3 ∨
        value.rows / arrayLength = 4) →
      ∃ op r, matrixSetter value.cols (value.rows / arrayLength) = some op ∧
        Program.setUniformLocation (fuel + 1) location value arrayLength d = some r ∧
        issuedSince d r.2 =
          [GLCall.glUniformfv op location arrayLength (some GL_FALSE) value.data,
            GLCall.glGetError] ∧
        uniformOps (issuedSince d r.2) = [op]) ∧
    (∀ (fuel2 location2 arrayLength2 : Nat) (value2 : EigenMatrix) (d2 : Driver),
      value2.isRowMajor = false → 1 ≤ arrayLength2 →
      AcceptedShape (value.rows / arrayLength) value.cols →
      AcceptedShape (value2.rows / arrayLength2) value2.cols →
      Program.dispatchedOps (fuel + 1) location value arrayLength d =
        Program.dispatchedOps (fuel2 + 1) location2 value2 arrayLength2 d2 →
      value.rows / arrayLength = value2.rows / arrayLength2 ∧ value.cols = value2.cols) := by
  have hne := isRowMajor_false_ne value hcol
  have ha : arrayLength ≠ 0 := by omega
  refine ⟨?_, ?_, ?_⟩
  · intro hc hr
    have hsome : (vectorSetter (value.rows / arrayLength)).isSome = true :=
      (vectorSetter_isSome _).mpr hr
    obtain ⟨op, hop⟩ := Option.isSome_iff_exists.mp hsome
    have htab : contractSetter (value.rows / arrayLength) value.cols = some (op, none) := by
      simp [contractSetter, hc, hop]
    obtain ⟨r, hrun, htrace, -, -⟩ :=
      setUniformLocation_accepted fuel location arrayLength value d hne ha op none htab
    exact ⟨op, r, hop, hrun, htrace, by simp [htrace, uniformOps]⟩
  · intro hc hr
    have hsome : (matrixSetter value.cols (value.rows / arrayLength)).isSome = true :=
      (matrixSetter_isSome _ _).mpr ⟨hc, hr⟩
    obtain ⟨op, hop⟩ := Option.isSome_iff_exists.mp hsome
    have hc1 : value.cols ≠ 1 := by omega
    have htab : contractSetter (value.rows / arrayLength) value.cols =
        some (op, some GL_FALSE) := by
      simp [contractSetter, hc1, hop]
    obtain ⟨r, hrun, htrace, -, -⟩ :=
      setUniformLocation_accepted fuel location arrayLength value d hne ha op _ htab
    exact ⟨op, r, hop, hrun, htrace, by simp [htrace, uniformOps]⟩
  · intro fuel2 location2 arrayLength2 value2 d2 hcol2 hlen2 hacc hacc2 hops
    have hne2 := isRowMajor_false_ne value2 hcol2
    have ha2 : arrayLength2 ≠ 0 := by omega
    obtain ⟨⟨op, t⟩, htab⟩ :=
      Option.isSome_iff_exists.mp ((contractSetter_isSome _ _).mpr hacc)
    obtain ⟨⟨op2, t2⟩, htab2⟩ :=
      Option.isSome_iff_exists.mp ((contractSetter_isSome _ _).mpr hacc2)
    obtain ⟨-, -, -, h1, -⟩ :=
      setUniformLocation_accepted fuel location arrayLength value d hne ha op t htab
    obtain ⟨-, -, -, h2, -⟩ :=
      setUniformLocation_accepted fuel2 location2 arrayLength2 value2 d2 hne2 ha2 op2 t2 htab2
    rw [h1, h2] at hops
    have hop : op = op2 := by simpa using hops
    have hs := contractSetter_shape _ _ _ _ htab
    have hs2 := contractSetter_shape _ _ _ _ htab2
    rw [hop, hs2] at hs
    exact ⟨(Prod.mk.inj hs).1.symm, (Prod.mk.inj hs).2.symm⟩

/-- C1 at a column-major 4x4 identity: one call of `glUniformMatrix4fv`, count 1. -/
theorem C1_dispatch_selects_setter_witness :
    (EigenMatrix.mk 4 4 Eigen.ColMajor [1, 0, 0, 0, 0, 1, 0, 0, 0, 0, 1, 0, 0, 0, 0, 1]).isRowMajor
        = false ∧
      1 ≤ 1 ∧
      ∃ r, Program.setUniformLocation 1 7
          (EigenMatrix.mk 4 4 Eigen.ColMajor [1, 0, 0, 0, 0, 1, 0, 0, 0, 0, 1, 0, 0, 0, 0, 1])
          1 Driver.initial = some r ∧
        issuedSince Driver.initial r.2 =
          [GLCall.glUniformfv UniformOp.glUniformMatrix4fv 7 1 (some GL_FALSE)
            [1, 0, 0, 0, 0, 1, 0, 0, 0, 0, 1, 0, 0, 0, 0, 1], GLCall.glGetError] := by
  refine ⟨by decide, by decide, ?_⟩
  obtain ⟨op, r, hop, hrun, htrace, -⟩ :=
    (C1_dispatch_selects_setter 0 7 1
      (EigenMatrix.mk 4 4 Eigen.ColMajor [1, 0, 0, 0, 0, 1, 0, 0, 0, 0, 1, 0, 0, 0, 0, 1])
      Driver.initial (by decide) (by decide)).2.1 (by decide) (by decide)
  have hop4 : op = UniformOp.glUniformMatrix4fv := by
    have h4 : matrixSetter 4 (4 / 1) = some UniformOp.glUniformMatrix4fv := by decide
    exact Option.some.inj (hop.symm.trans h4)
  subst hop4
  exact ⟨r, hrun, htrace⟩

/-- C2: on a column-major value and `arrayLength ≥ 1` the call throws a `ProgramError`
exactly when the shape `rows x cols` is not accepted; it then throws the error whose text
is "Failed to set uniform with dimension <rows>x<cols> and array length <arrayLength>"
(decimal) with the driver untouched, so no set-uniform call precedes it; this covers
`rows = 1` with `cols ≥ 2`, `rows = 0`, `rows ≥ 5`, `cols = 0` and `cols ≥ 5`. -/
theorem C2_dispatch_shape_error (fuel location arrayLength : Nat) (value : EigenMatrix)
    (d : Driver) (hcol : value.isRowMajor = false) (hlen : 1 ≤ arrayLength) :
    ((∃ r what, Program.setUniformLocation (fuel + 1) location value arrayLength d = some r ∧
        r.1 = Outcome.raised (Exn.ProgramError what)) ↔
      ¬ AcceptedShape (value.rows / arrayLength) value.cols) ∧
    (¬ AcceptedShape (value.rows / arrayLength) value.cols →
      Program.setUniformLocation (fuel + 1) location value arrayLength d =
        some (Outcome.raised (Exn.ProgramError
          ("Failed to set uniform with dimension " ++ toString (value.rows / arrayLength)
            ++ "x" ++ toString value.cols ++ " and array length " ++ toString arrayLength)),
          d)) ∧
    (((value.rows / arrayLength = 1 ∧ 2 ≤ value.cols) ∨ value.rows / arrayLength = 0 ∨
        5 ≤ value.rows / arrayLength ∨ value.cols = 0 ∨ 5 ≤ value.cols) →
      ¬ AcceptedShape (value.rows / arrayLength) value.cols) := by
  have hne := isRowMajor_false_ne value hcol
  have ha : arrayLength ≠ 0 := by omega
  refine ⟨⟨?_, ?_⟩, ?_, ?_⟩
  · rintro ⟨r, what, hrun, hout⟩ hacc
    obtain ⟨⟨op, t⟩, htab⟩ :=
      Option.isSome_iff_exists.mp ((contractSetter_isSome _ _).mpr hacc)
    obtain ⟨r1, hrun1, -, -, hout1⟩ :=
      setUniformLocation_accepted fuel location arrayLength value d hne ha op t htab
    rw [hrun] at hrun1
    have hr : r = r1 := Option.some.inj hrun1
    subst hr
    rcases hout1 with h | ⟨w, h⟩ <;> rw [hout] at h <;> simp at h
  · intro hrej
    exact ⟨_, _, setUniformLocation_rejected fuel location arrayLength value d hne ha hrej, rfl⟩
  · intro hrej
    exact setUniformLocation_rejected fuel location arrayLength value d hne ha hrej
  · intro h hacc
    unfold AcceptedShape at hacc
    omega

/-- C2 at a column-major 5x1 value: the shape error for 5x1, nothing issued. -/
theorem C2_dispatch_shape_error_witness :
    (EigenMatrix.mk 5 1 Eigen.ColMajor [1, 2, 3, 4, 5]).isRowMajor = false ∧ 1 ≤ 1 ∧
      Program.setUniformLocation 1 0 (EigenMatrix.mk 5 1 Eigen.ColMajor [1, 2, 3, 4, 5]) 1
          Driver.initial =
        some (Outcome.raised (Exn.ProgramError
          "Failed to set uniform with dimension 5x1 and array length 1"), Driver.initial) :=
  ⟨by decide, by decide,
    (C2_dispatch_shape_error 0 0 1 (EigenMatrix.mk 5 1 Eigen.ColMajor [1, 2, 3, 4, 5])
      Driver.initial (by decide) (by decide)).2.1 (by decide)⟩

/-- C3: a row-major value (`_Options = Eigen::RowMajor`) never reaches a set-uniform
call: the temporary made in the row-major branch has the type of the argument, so the
recursive call takes the row-major branch again, at every depth; the call does not come
back within any bound.  A column-major value of the same shape is dispatched at once. -/
theorem C3_rowMajor_recursion_never_returns :
    (∀ (fuel location arrayLength : Nat) (value : EigenMatrix) (d : Driver),
      Program.setUniformLocation fuel location { value with Options := Eigen.RowMajor }
        (arrayLength + 1) d = none) ∧
    (∀ fuel : Nat,
      Program.setUniformLocation fuel 0 (EigenMatrix.mk 2 2 Eigen.RowMajor [1, 2, 3, 4]) 1
        Driver.initial = none) ∧
    Program.dispatchedOps 1 0 (EigenMatrix.mk 2 2 Eigen.ColMajor [1, 3, 2, 4]) 1
      Driver.initial = [UniformOp.glUniformMatrix2fv] := by
  refine ⟨?_, ?_, ?_⟩
  · intro fuel location arrayLength value d
    exact setUniformLocation_rowMajor fuel location (arrayLength + 1) _ d rfl (by omega)
  · intro fuel
    exact setUniformLocation_rowMajor fuel 0 1 _ _ rfl (by decide)
  · obtain ⟨-, -, -, h, -⟩ := setUniformLocation_accepted 0 0 1
      (EigenMatrix.mk 2 2 Eigen.ColMajor [1, 3, 2, 4]) Driver.initial (by decide) (by decide)
      UniformOp.glUniformMatrix2fv (some GL_FALSE) (by decide)
    exact h

/-! ### Framebuffer -/

theorem assertNoGLError_quiet (component : String) (d : Driver) (hq : d.quiet) :
    assertNoGLError component d =
      (Outcome.returned (),
        { d with trace := d.trace ++ [GLCall.glGetError], errors := d.errors.tail }) := by
  have hhead : d.errors.headD GL_NO_ERROR = GL_NO_ERROR := by
    cases herr : d.errors with
    | nil => rfl
    | cons e es => exact hq e (by simp [herr])
  unfold assertNoGLError
  simp only [bind, GLM.bind, glGetError]
  rw [hhead]
  simp [pure, GLM.pure]

/-- A sequenced computation that returns went through a first part that returned. -/
theorem bind_returned {α β : Type} (m : GLM α) (f : α → GLM β) (d d2 : Driver) (b : β)
    (h : (m >>= f) d = (Outcome.returned b, d2)) :
    ∃ a d1, m d = (Outcome.returned a, d1) ∧ f a d1 = (Outcome.returned b, d2) := by
  simp only [bind, GLM.bind] at h
  split at h
  · next a d1 hm => exact ⟨a, d1, hm, h⟩
  · simp at h
  · simp at h

theorem quiet_tail (d : Driver) (trace : List GLCall) (hq : d.quiet) :
    Driver.quiet { d with trace := trace, errors := d.errors.tail } := by
  intro e he
  exact hq e (List.mem_of_mem_tail he)

theorem store_color_attachment_next (self : Framebuffer) (texture : Texture) :
    self.store_color_attachment texture self.color_attachments.length =
      (Outcome.returned (),
        { self with color_attachments := self.color_attachments ++ [texture] }) := by
  simp [Framebuffer.store_color_attachment]

theorem store_sequence_append (textures : List Texture) (self : Framebuffer) :
    self.store_sequence self.color_attachments.length textures =
      (Outcome.returned (),
        { self with color_attachments := self.color_attachments ++ textures }) := by
  induction textures generalizing self with
  | nil => simp [Framebuffer.store_sequence]
  | cons t ts ih =>
    rw [Framebuffer.store_sequence, store_color_attachment_next]
    have h := ih { self with color_attachments := self.color_attachments ++ [t] }
    simp only [List.length_append, List.length_singleton, List.append_assoc,
      List.singleton_append] at h
    exact h

theorem set_color_attachment_next (self : Framebuffer) (texture : Texture) (d : Driver)
    (hq : d.quiet) :
    ∃ d1, d1.quiet ∧ self.set_color_attachment texture self.color_attachments.length d =
      (Outcome.returned (),
        { self with color_attachments := self.color_attachments ++ [texture] }, d1) := by
  refine ⟨{ d with
      trace := d.trace ++ [GLCall.glBindFramebuffer GL_FRAMEBUFFER self.id] ++
        [GLCall.glFramebufferTexture2D GL_FRAMEBUFFER
          (uadd GL_COLOR_ATTACHMENT0 self.color_attachments.length) texture.target texture.id 0]
        ++ [GLCall.glGetError]
      errors := d.errors.tail }, quiet_tail _ _ hq, ?_⟩
  rw [Framebuffer.set_color_attachment, store_color_attachment_next]
  simp only [bind, GLM.bind, issue]
  rw [assertNoGLError_quiet _ _ (by exact hq)]

theorem attach_sequence_append (textures : List Texture) (self : Framebuffer) (d : Driver)
    (hq : d.quiet) :
    ∃ d1, self.attach_sequence self.color_attachments.length textures d =
      (Outcome.returned (),
        { self with color_attachments := self.color_attachments ++ textures }, d1) := by
  induction textures generalizing self d with
  | nil => exact ⟨d, by simp [Framebuffer.attach_sequence]⟩
  | cons t ts ih =>
    obtain ⟨d1, hq1, h1⟩ := set_color_attachment_next self t d hq
    obtain ⟨d2, h2⟩ := ih { self with color_attachments := self.color_attachments ++ [t] } d1 hq1
    refine ⟨d2, ?_⟩
    rw [Framebuffer.attach_sequence, h1]
    simp only [List.length_append, List.length_singleton, List.append_assoc,
      List.singleton_append] at h2
    exact h2

theorem create_color_attachments (width height : Nat) (use_depth_test : Bool) (d d1 : Driver)
    (fb : Framebuffer)
    (h : Framebuffer.create width height use_depth_test d = (Outcome.returned fb, d1)) :
    fb.color_attachments = [] := by
  unfold Framebuffer.create at h
  obtain ⟨id, da, -, h⟩ := bind_returned _ _ _ _ _ h
  obtain ⟨-, db, -, h⟩ := bind_returned _ _ _ _ _ h
  obtain ⟨-, dc, -, h⟩ := bind_returned _ _ _ _ _ h
  obtain ⟨-, dd, -, h⟩ := bind_returned _ _ _ _ _ h
  cases use_depth_test with
  | false =>
    simp only [pure, GLM.pure, Bool.false_eq_true, if_false, Prod.mk.injEq,
      Outcome.returned.injEq] at h
    rw [← h.1]
  | true =>
    simp only [if_true] at h
    obtain ⟨rb, de, -, h⟩ := bind_returned _ _ _ _ _ h
    obtain ⟨-, df, -, h⟩ := bind_returned _ _ _ _ _ h
    obtain ⟨-, dg, -, h⟩ := bind_returned _ _ _ _ _ h
    obtain ⟨-, dh, -, h⟩ := bind_returned _ _ _ _ _ h
    obtain ⟨-, di, -, h⟩ := bind_returned _ _ _ _ _ h
    obtain ⟨-, dj, -, h⟩ := bind_returned _ _ _ _ _ h
    obtain ⟨-, dk, -, h⟩ := bind_returned _ _ _ _ _ h
    simp only [pure, GLM.pure, Prod.mk.injEq, Outcome.returned.injEq] at h
    rw [← h.1]

theorem store_color_attachment_beyond (self : Framebuffer) (texture : Texture) (id : Nat)
    (h : self.color_attachments.length < id) :
    self.store_color_attachment texture id =
      (Outcome.raised (Exn.FramebufferError "Attachment id's must be sequential."), self) := by
  have h1 : ¬ id < self.color_attachments.length := by omega
  have h2 : ¬ id = self.color_attachments.length := by omega
  simp [Framebuffer.store_color_attachment, h1, h2]

theorem store_color_attachment_within (self : Framebuffer) (texture : Texture) (id : Nat)
    (h : id ≤ self.color_attachments.length) :
    ∃ self1, self.store_color_attachment texture id = (Outcome.returned (), self1) ∧
      self1.id = self.id ∧
      self1.color_attachments =
        if id < self.color_attachments.length then self.color_attachments.set id texture
        else self.color_attachments ++ [texture] := by
  by_cases h1 : id < self.color_attachments.length
  · exact ⟨{ self with color_attachments := self.color_attachments.set id texture },
      by simp [Framebuffer.store_color_attachment, h1], rfl, by simp [h1]⟩
  · have h2 : id = self.color_attachments.length := by omega
    exact ⟨{ self with color_attachments := self.color_attachments ++ [texture] },
      by simp [Framebuffer.store_color_attachment, h2], rfl, by simp [h2]⟩

/-- C4: with `n` attachments held, `set_color_attachment` (2D form and array form) throws
a `FramebufferError` exactly when `slot > n`; it is then the sequencing error
("Attachment id's must be sequential."), the attachment list is the one before the call
and the driver has received no call. -/
theorem C4_attachment_sequencing (self : Framebuffer) (texture : Texture) (layer id : Nat)
    (d : Driver) :
    ((∃ what, (self.set_color_attachment texture id d).1 =
        Outcome.raised (Exn.FramebufferError what)) ↔ self.color_attachments.length < id) ∧
    ((∃ what, (self.set_color_attachment_layer texture layer id d).1 =
        Outcome.raised (Exn.FramebufferError what)) ↔ self.color_attachments.length < id) ∧
    (self.color_attachments.length < id →
      self.set_color_attachment texture id d =
        (Outcome.raised (Exn.FramebufferError "Attachment id's must be sequential."), self, d) ∧
      self.set_color_attachment_layer texture layer id d =
        (Outcome.raised (Exn.FramebufferError "Attachment id's must be sequential."), self, d))
    := by
  have hbeyond : self.color_attachments.length < id →
      self.set_color_attachment texture id d =
        (Outcome.raised (Exn.FramebufferError "Attachment id's must be sequential."), self, d) ∧
      self.set_color_attachment_layer texture layer id d =
        (Outcome.raised (Exn.FramebufferError "Attachment id's must be sequential."), self, d)
      := by
    intro h
    constructor
    · rw [Framebuffer.set_color_attachment, store_color_attachment_beyond self texture id h]
    · rw [Framebuffer.set_color_attachment_layer, store_color_attachment_beyond self texture id h]
  refine ⟨⟨?_, ?_⟩, ⟨?_, ?_⟩, hbeyond⟩
  · rintro ⟨what, hout⟩
    by_contra hle
    obtain ⟨self1, hstore, -, -⟩ := store_color_attachment_within self texture id (by omega)
    rw [Framebuffer.set_color_attachment, hstore] at hout
    simp only [bind, GLM.bind, issue] at hout
    rcases assertNoGLError_outcome "glFramebufferTexture2D" _ with h | ⟨w, h⟩ <;>
      rw [h] at hout <;> simp at hout
  · intro h
    exact ⟨_, by rw [(hbeyond h).1]⟩
  · rintro ⟨what, hout⟩
    by_contra hle
    obtain ⟨self1, hstore, -, -⟩ := store_color_attachment_within self texture id (by omega)
    rw [Framebuffer.set_color_attachment_layer, hstore] at hout
    simp only [bind, GLM.bind, issue] at hout
    rcases assertNoGLError_outcome "glFramebufferTextureLayer" _ with h | ⟨w, h⟩ <;>
      rw [h] at hout <;> simp at hout
  · intro h
    exact ⟨_, by rw [(hbeyond h).2]⟩

/-- C5: with `n` attachments held and `slot ≤ n`, `store_color_attachment` returns; the
list then has length `n` if `slot < n` and `n + 1` if `slot = n`, holds the given texture
at `slot`, and every other position reads as before.  A framebuffer that a constructor
call returned takes `t0 .. t(k-1)` at slots `0 .. k-1` without a failure and then holds
exactly that list, also through `set_color_attachment` when the driver reports no
error. -/
theorem C5_attachment_list_gap_free (self : Framebuffer) (texture : Texture) (id : Nat)
    (hid : id ≤ self.color_attachments.length) :
    (∃ self1, self.store_color_attachment texture id = (Outcome.returned (), self1) ∧
      self1.color_attachments.length =
        (if id < self.color_attachments.length then self.color_attachments.length
          else self.color_attachments.length + 1) ∧
      self1.color_attachments[id]? = some texture ∧
      ∀ i, i ≠ id → self1.color_attachments[i]? = self.color_attachments[i]?) ∧
    (∀ (width height : Nat) (use_depth_test : Bool) (d d1 : Driver) (fresh : Framebuffer)
        (textures : List Texture),
      Framebuffer.create width height use_depth_test d = (Outcome.returned fresh, d1) →
      fresh.store_sequence 0 textures =
          (Outcome.returned (), { fresh with color_attachments := textures }) ∧
        (d1.quiet → ∃ d2, fresh.attach_sequence 0 textures d1 =
          (Outcome.returned (), { fresh with color_attachments := textures }, d2))) := by
  constructor
  · obtain ⟨self1, hstore, -, hlist⟩ := store_color_attachment_within self texture id hid
    refine ⟨self1, hstore, ?_, ?_, ?_⟩
    · rw [hlist]
      split <;> simp
    · rw [hlist]
      split
      · next h => simp [h]
      · next h =>
        have h2 : id = self.color_attachments.length := by omega
        simp [h2]
    · intro i hi
      rw [hlist]
      split
      · exact List.getElem?_set_ne (Ne.symm hi)
      · next h =>
        have h2 : id = self.color_attachments.length := by omega
        by_cases hlt : i < self.color_attachments.length
        · exact List.getElem?_append_left hlt
        · have hgt : self.color_attachments.length < i := by omega
          rw [List.getElem?_eq_none (by simp; omega), List.getElem?_eq_none (by omega)]
  · intro width height use_depth_test d d1 fresh textures hcreate
    have hempty := create_color_attachments width height use_depth_test d d1 fresh hcreate
    constructor
    · have h := store_sequence_append textures fresh
      rw [hempty] at h
      simpa using h
    · intro hq
      obtain ⟨d2, h⟩ := attach_sequence_append textures fresh d1 hq
      rw [hempty] at h
      exact ⟨d2, by simpa using h⟩

/-- C6: `bind()` on a framebuffer without color attachments throws the no-attachment
error and leaves the driver as it was: no call is issued, neither `glBindFramebuffer` nor
`glCheckFramebufferStatus`. -/
theorem C6_bind_without_attachments (width height id : Nat) (use_depth_test : Bool)
    (depth_buffer : Option Nat) (d : Driver) :
    Framebuffer.bind
        { width := width, height := height, use_depth_test := use_depth_test,
          color_attachments := [], id := id, depth_buffer := depth_buffer } d =
      (Outcome.raised (Exn.FramebufferError "No color attachments, nothing to draw to."), d) := by
  simp [Framebuffer.bind, bind, GLM.bind, GLM.raise]

/-- C5 at a framebuffer holding two attachments: replacing slot 1 keeps slot 0; and at
the framebuffer constructed on the initial driver: three textures attached at slots 0, 1,
2 are the list held. -/
theorem C5_attachment_list_gap_free_witness :
    1 ≤ (Framebuffer.mk 64 64 false [⟨1, GL_TEXTURE_2D⟩, ⟨2, GL_TEXTURE_2D⟩] 1
        none).color_attachments.length ∧
      (∃ self1,
        (Framebuffer.mk 64 64 false [⟨1, GL_TEXTURE_2D⟩, ⟨2, GL_TEXTURE_2D⟩] 1
          none).store_color_attachment ⟨3, GL_TEXTURE_2D⟩ 1 = (Outcome.returned (), self1) ∧
        self1.color_attachments.length = 2 ∧
        self1.color_attachments[1]? = some ⟨3, GL_TEXTURE_2D⟩ ∧
        self1.color_attachments[0]? = some ⟨1, GL_TEXTURE_2D⟩) ∧
      (Framebuffer.create 64 64 false Driver.initial).1 =
        Outcome.returned (Framebuffer.mk 64 64 false [] 1 none) ∧
      (Framebuffer.mk 64 64 false [] 1 none).store_sequence 0
          [⟨5, GL_TEXTURE_2D⟩, ⟨6, GL_TEXTURE_2D⟩, ⟨7, GL_TEXTURE_2D_ARRAY⟩] =
        (Outcome.returned (),
          Framebuffer.mk 64 64 false
            [⟨5, GL_TEXTURE_2D⟩, ⟨6, GL_TEXTURE_2D⟩, ⟨7, GL_TEXTURE_2D_ARRAY⟩] 1 none) := by
  have hall := C5_attachment_list_gap_free
    (Framebuffer.mk 64 64 false [⟨1, GL_TEXTURE_2D⟩, ⟨2, GL_TEXTURE_2D⟩] 1 none)
    ⟨3, GL_TEXTURE_2D⟩ 1 (by decide)
  have hcreate : Framebuffer.create 64 64 false Driver.initial =
      (Outcome.returned (Framebuffer.mk 64 64 false [] 1 none),
        (Framebuffer.create 64 64 false Driver.initial).2) := Prod.ext (by decide) rfl
  refine ⟨by decide, ?_, by decide, ?_⟩
  · obtain ⟨self1, h1, h2, h3, h4⟩ := hall.1
    refine ⟨self1, h1, ?_, h3, ?_⟩
    · rw [h2]; rfl
    · rw [h4 0 (by decide)]; rfl
  · exact (hall.2 64 64 false Driver.initial _ _
      [⟨5, GL_TEXTURE_2D⟩, ⟨6, GL_TEXTURE_2D⟩, ⟨7, GL_TEXTURE_2D_ARRAY⟩] hcreate).1

/-! ### Texture -/

theorem assertNoGLError_of_head (component : String) (d : Driver)
    (hhead : d.errors.headD GL_NO_ERROR = GL_NO_ERROR) :
    assertNoGLError component d =
      (Outcome.returned (),
        { d with trace := d.trace ++ [GLCall.glGetError], errors := d.errors.tail }) := by
  unfold assertNoGLError
  simp only [bind, GLM.bind, glGetError]
  rw [hhead]
  simp [pure, GLM.pure]

theorem assertNoGLError_of_error (component : String) (d : Driver)
    (hhead : d.errors.headD GL_NO_ERROR ≠ GL_NO_ERROR) :
    assertNoGLError component d =
      (Outcome.raised (Exn.OpenGLError
          ("OpenGL error 0x" ++ hex (d.errors.headD GL_NO_ERROR) ++ " at " ++ component)),
        { d with trace := d.trace ++ [GLCall.glGetError], errors := d.errors.tail }) := by
  unfold assertNoGLError
  simp only [bind, GLM.bind, glGetError]
  rw [if_pos hhead]
  rfl

theorem quiet_head (d : Driver) (hq : d.quiet) : d.errors.headD GL_NO_ERROR = GL_NO_ERROR := by
  cases herr : d.errors with
  | nil => rfl
  | cons e es => exact hq e (by simp [herr])

/-- What `size()` does when the error check passes: three queries on the texture bound to
the target, one error query, and the spec made of the three answers. -/
theorem size_of_head (self : Texture) (d : Driver)
    (hhead : d.errors.headD GL_NO_ERROR = GL_NO_ERROR) :
    TextureArray2D.size self d =
      (Outcome.returned
        { width := (d.textures (d.bound self.target)).width
          height := (d.textures (d.bound self.target)).height
          depth := (d.textures (d.bound self.target)).depth
          nchannels := 4 },
        { d with
          trace := d.trace ++
            [GLCall.glGetTexLevelParameteriv self.target 0 GL_TEXTURE_WIDTH,
              GLCall.glGetTexLevelParameteriv self.target 0 GL_TEXTURE_HEIGHT,
              GLCall.glGetTexLevelParameteriv self.target 0 GL_TEXTURE_DEPTH,
              GLCall.glGetError]
          errors := d.errors.tail }) := by
  unfold TextureArray2D.size
  simp only [bind, GLM.bind, glGetTexLevelParameteriv]
  rw [assertNoGLError_of_head _ _ (by exact hhead)]
  simp [pure, GLM.pure, ImageSpec.create, TextureObject.levelParameter, GL_TEXTURE_WIDTH,
    GL_TEXTURE_HEIGHT, GL_TEXTURE_DEPTH, DEFAULT_TEXTURE_CHANNELS]

theorem toUnsigned_of_nonneg (i : Int) (h0 : 0 ≤ i) (h1 : i < 2147483648) :
    toUnsigned i = i.toNat := by
  unfold toUnsigned
  rw [Int.emod_eq_of_lt h0 (by omega)]

/-- The three ways `set` goes on once the error check of `size()` has passed. -/
theorem set_of_head (self : Texture) (layer : Nat) (image : ImageBuf) (d : Driver)
    (hhead : d.errors.headD GL_NO_ERROR = GL_NO_ERROR)
    (h0 : 0 ≤ (d.textures (d.bound self.target)).depth)
    (h1 : (d.textures (d.bound self.target)).depth < 2147483648) :
    TextureArray2D.set self layer image d =
      if (d.textures (d.bound self.target)).depth ≤ (layer : Int) then
        (Outcome.raised (Exn.TextureError
          (layerMessage layer (d.textures (d.bound self.target)).depth)), afterSize self d)
      else if image.spec.width ≠ (d.textures (d.bound self.target)).width ∨
          image.spec.height ≠ (d.textures (d.bound self.target)).height then
        (Outcome.raised (Exn.TextureError (sizeMessage image.spec
          { width := (d.textures (d.bound self.target)).width
            height := (d.textures (d.bound self.target)).height
            depth := (d.textures (d.bound self.target)).depth
            nchannels := 4 })), afterSize self d)
      else
        assertNoGLError "glTexSubImage3D" (afterUpload self layer image d) := by
  unfold TextureArray2D.set
  simp only [bind, GLM.bind]
  rw [size_of_head self d hhead]
  simp only [toUnsigned_of_nonneg _ h0 h1]
  have hcmp : (layer ≥ (d.textures (d.bound self.target)).depth.toNat) ↔
      (d.textures (d.bound self.target)).depth ≤ (layer : Int) := by omega
  by_cases hl : (d.textures (d.bound self.target)).depth ≤ (layer : Int)
  · simp [hl, hcmp.mpr hl, GLM.raise, GLM.bind, afterSize]
  · have hl2 : ¬ (layer ≥ (d.textures (d.bound self.target)).depth.toNat) := by
      rw [hcmp]; exact hl
    by_cases hs : image.spec.width ≠ (d.textures (d.bound self.target)).width ∨
          image.spec.height ≠ (d.textures (d.bound self.target)).height
    · simp [hl, hl2, hs, GLM.raise, GLM.bind, afterSize, pure, GLM.pure]
    · simp [hl, hl2, hs, GLM.raise, GLM.bind, afterUpload, pure, GLM.pure, glBindTexture,
        glTexSubImage3D]

theorem layerMessage_ne_sizeMessage (layer : Nat) (depth : Int) (i s : ImageSpec) :
    layerMessage layer depth ≠ sizeMessage i s := by
  intro h
  have h2 := congrArg (fun t => t.data.head?) h
  simp [layerMessage, sizeMessage, String.data_append] at h2

theorem issuedSince_afterSize (self : Texture) (d : Driver) :
    issuedSince d (afterSize self d) =
      [GLCall.glGetTexLevelParameteriv self.target 0 GL_TEXTURE_WIDTH,
        GLCall.glGetTexLevelParameteriv self.target 0 GL_TEXTURE_HEIGHT,
        GLCall.glGetTexLevelParameteriv self.target 0 GL_TEXTURE_DEPTH,
        GLCall.glGetError] := by
  simp [issuedSince, afterSize]

theorem quiet_afterUpload (self : Texture) (layer : Nat) (image : ImageBuf) (d : Driver)
    (hq : d.quiet) : (afterUpload self layer image d).quiet := by
  intro e he
  exact hq e (List.mem_of_mem_tail he)

/-- The validation of `TextureArray2D::set` in terms of the array `reported` that is bound
to the target when `size()` runs, which is the array the call is made on only if that one
is bound.  With the driver reporting no error: a `TextureError` is thrown exactly when
`layer ≥ layerCount` or the image's width or height differs from the reported one; with
`layer ≥ layerCount` it is the bounds error, whatever the image size; after either error
the calls issued are the three size queries and the error query, no upload; and
`layer = layerCount - 1` with a matching image returns. -/
theorem set_validation_of_reported (self : Texture) (layer : Nat) (image : ImageBuf)
    (d : Driver)
    (reported : TextureObject) (hrep : d.textures (d.bound self.target) = reported)
    (hq : d.quiet) (h0 : 0 ≤ reported.depth) (h1 : reported.depth < 2147483648) :
    ((∃ what, (TextureArray2D.set self layer image d).1 =
        Outcome.raised (Exn.TextureError what)) ↔
      (reported.depth ≤ (layer : Int) ∨ image.spec.width ≠ reported.width ∨
        image.spec.height ≠ reported.height)) ∧
    (reported.depth ≤ (layer : Int) →
      (TextureArray2D.set self layer image d).1 =
          Outcome.raised (Exn.TextureError
            ("Layer (" ++ toString layer ++ ") exceeds layer count (" ++
              toString reported.depth ++ ").")) ∧
        ∀ i s, (TextureArray2D.set self layer image d).1 ≠
          Outcome.raised (Exn.TextureError (sizeMessage i s))) ∧
    ((layer : Int) < reported.depth →
      (image.spec.width ≠ reported.width ∨ image.spec.height ≠ reported.height) →
      (TextureArray2D.set self layer image d).1 =
        Outcome.raised (Exn.TextureError (sizeMessage image.spec
          { width := reported.width, height := reported.height, depth := reported.depth,
            nchannels := 4 }))) ∧
    ((∃ what, (TextureArray2D.set self layer image d).1 =
        Outcome.raised (Exn.TextureError what)) →
      issuedSince d (TextureArray2D.set self layer image d).2 =
        [GLCall.glGetTexLevelParameteriv self.target 0 GL_TEXTURE_WIDTH,
          GLCall.glGetTexLevelParameteriv self.target 0 GL_TEXTURE_HEIGHT,
          GLCall.glGetTexLevelParameteriv self.target 0 GL_TEXTURE_DEPTH,
          GLCall.glGetError]) ∧
    ((layer : Int) = reported.depth - 1 → image.spec.width = reported.width →
      image.spec.height = reported.height →
      (TextureArray2D.set self layer image d).1 = Outcome.returned ()) := by
  subst hrep
  have hrun := set_of_head self layer image d (quiet_head d hq) h0 h1
  have hok : ¬ (d.textures (d.bound self.target)).depth ≤ (layer : Int) →
      ¬ (image.spec.width ≠ (d.textures (d.bound self.target)).width ∨
        image.spec.height ≠ (d.textures (d.bound self.target)).height) →
      TextureArray2D.set self layer image d =
        (Outcome.returned (),
          { afterUpload self layer image d with
            trace := (afterUpload self layer image d).trace ++ [GLCall.glGetError]
            errors := (afterUpload self layer image d).errors.tail }) := by
    intro hl hs
    rw [hrun, if_neg hl, if_neg hs,
      assertNoGLError_quiet _ _ (quiet_afterUpload self layer image d hq)]
  have hbounds : (d.textures (d.bound self.target)).depth ≤ (layer : Int) →
      TextureArray2D.set self layer image d =
        (Outcome.raised (Exn.TextureError
          (layerMessage layer (d.textures (d.bound self.target)).depth)), afterSize self d) := by
    intro hl
    rw [hrun, if_pos hl]
  have hsize : ¬ (d.textures (d.bound self.target)).depth ≤ (layer : Int) →
      (image.spec.width ≠ (d.textures (d.bound self.target)).width ∨
        image.spec.height ≠ (d.textures (d.bound self.target)).height) →
      TextureArray2D.set self layer image d =
        (Outcome.raised (Exn.TextureError (sizeMessage image.spec
          { width := (d.textures (d.bound self.target)).width
            height := (d.textures (d.bound self.target)).height
            depth := (d.textures (d.bound self.target)).depth
            nchannels := 4 })), afterSize self d) := by
    intro hl hs
    rw [hrun, if_neg hl, if_pos hs]
  refine ⟨⟨?_, ?_⟩, ?_, ?_, ?_, ?_⟩
  · rintro ⟨what, hout⟩
    by_contra hnot
    have hl : ¬ (d.textures (d.bound self.target)).depth ≤ (layer : Int) :=
      fun h => hnot (Or.inl h)
    have hs : ¬ (image.spec.width ≠ (d.textures (d.bound self.target)).width ∨
        image.spec.height ≠ (d.textures (d.bound self.target)).height) :=
      fun h => hnot (Or.inr h)
    rw [hok hl hs] at hout
    simp at hout
  · intro h
    by_cases hl : (d.textures (d.bound self.target)).depth ≤ (layer : Int)
    · exact ⟨_, by rw [hbounds hl]⟩
    · have hs := h.resolve_left hl
      exact ⟨_, by rw [hsize hl hs]⟩
  · intro hl
    constructor
    · rw [hbounds hl]
      rfl
    · intro i s hout
      rw [hbounds hl] at hout
      simp only [Outcome.raised.injEq, Exn.TextureError.injEq] at hout
      exact layerMessage_ne_sizeMessage _ _ _ _ hout
  · intro hl hs
    rw [hsize (by omega) hs]
  · rintro ⟨what, hout⟩
    by_cases hl : (d.textures (d.bound self.target)).depth ≤ (layer : Int)
    · rw [hbounds hl]
      exact issuedSince_afterSize self d
    · by_cases hs : (image.spec.width ≠ (d.textures (d.bound self.target)).width ∨
          image.spec.height ≠ (d.textures (d.bound self.target)).height)
      · rw [hsize hl hs]
        exact issuedSince_afterSize self d
      · rw [hok hl hs] at hout
        simp at hout
  · intro hl hw hh
    rw [hok (by omega) (by simp [hw, hh])]

/-- On the sample driver (texture 3, a 2 x 2 array of 3 layers, is bound), writing a
2 x 2 image to layer 2 of texture 3 returns. -/
theorem set_validation_of_reported_at_sample :
    Driver.sample.textures (Driver.sample.bound GL_TEXTURE_2D_ARRAY) =
        Driver.sample.textures 3 ∧
      Driver.sample.quiet ∧ 0 ≤ (Driver.sample.textures 3).depth ∧
      (Driver.sample.textures 3).depth < 2147483648 ∧
      (TextureArray2D.set ⟨3, GL_TEXTURE_2D_ARRAY⟩ 2 ⟨⟨2, 2, 1, 4⟩, [7]⟩ Driver.sample).1 =
        Outcome.returned () := by
  have hq : Driver.sample.quiet := by
    intro e he
    simp [Driver.sample, Driver.initial] at he
  exact ⟨rfl, hq, by decide, by decide,
    (set_validation_of_reported ⟨3, GL_TEXTURE_2D_ARRAY⟩ 2 ⟨⟨2, 2, 1, 4⟩, [7]⟩ Driver.sample
      (Driver.sample.textures 3) rfl hq (by decide) (by decide)).2.2.2.2 (by decide)
      (by decide) (by decide)⟩

/-- Claim C7 fails in the code: `TextureArray2D::set` calls `size()` before it binds the
texture, so it validates against the array that is bound to `GL_TEXTURE_2D_ARRAY` at that
time, not against the array it is called on.  With texture 3 (2 x 2, three layers) bound
and no driver error, `set(2, image)` on texture 4 (2 x 2, one layer) with a 2 x 2 image
throws no bounds error although `2 ≥ 1`: it returns after binding texture 4 and issuing
the upload at layer offset 2.  With texture 4 bound, `set(2, image)` on texture 3 with
the same image throws the bounds error with layer count 1, although layer 2 is the last
of the three layers of texture 3 and the image matches. -/
theorem C7_set_validates_against_bound_texture :
    (((Driver.twoArrays 3).textures 4).depth = 1 ∧
      (TextureArray2D.set ⟨4, GL_TEXTURE_2D_ARRAY⟩ 2 ⟨⟨2, 2, 1, 4⟩, [7]⟩
        (Driver.twoArrays 3)).1 = Outcome.returned () ∧
      issuedSince (Driver.twoArrays 3)
        (TextureArray2D.set ⟨4, GL_TEXTURE_2D_ARRAY⟩ 2 ⟨⟨2, 2, 1, 4⟩, [7]⟩
          (Driver.twoArrays 3)).2 =
        [GLCall.glGetTexLevelParameteriv GL_TEXTURE_2D_ARRAY 0 GL_TEXTURE_WIDTH,
          GLCall.glGetTexLevelParameteriv GL_TEXTURE_2D_ARRAY 0 GL_TEXTURE_HEIGHT,
          GLCall.glGetTexLevelParameteriv GL_TEXTURE_2D_ARRAY 0 GL_TEXTURE_DEPTH,
          GLCall.glGetError,
          GLCall.glBindTexture GL_TEXTURE_2D_ARRAY 4,
          GLCall.glTexSubImage3D GL_TEXTURE_2D_ARRAY 0 0 0 2 2 2 1 GL_RGBA GL_UNSIGNED_BYTE
            [7],
          GLCall.glGetError]) ∧
    (((Driver.twoArrays 4).textures 3).depth = 3 ∧
      ((Driver.twoArrays 4).textures 3).width = 2 ∧
      ((Driver.twoArrays 4).textures 3).height = 2 ∧
      (TextureArray2D.set ⟨3, GL_TEXTURE_2D_ARRAY⟩ 2 ⟨⟨2, 2, 1, 4⟩, [7]⟩
        (Driver.twoArrays 4)).1 =
        Outcome.raised (Exn.TextureError "Layer (2) exceeds layer count (1).")) := by
  decide

theorem assertNoGLError_textures (component : String) (d : Driver) :
    (assertNoGLError component d).2.textures = d.textures := by
  unfold assertNoGLError
  simp only [bind, GLM.bind, glGetError]
  split <;> simp_all [GLM.raise, pure, GLM.pure]

/-- Replacing one whole layer leaves every other position of the layer list as it was. -/
theorem subImage_other_layer (t : TextureObject) (zoffset z : Nat) (pixels : List Nat)
    (hz : z ≠ zoffset) : (t.subImage zoffset 1 pixels).layers[z]? = t.layers[z]? := by
  unfold TextureObject.subImage
  have hcond : ¬ (zoffset ≤ z ∧ z < zoffset + 1) := by omega
  by_cases hlt : z < t.layers.length
  · simp [List.getElem?_map, List.getElem?_range hlt, hcond, List.getD_eq_getElem?_getD,
      List.getElem?_eq_getElem hlt]
  · rw [List.getElem?_eq_none (by simpa using hlt), List.getElem?_eq_none (by omega)]

/-- When the error check of `size()` fails, `set` ends there and no texture object has
changed. -/
theorem set_textures_of_error (self : Texture) (layer : Nat) (image : ImageBuf) (d : Driver)
    (hhead : d.errors.headD GL_NO_ERROR ≠ GL_NO_ERROR) :
    (TextureArray2D.set self layer image d).2.textures = d.textures := by
  unfold TextureArray2D.set TextureArray2D.size
  simp only [bind, GLM.bind, glGetTexLevelParameteriv]
  rw [assertNoGLError_of_error _ _ (by exact hhead)]

/-- The upload of `TextureArray2D::set` when the layer is valid for, and the image
matches, the array `reported` that is bound to the target when `size()` runs.  Once the
error check of `size()` has passed, the texture is bound and one upload is issued, at
offset `(0, 0, layer)` with extent `(width, height, 1)`, in format `GL_RGBA` for a
4-channel image and `GL_RGB` for a 3-channel image.  Whatever the driver reports, in the
driver's list of layers of this texture every position other than `layer` reads after the
call as before, and no other texture object changes. -/
theorem set_writes_one_layer_of_reported (self : Texture) (layer : Nat) (image : ImageBuf)
    (d : Driver)
    (reported : TextureObject) (hrep : d.textures (d.bound self.target) = reported)
    (h0 : 0 ≤ reported.depth) (h1 : reported.depth < 2147483648)
    (hlayer : (layer : Int) < reported.depth)
    (hw : image.spec.width = reported.width) (hh : image.spec.height = reported.height) :
    (d.errors.headD GL_NO_ERROR = GL_NO_ERROR →
      ∃ format,
        issuedSince d (TextureArray2D.set self layer image d).2 =
          [GLCall.glGetTexLevelParameteriv self.target 0 GL_TEXTURE_WIDTH,
            GLCall.glGetTexLevelParameteriv self.target 0 GL_TEXTURE_HEIGHT,
            GLCall.glGetTexLevelParameteriv self.target 0 GL_TEXTURE_DEPTH,
            GLCall.glGetError,
            GLCall.glBindTexture self.target self.id,
            GLCall.glTexSubImage3D self.target 0 0 0 layer reported.width reported.height 1
              format GL_UNSIGNED_BYTE image.localpixels,
            GLCall.glGetError] ∧
        (image.spec.nchannels = 4 → format = GL_RGBA) ∧
        (image.spec.nchannels = 3 → format = GL_RGB)) ∧
    (∀ z, z ≠ layer →
      ((TextureArray2D.set self layer image d).2.textures self.id).layers[z]? =
        (d.textures self.id).layers[z]?) ∧
    (∀ name, name ≠ self.id →
      (TextureArray2D.set self layer image d).2.textures name = d.textures name) := by
  subst hrep
  by_cases hhead : d.errors.headD GL_NO_ERROR = GL_NO_ERROR
  · have hrun := set_of_head self layer image d hhead h0 h1
    rw [if_neg (by omega), if_neg (by simp [hw, hh])] at hrun
    refine ⟨fun _ => ⟨if image.spec.nchannels = 4 then GL_RGBA else GL_RGB, ?_, ?_, ?_⟩,
      ?_, ?_⟩
    · rw [hrun]
      simp [issuedSince, assertNoGLError_trace, afterUpload]
    · intro h4
      simp [h4]
    · intro h3
      simp [h3]
    · intro z hz
      rw [hrun, assertNoGLError_textures]
      simp only [afterUpload, Function.update_same]
      exact subImage_other_layer _ _ _ _ hz
    · intro name hname
      rw [hrun, assertNoGLError_textures]
      simp only [afterUpload]
      exact Function.update_noteq hname _ _
  · have htex := set_textures_of_error self layer image d hhead
    exact ⟨fun h => absurd h hhead, fun z _ => by rw [htex], fun name _ => by rw [htex]⟩

/-- On the sample driver a 3-channel 2 x 2 image written to layer 1 is uploaded as
`GL_RGB`; layers 0 and 2 still hold `[10]` and `[30]`. -/
theorem set_writes_one_layer_of_reported_at_sample :
    Driver.sample.textures (Driver.sample.bound GL_TEXTURE_2D_ARRAY) =
        Driver.sample.textures 3 ∧
      Driver.sample.errors.headD GL_NO_ERROR = GL_NO_ERROR ∧
      0 ≤ (Driver.sample.textures 3).depth ∧ (Driver.sample.textures 3).depth < 2147483648 ∧
      ((1 : Nat) : Int) < (Driver.sample.textures 3).depth ∧
      (2 : Int) = (Driver.sample.textures 3).width ∧
      (2 : Int) = (Driver.sample.textures 3).height ∧
      GLCall.glTexSubImage3D GL_TEXTURE_2D_ARRAY 0 0 0 1 2 2 1 GL_RGB GL_UNSIGNED_BYTE [7, 8, 9] ∈
        issuedSince Driver.sample
          (TextureArray2D.set ⟨3, GL_TEXTURE_2D_ARRAY⟩ 1 ⟨⟨2, 2, 1, 3⟩, [7, 8, 9]⟩
            Driver.sample).2 ∧
      ((TextureArray2D.set ⟨3, GL_TEXTURE_2D_ARRAY⟩ 1 ⟨⟨2, 2, 1, 3⟩, [7, 8, 9]⟩
          Driver.sample).2.textures 3).layers[0]? = some [10] ∧
      ((TextureArray2D.set ⟨3, GL_TEXTURE_2D_ARRAY⟩ 1 ⟨⟨2, 2, 1, 3⟩, [7, 8, 9]⟩
          Driver.sample).2.textures 3).layers[2]? = some [30] := by
  have h := set_writes_one_layer_of_reported ⟨3, GL_TEXTURE_2D_ARRAY⟩ 1
    ⟨⟨2, 2, 1, 3⟩, [7, 8, 9]⟩
    Driver.sample (Driver.sample.textures 3) rfl (by decide) (by decide) (by decide)
    (by decide) (by decide)
  obtain ⟨hissued, hlayers, -⟩ := h
  obtain ⟨format, htrace, -, h3⟩ := hissued rfl
  have hf : format = GL_RGB := h3 rfl
  subst hf
  refine ⟨rfl, rfl, by decide, by decide, by decide, by decide, by decide, ?_, ?_, ?_⟩
  · rw [htrace]
    simp
    exact ⟨rfl, rfl⟩
  · rw [hlayers 0 (by decide)]
    rfl
  · rw [hlayers 2 (by decide)]
    rfl

/-- Claim C8 fails in the code: `TextureArray2D::set` tests the layer and the image size
against the array that is bound to `GL_TEXTURE_2D_ARRAY` when `size()` runs, and binds
its own texture only after the tests.  With texture 4 (2 x 2, one layer) bound and no
driver error, `set(1, image)` on texture 3 (2 x 2, three layers) with a 3-channel 2 x 2
image, a valid layer and a size-matching image, issues no upload: only the three size
queries and the error query are issued, the bounds error is thrown and layer 1 of
texture 3 still holds `[20]`.  The same call with texture 3 bound issues the upload in
format `GL_RGB` at offset `(0, 0, 1)` with extent `(2, 2, 1)`. -/
theorem C8_set_skips_upload_when_other_array_bound :
    (((Driver.twoArrays 4).textures 3).depth = 3 ∧
      ((Driver.twoArrays 4).textures 3).width = 2 ∧
      ((Driver.twoArrays 4).textures 3).height = 2 ∧
      (TextureArray2D.set ⟨3, GL_TEXTURE_2D_ARRAY⟩ 1 ⟨⟨2, 2, 1, 3⟩, [7, 8, 9]⟩
        (Driver.twoArrays 4)).1 =
        Outcome.raised (Exn.TextureError "Layer (1) exceeds layer count (1).") ∧
      issuedSince (Driver.twoArrays 4)
        (TextureArray2D.set ⟨3, GL_TEXTURE_2D_ARRAY⟩ 1 ⟨⟨2, 2, 1, 3⟩, [7, 8, 9]⟩
          (Driver.twoArrays 4)).2 =
        [GLCall.glGetTexLevelParameteriv GL_TEXTURE_2D_ARRAY 0 GL_TEXTURE_WIDTH,
          GLCall.glGetTexLevelParameteriv GL_TEXTURE_2D_ARRAY 0 GL_TEXTURE_HEIGHT,
          GLCall.glGetTexLevelParameteriv GL_TEXTURE_2D_ARRAY 0 GL_TEXTURE_DEPTH,
          GLCall.glGetError] ∧
      ((TextureArray2D.set ⟨3, GL_TEXTURE_2D_ARRAY⟩ 1 ⟨⟨2, 2, 1, 3⟩, [7, 8, 9]⟩
        (Driver.twoArrays 4)).2.textures 3).layers = [[10], [20], [30]]) ∧
    ((TextureArray2D.set ⟨3, GL_TEXTURE_2D_ARRAY⟩ 1 ⟨⟨2, 2, 1, 3⟩, [7, 8, 9]⟩
        (Driver.twoArrays 3)).1 = Outcome.returned () ∧
      issuedSince (Driver.twoArrays 3)
        (TextureArray2D.set ⟨3, GL_TEXTURE_2D_ARRAY⟩ 1 ⟨⟨2, 2, 1, 3⟩, [7, 8, 9]⟩
          (Driver.twoArrays 3)).2 =
        [GLCall.glGetTexLevelParameteriv GL_TEXTURE_2D_ARRAY 0 GL_TEXTURE_WIDTH,
          GLCall.glGetTexLevelParameteriv GL_TEXTURE_2D_ARRAY 0 GL_TEXTURE_HEIGHT,
          GLCall.glGetTexLevelParameteriv GL_TEXTURE_2D_ARRAY 0 GL_TEXTURE_DEPTH,
          GLCall.glGetError,
          GLCall.glBindTexture GL_TEXTURE_2D_ARRAY 3,
          GLCall.glTexSubImage3D GL_TEXTURE_2D_ARRAY 0 0 0 1 2 2 1 GL_RGB GL_UNSIGNED_BYTE
            [7, 8, 9],
          GLCall.glGetError]) := by
  decide

/-- What `set_filter` writes: the four parameters of the texture bound to the target at
the time of the call, whichever texture that is. -/
theorem set_filter_textures (self : Texture) (filter : Nat) (d : Driver) :
    (self.set_filter filter d).2.textures =
      Function.update d.textures (d.bound self.target)
        { d.textures (d.bound self.target) with
          minFilter := filter, magFilter := filter,
          wrapS := GL_CLAMP_TO_BORDER, wrapT := GL_CLAMP_TO_BORDER } := by
  unfold Texture.set_filter
  simp only [bind, GLM.bind, glTexParameteri]
  rw [assertNoGLError_textures]
  simp [TextureObject.setParameter, GL_TEXTURE_MIN_FILTER, GL_TEXTURE_MAG_FILTER,
    GL_TEXTURE_WRAP_S, GL_TEXTURE_WRAP_T]

/-- With the texture itself bound to its target, `set_filter` gives it the filter mode
and the clamp-to-border wrap mode. -/
theorem set_filter_when_bound (self : Texture) (filter : Nat) (d : Driver)
    (hbound : d.bound self.target = self.id) :
    ((self.set_filter filter d).2.textures self.id).minFilter = filter ∧
    ((self.set_filter filter d).2.textures self.id).magFilter = filter ∧
    ((self.set_filter filter d).2.textures self.id).wrapS = GL_CLAMP_TO_BORDER ∧
    ((self.set_filter filter d).2.textures self.id).wrapT = GL_CLAMP_TO_BORDER := by
  rw [set_filter_textures, hbound]
  simp

/-- With another texture bound to the target, `set_filter` leaves the texture's own
object as it was. -/
theorem set_filter_when_not_bound (self : Texture) (filter : Nat) (d : Driver)
    (hbound : d.bound self.target ≠ self.id) :
    (self.set_filter filter d).2.textures self.id = d.textures self.id := by
  rw [set_filter_textures]
  exact Function.update_noteq (Ne.symm hbound) _ _

/-- On every driver: when the error check after `glFramebufferTextureLayer` reports an
error, `image` throws after these ten calls, the last being the failing query; the
framebuffer generated by the seventh is not deleted. -/
theorem image_error_after_attach (self : Texture) (layer : Nat) (d : Driver) (e : Nat)
    (rest : List Nat)
    (hfmt : (d.textures self.id).internalFormat = GL_RGBA ∨
      (d.textures self.id).internalFormat = GL_BGRA)
    (herrs : d.errors = GL_NO_ERROR :: e :: rest) (he : e ≠ GL_NO_ERROR) :
    (TextureArray2D.image self layer d).1 =
        Outcome.raised (Exn.OpenGLError
          ("OpenGL error 0x" ++ hex e ++ " at " ++ "glFramebufferTextureLayer")) ∧
      issuedSince d (TextureArray2D.image self layer d).2 =
        [GLCall.glBindTexture self.target self.id,
          GLCall.glGetTexLevelParameteriv self.target 0 GL_TEXTURE_INTERNAL_FORMAT,
          GLCall.glGetTexLevelParameteriv self.target 0 GL_TEXTURE_WIDTH,
          GLCall.glGetTexLevelParameteriv self.target 0 GL_TEXTURE_HEIGHT,
          GLCall.glGetTexLevelParameteriv self.target 0 GL_TEXTURE_DEPTH,
          GLCall.glGetError,
          GLCall.glGenFramebuffers 1,
          GLCall.glBindFramebuffer GL_FRAMEBUFFER d.fresh,
          GLCall.glFramebufferTextureLayer GL_FRAMEBUFFER GL_COLOR_ATTACHMENT0 self.id 0 layer,
          GLCall.glGetError] := by
  have hcond : ¬ ((d.textures self.id).internalFormat ≠ (GL_RGBA : Int) ∧
      (d.textures self.id).internalFormat ≠ (GL_BGRA : Int)) := by
    rcases hfmt with h | h <;> simp [h]
  unfold TextureArray2D.image
  simp only [bind, GLM.bind, glBindTexture, glGetTexLevelParameteriv, Function.update_same,
    TextureObject.levelParameter]
  simp [GL_TEXTURE_INTERNAL_FORMAT, GL_TEXTURE_WIDTH, GL_TEXTURE_HEIGHT, GL_TEXTURE_DEPTH,
    hcond, GLM.bind, pure, GLM.pure]
  rw [size_of_head self _ (by simp [herrs])]
  simp only [glGen, issue]
  rw [assertNoGLError_of_error _ _ (by simp [herrs, he])]
  simp [issuedSince, herrs, GL_TEXTURE_INTERNAL_FORMAT]
  exact ⟨rfl, rfl, rfl⟩

/-- On every driver: when the error check after `glReadPixels` reports an error, `image`
throws after these thirteen calls; the framebuffer generated by the seventh is not
deleted. -/
theorem image_error_after_read (self : Texture) (layer : Nat) (d : Driver) (e : Nat)
    (rest : List Nat)
    (hfmt : (d.textures self.id).internalFormat = GL_RGBA ∨
      (d.textures self.id).internalFormat = GL_BGRA)
    (herrs : d.errors = GL_NO_ERROR :: GL_NO_ERROR :: e :: rest) (he : e ≠ GL_NO_ERROR) :
    (TextureArray2D.image self layer d).1 =
        Outcome.raised (Exn.OpenGLError
          ("OpenGL error 0x" ++ hex e ++ " at " ++ "glReadPixels")) ∧
      issuedSince d (TextureArray2D.image self layer d).2 =
        [GLCall.glBindTexture self.target self.id,
          GLCall.glGetTexLevelParameteriv self.target 0 GL_TEXTURE_INTERNAL_FORMAT,
          GLCall.glGetTexLevelParameteriv self.target 0 GL_TEXTURE_WIDTH,
          GLCall.glGetTexLevelParameteriv self.target 0 GL_TEXTURE_HEIGHT,
          GLCall.glGetTexLevelParameteriv self.target 0 GL_TEXTURE_DEPTH,
          GLCall.glGetError,
          GLCall.glGenFramebuffers 1,
          GLCall.glBindFramebuffer GL_FRAMEBUFFER d.fresh,
          GLCall.glFramebufferTextureLayer GL_FRAMEBUFFER GL_COLOR_ATTACHMENT0 self.id 0 layer,
          GLCall.glGetError,
          GLCall.glReadBuffer GL_COLOR_ATTACHMENT0,
          GLCall.glReadPixels 0 0 (d.textures self.id).width (d.textures self.id).height
            GL_RGBA GL_UNSIGNED_BYTE,
          GLCall.glGetError] := by
  have hcond : ¬ ((d.textures self.id).internalFormat ≠ (GL_RGBA : Int) ∧
      (d.textures self.id).internalFormat ≠ (GL_BGRA : Int)) := by
    rcases hfmt with h | h <;> simp [h]
  unfold TextureArray2D.image
  simp only [bind, GLM.bind, glBindTexture, glGetTexLevelParameteriv, Function.update_same,
    TextureObject.levelParameter]
  simp [GL_TEXTURE_INTERNAL_FORMAT, GL_TEXTURE_WIDTH, GL_TEXTURE_HEIGHT, GL_TEXTURE_DEPTH,
    hcond, GLM.bind, pure, GLM.pure]
  rw [size_of_head self _ (by simp [herrs])]
  simp only [glGen, issue]
  rw [assertNoGLError_of_head _ _ (by simp [herrs])]
  simp only [glReadPixels]
  rw [assertNoGLError_of_error _ _ (by simp [herrs, he])]
  simp [issuedSince, herrs, GL_TEXTURE_INTERNAL_FORMAT]
  exact ⟨rfl, rfl, rfl⟩

/-- C9: `TextureArray2D::image` on the sample array.  When the error check after
`glFramebufferTextureLayer` reports an error, and when the error check after
`glReadPixels` reports one, the call throws with the temporary framebuffer generated and
bound but never deleted: the calls issued end with the failing error query and contain no
`glDeleteFramebuffers`.  Only the path without an error issues the delete call. -/
theorem C9_image_leaks_temporary_framebuffer :
    ((TextureArray2D.image ⟨3, GL_TEXTURE_2D_ARRAY⟩ 5 (Driver.sampleWithErrors [0, 0x501])).1 =
        Outcome.raised (Exn.OpenGLError "OpenGL error 0x501 at glFramebufferTextureLayer") ∧
      issuedSince (Driver.sampleWithErrors [0, 0x501])
          (TextureArray2D.image ⟨3, GL_TEXTURE_2D_ARRAY⟩ 5
            (Driver.sampleWithErrors [0, 0x501])).2 =
        [GLCall.glBindTexture GL_TEXTURE_2D_ARRAY 3,
          GLCall.glGetTexLevelParameteriv GL_TEXTURE_2D_ARRAY 0 GL_TEXTURE_INTERNAL_FORMAT,
          GLCall.glGetTexLevelParameteriv GL_TEXTURE_2D_ARRAY 0 GL_TEXTURE_WIDTH,
          GLCall.glGetTexLevelParameteriv GL_TEXTURE_2D_ARRAY 0 GL_TEXTURE_HEIGHT,
          GLCall.glGetTexLevelParameteriv GL_TEXTURE_2D_ARRAY 0 GL_TEXTURE_DEPTH,
          GLCall.glGetError,
          GLCall.glGenFramebuffers 1,
          GLCall.glBindFramebuffer GL_FRAMEBUFFER 1,
          GLCall.glFramebufferTextureLayer GL_FRAMEBUFFER GL_COLOR_ATTACHMENT0 3 0 5,
          GLCall.glGetError]) ∧
    ((TextureArray2D.image ⟨3, GL_TEXTURE_2D_ARRAY⟩ 1
          (Driver.sampleWithErrors [0, 0, 0x506])).1 =
        Outcome.raised (Exn.OpenGLError "OpenGL error 0x506 at glReadPixels") ∧
      issuedSince (Driver.sampleWithErrors [0, 0, 0x506])
          (TextureArray2D.image ⟨3, GL_TEXTURE_2D_ARRAY⟩ 1
            (Driver.sampleWithErrors [0, 0, 0x506])).2 =
        [GLCall.glBindTexture GL_TEXTURE_2D_ARRAY 3,
          GLCall.glGetTexLevelParameteriv GL_TEXTURE_2D_ARRAY 0 GL_TEXTURE_INTERNAL_FORMAT,
          GLCall.glGetTexLevelParameteriv GL_TEXTURE_2D_ARRAY 0 GL_TEXTURE_WIDTH,
          GLCall.glGetTexLevelParameteriv GL_TEXTURE_2D_ARRAY 0 GL_TEXTURE_HEIGHT,
          GLCall.glGetTexLevelParameteriv GL_TEXTURE_2D_ARRAY 0 GL_TEXTURE_DEPTH,
          GLCall.glGetError,
          GLCall.glGenFramebuffers 1,
          GLCall.glBindFramebuffer GL_FRAMEBUFFER 1,
          GLCall.glFramebufferTextureLayer GL_FRAMEBUFFER GL_COLOR_ATTACHMENT0 3 0 1,
          GLCall.glGetError,
          GLCall.glReadBuffer GL_COLOR_ATTACHMENT0,
          GLCall.glReadPixels 0 0 2 2 GL_RGBA GL_UNSIGNED_BYTE,
          GLCall.glGetError]) ∧
    ((TextureArray2D.image ⟨3, GL_TEXTURE_2D_ARRAY⟩ 1 (Driver.sampleWithErrors [])).1 =
        Outcome.returned ⟨⟨2, 2, 0, 4⟩, []⟩ ∧
      GLCall.glDeleteFramebuffers 1 1 ∈
        issuedSince (Driver.sampleWithErrors [])
          (TextureArray2D.image ⟨3, GL_TEXTURE_2D_ARRAY⟩ 1 (Driver.sampleWithErrors [])).2) := by
  decide

/-- C10: `set_filter` on a texture that is not the one bound to its target.  On the
sample driver (texture 3 bound to `GL_TEXTURE_2D_ARRAY`) `set_filter(GL_NEAREST)` on
texture 4 returns with texture 4 still at minification `GL_NEAREST_MIPMAP_LINEAR`,
magnification `GL_LINEAR` and wrap `GL_REPEAT` on both axes, and with texture 3 changed
instead.  The `Texture2D` constructor on the initial driver returns texture 1 with wrap
`GL_REPEAT` and minification `GL_NEAREST_MIPMAP_LINEAR`: its `set_filter(GL_LINEAR)`
went to texture 0. -/
theorem C10_set_filter_misses_unbound_texture :
    ((Texture.set_filter ⟨4, GL_TEXTURE_2D_ARRAY⟩ GL_NEAREST Driver.sample).1 =
        Outcome.returned () ∧
      ((Texture.set_filter ⟨4, GL_TEXTURE_2D_ARRAY⟩ GL_NEAREST Driver.sample).2.textures 4) =
        Driver.sample.textures 4 ∧
      (Driver.sample.textures 4).minFilter = GL_NEAREST_MIPMAP_LINEAR ∧
      (Driver.sample.textures 4).magFilter = GL_LINEAR ∧
      (Driver.sample.textures 4).wrapS = GL_REPEAT ∧
      (Driver.sample.textures 4).wrapT = GL_REPEAT ∧
      ((Texture.set_filter ⟨4, GL_TEXTURE_2D_ARRAY⟩ GL_NEAREST
        Driver.sample).2.textures 3).minFilter = GL_NEAREST ∧
      (Driver.sample.textures 3).minFilter = GL_LINEAR) ∧
    ((Texture2D.create 64 64 GL_RGBA GL_RGBA GL_UNSIGNED_BYTE Driver.initial).1 =
        Outcome.returned ⟨1, GL_TEXTURE_2D⟩ ∧
      ((Texture2D.create 64 64 GL_RGBA GL_RGBA GL_UNSIGNED_BYTE
        Driver.initial).2.textures 1).minFilter = GL_NEAREST_MIPMAP_LINEAR ∧
      ((Texture2D.create 64 64 GL_RGBA GL_RGBA GL_UNSIGNED_BYTE
        Driver.initial).2.textures 1).wrapS = GL_REPEAT ∧
      ((Texture2D.create 64 64 GL_RGBA GL_RGBA GL_UNSIGNED_BYTE
        Driver.initial).2.textures 1).wrapT = GL_REPEAT ∧
      ((Texture2D.create 64 64 GL_RGBA GL_RGBA GL_UNSIGNED_BYTE
        Driver.initial).2.textures 0).wrapS = GL_CLAMP_TO_BORDER) ∧
    GL_REPEAT ≠ GL_CLAMP_TO_BORDER ∧ GL_NEAREST_MIPMAP_LINEAR ≠ GL_NEAREST ∧
    GL_NEAREST_MIPMAP_LINEAR ≠ GL_LINEAR := by
  decide

/-! ### Buffer -/

theorem data_bytes_trace (self : Buffer) (size : Nat) (ptr : List Nat) (d : Driver) :
    (self.data_bytes size ptr d).2.trace =
      d.trace ++ [GLCall.glBindBuffer self.bufferType self.id,
        GLCall.glBufferData self.bufferType size ptr GL_STATIC_DRAW, GLCall.glGetError] := by
  unfold Buffer.data_bytes
  simp only [bind, GLM.bind, issue]
  rw [assertNoGLError_trace]
  simp

/-- The calls of one upload: bind, `glBufferData` with the product computed in `size_t`,
error query. -/
theorem data_issued (self : Buffer) (elements dimension : Nat) (valueType : Buffer.ValueType)
    (sizeofT : Nat) (ptr : List Nat) (d : Driver) :
    issuedSince d (self.data elements dimension valueType sizeofT ptr d).2.2 =
      [GLCall.glBindBuffer self.bufferType self.id,
        GLCall.glBufferData self.bufferType (toSize (elements * dimension * sizeofT)) ptr
          GL_STATIC_DRAW,
        GLCall.glGetError] := by
  unfold Buffer.data
  simp only [issuedSince]
  rw [data_bytes_trace]
  simp

/-- C14 as stated fails: the upload `data<float>(1, 1, Buffer::Double, ptr)` hands 4
bytes to the driver, while the recorded value type `Double` has size 8. -/
theorem C14_upload_size_counterexample :
    uploadedSizes (issuedSince Driver.initial
        ((Buffer.mk GL_ARRAY_BUFFER none none none 1).data 1 1 Buffer.ValueType.Double 4
          [0, 0, 128, 63] Driver.initial).2.2) = [4] ∧
      ((Buffer.mk GL_ARRAY_BUFFER none none none 1).data 1 1 Buffer.ValueType.Double 4
          [0, 0, 128, 63] Driver.initial).2.1.valueType = some Buffer.ValueType.Double ∧
      uploadedSizes (issuedSince Driver.initial
        ((Buffer.mk GL_ARRAY_BUFFER none none none 1).data 1 1 Buffer.ValueType.Double 4
          [0, 0, 128, 63] Driver.initial).2.2) ≠ [1 * 1 * Buffer.ValueType.Double.sizeOf] := by
  decide

/-- C14 as amended: every call `data<T>(elements, dimension, valueType, ptr)` hands the
driver `elements * dimension * sizeof(T)` bytes, computed in `size_t` (exact below 2^64),
whatever `valueType` is; the three typed overloads pass a value type of the size of `T`,
so they upload `elements * dimension * 4` bytes for `float` and `unsigned int` data and
`elements * dimension * 8` bytes for `double` data. -/
theorem C14_upload_size (self : Buffer) (elements dimension : Nat)
    (valueType : Buffer.ValueType) (sizeofT : Nat) (ptr : List Nat) (d : Driver) :
    uploadedSizes (issuedSince d (self.data elements dimension valueType sizeofT ptr d).2.2) =
        [(elements * dimension * sizeofT) % 18446744073709551616] ∧
    (elements * dimension * sizeofT < 18446744073709551616 →
      uploadedSizes (issuedSince d (self.data elements dimension valueType sizeofT ptr d).2.2) =
        [elements * dimension * sizeofT]) ∧
    (elements * dimension * 8 < 18446744073709551616 →
      uploadedSizes (issuedSince d (self.data_double elements dimension ptr d).2.2) =
          [elements * dimension * Buffer.ValueType.Double.sizeOf] ∧
        (self.data_double elements dimension ptr d).2.1.valueType =
          some Buffer.ValueType.Double) ∧
    (elements * dimension * 4 < 18446744073709551616 →
      uploadedSizes (issuedSince d (self.data_float elements dimension ptr d).2.2) =
          [elements * dimension * Buffer.ValueType.Float.sizeOf] ∧
        (self.data_float elements dimension ptr d).2.1.valueType =
          some Buffer.ValueType.Float ∧
        uploadedSizes (issuedSince d (self.data_unsigned elements dimension ptr d).2.2) =
          [elements * dimension * Buffer.ValueType.UnsignedInteger.sizeOf] ∧
        (self.data_unsigned elements dimension ptr d).2.1.valueType =
          some Buffer.ValueType.UnsignedInteger) := by
  refine ⟨?_, ?_, ?_, ?_⟩
  · rw [data_issued]
    simp [uploadedSizes, toSize]
  · intro h
    rw [data_issued]
    simp [uploadedSizes, toSize, Nat.mod_eq_of_lt h]
  · intro h
    constructor
    · unfold Buffer.data_double
      rw [data_issued]
      simp [uploadedSizes, toSize, Nat.mod_eq_of_lt h, Buffer.ValueType.sizeOf]
    · rfl
  · intro h
    refine ⟨?_, rfl, ?_, rfl⟩
    · unfold Buffer.data_float
      rw [data_issued]
      simp [uploadedSizes, toSize, Nat.mod_eq_of_lt h, Buffer.ValueType.sizeOf]
    · unfold Buffer.data_unsigned
      rw [data_issued]
      simp [uploadedSizes, toSize, Nat.mod_eq_of_lt h, Buffer.ValueType.sizeOf]

/-- C15: after `data(N, D, valueType, ptr)` on a buffer in any state, whether or not the
driver reports an error, `elements()` is `N`, `dimension()` is `D` and `valueType()` is
the value type of the upload; the typed overloads record `Float`, `UnsignedInteger` and
`Double`; the buffer type and the handle stay; a later upload replaces all three. -/
theorem C15_buffer_shape_round_trip (self : Buffer) (N D : Nat) (valueType : Buffer.ValueType)
    (sizeofT : Nat) (ptr : List Nat) (d : Driver) :
    ((self.data N D valueType sizeofT ptr d).2.1.elements = some N ∧
      (self.data N D valueType sizeofT ptr d).2.1.dimension = some D ∧
      (self.data N D valueType sizeofT ptr d).2.1.valueType = some valueType ∧
      (self.data N D valueType sizeofT ptr d).2.1.bufferType = self.bufferType ∧
      (self.data N D valueType sizeofT ptr d).2.1.id = self.id) ∧
    ((self.data_float N D ptr d).2.1.elements = some N ∧
      (self.data_float N D ptr d).2.1.dimension = some D ∧
      (self.data_float N D ptr d).2.1.valueType = some Buffer.ValueType.Float) ∧
    ((self.data_unsigned N D ptr d).2.1.elements = some N ∧
      (self.data_unsigned N D ptr d).2.1.dimension = some D ∧
      (self.data_unsigned N D ptr d).2.1.valueType = some Buffer.ValueType.UnsignedInteger) ∧
    ((self.data_double N D ptr d).2.1.elements = some N ∧
      (self.data_double N D ptr d).2.1.dimension = some D ∧
      (self.data_double N D ptr d).2.1.valueType = some Buffer.ValueType.Double) ∧
    (∀ (N2 D2 : Nat) (valueType2 : Buffer.ValueType) (sizeofT2 : Nat) (ptr2 : List Nat)
        (d2 : Driver),
      ((self.data N D valueType sizeofT ptr d).2.1.data N2 D2 valueType2 sizeofT2 ptr2
          d2).2.1.elements = some N2 ∧
        ((self.data N D valueType sizeofT ptr d).2.1.data N2 D2 valueType2 sizeofT2 ptr2
          d2).2.1.dimension = some D2 ∧
        ((self.data N D valueType sizeofT ptr d).2.1.data N2 D2 valueType2 sizeofT2 ptr2
          d2).2.1.valueType = some valueType2) ∧
    ((ElementArrayBuffer.sampleFaces.toBuffer.data_unsigned 3 3 [0, 1, 2]
        Driver.initial).2.1.elements = some 3 ∧
      (Buffer.sampleVertices.data_float 3 3 [] Driver.initial).2.1.dimension = some 3) := by
  refine ⟨⟨rfl, rfl, rfl, rfl, rfl⟩, ⟨rfl, rfl, rfl⟩, ⟨rfl, rfl, rfl⟩, ⟨rfl, rfl, rfl⟩,
    fun _ _ _ _ _ _ => ⟨rfl, rfl, rfl⟩, ⟨rfl, rfl⟩⟩

/-! ### Program: the row count of the dispatch -/

theorem dispatchedOps_rejected (fuel location arrayLength : Nat) (value : EigenMatrix)
    (d : Driver) (hne : value.Options ≠ Eigen.RowMajor) (ha : arrayLength ≠ 0)
    (hrej : ¬ AcceptedShape (value.rows / arrayLength) value.cols) :
    Program.dispatchedOps (fuel + 1) location value arrayLength d = [] := by
  simp [Program.dispatchedOps,
    setUniformLocation_rejected fuel location arrayLength value d hne ha hrej, issuedSince,
    uniformOps]

/-- The setter issued for an accepted shape depends on the shape only. -/
theorem dispatchedOps_of_shape (fuel location arrayLength : Nat) (value : EigenMatrix)
    (d : Driver) (hne : value.Options ≠ Eigen.RowMajor) (ha : arrayLength ≠ 0) :
    Program.dispatchedOps (fuel + 1) location value arrayLength d =
      match contractSetter (value.rows / arrayLength) value.cols with
      | some (op, _) => [op]
      | none => [] := by
  cases htab : contractSetter (value.rows / arrayLength) value.cols with
  | none =>
    have hrej : ¬ AcceptedShape (value.rows / arrayLength) value.cols := by
      rw [← contractSetter_isSome, htab]
      simp
    exact dispatchedOps_rejected fuel location arrayLength value d hne ha hrej
  | some p =>
    obtain ⟨op, t⟩ := p
    obtain ⟨-, -, -, h, -⟩ :=
      setUniformLocation_accepted fuel location arrayLength value d hne ha op t htab
    exact h

/-- C20: on a column-major value with `t` rows in all and `arrayLength = a ≥ 1` the call
comes back, never with undefined behaviour, and throws the shape error exactly when
`t / a` (truncating) by `cols` is not an accepted shape; whether `a` divides `t` plays no
part: an accepted `t / a` is dispatched without a shape error, and a second value with
the same `cols` and the same `t / a` selects the same operation and meets the shape error
in the same cases.  With `arrayLength = 0` the division, made before anything else, is
undefined, for every value. -/
theorem C20_truncating_row_count (fuel location arrayLength : Nat) (value : EigenMatrix)
    (d : Driver) (hcol : value.isRowMajor = false) (hlen : 1 ≤ arrayLength) :
    (∃ r, Program.setUniformLocation (fuel + 1) location value arrayLength d = some r ∧
      r.1 ≠ Outcome.undefined ∧
      ((∃ what, r.1 = Outcome.raised (Exn.ProgramError what)) ↔
        ¬ AcceptedShape (value.rows / arrayLength) value.cols) ∧
      (AcceptedShape (value.rows / arrayLength) value.cols →
        ∃ op, Program.dispatchedOps (fuel + 1) location value arrayLength d = [op] ∧
          op.shape = (value.rows / arrayLength, value.cols) ∧
          ∃ t data, issuedSince d r.2 =
            [GLCall.glUniformfv op location arrayLength t data, GLCall.glGetError])) ∧
    (∀ (fuel2 location2 arrayLength2 : Nat) (value2 : EigenMatrix) (d2 : Driver),
      value2.isRowMajor = false → 1 ≤ arrayLength2 → value2.cols = value.cols →
      value2.rows / arrayLength2 = value.rows / arrayLength →
      Program.dispatchedOps (fuel2 + 1) location2 value2 arrayLength2 d2 =
          Program.dispatchedOps (fuel + 1) location value arrayLength d ∧
        ((∃ r2 what,
            Program.setUniformLocation (fuel2 + 1) location2 value2 arrayLength2 d2 = some r2 ∧
            r2.1 = Outcome.raised (Exn.ProgramError what)) ↔
          (∃ r what,
            Program.setUniformLocation (fuel + 1) location value arrayLength d = some r ∧
            r.1 = Outcome.raised (Exn.ProgramError what)))) ∧
    (∀ (value0 : EigenMatrix) (d0 : Driver),
      Program.setUniformLocation (fuel + 1) location value0 0 d0 =
        some (Outcome.undefined, d0)) := by
  have hne := isRowMajor_false_ne value hcol
  have ha : arrayLength ≠ 0 := by omega
  have hiff : ∀ (f l a : Nat) (v : EigenMatrix) (dr : Driver), v.Options ≠ Eigen.RowMajor →
      a ≠ 0 →
      ((∃ r what, Program.setUniformLocation (f + 1) l v a dr = some r ∧
          r.1 = Outcome.raised (Exn.ProgramError what)) ↔
        ¬ AcceptedShape (v.rows / a) v.cols) := by
    intro f l a v dr hv hav
    constructor
    · rintro ⟨r, what, hrun, hout⟩ hacc
      obtain ⟨⟨op, t⟩, htab⟩ :=
        Option.isSome_iff_exists.mp ((contractSetter_isSome _ _).mpr hacc)
      obtain ⟨r1, hrun1, -, -, hout1⟩ := setUniformLocation_accepted f l a v dr hv hav op t htab
      rw [hrun] at hrun1
      have hr : r = r1 := Option.some.inj hrun1
      subst hr
      rcases hout1 with h | ⟨w, h⟩ <;> rw [hout] at h <;> simp at h
    · intro hrej
      exact ⟨_, _, setUniformLocation_rejected f l a v dr hv hav hrej, rfl⟩
  refine ⟨?_, ?_, ?_⟩
  · by_cases hacc : AcceptedShape (value.rows / arrayLength) value.cols
    · obtain ⟨⟨op, t⟩, htab⟩ :=
        Option.isSome_iff_exists.mp ((contractSetter_isSome _ _).mpr hacc)
      obtain ⟨r, hrun, htrace, hops, hout⟩ :=
        setUniformLocation_accepted fuel location arrayLength value d hne ha op t htab
      refine ⟨r, hrun, ?_, ?_, ?_⟩
      · rcases hout with h | ⟨w, h⟩ <;> rw [h] <;> simp
      · constructor
        · rintro ⟨what, hw⟩
          rcases hout with h | ⟨w, h⟩ <;> rw [hw] at h <;> simp at h
        · intro hrej
          exact absurd hacc hrej
      · intro _
        exact ⟨op, hops, contractSetter_shape _ _ _ _ htab, t, value.data, htrace⟩
    · have hrun := setUniformLocation_rejected fuel location arrayLength value d hne ha hacc
      refine ⟨_, hrun, by simp, ?_, fun h => absurd h hacc⟩
      exact ⟨fun _ => hacc, fun _ => ⟨_, rfl⟩⟩
  · intro fuel2 location2 arrayLength2 value2 d2 hcol2 hlen2 hc hr
    have hne2 := isRowMajor_false_ne value2 hcol2
    have ha2 : arrayLength2 ≠ 0 := by omega
    constructor
    · rw [dispatchedOps_of_shape fuel2 location2 arrayLength2 value2 d2 hne2 ha2,
        dispatchedOps_of_shape fuel location arrayLength value d hne ha, hc, hr]
    · rw [hiff fuel2 location2 arrayLength2 value2 d2 hne2 ha2,
        hiff fuel location arrayLength value d hne ha, hc, hr]
  · intro value0 d0
    simp [Program.setUniformLocation]

/-- C20 at a column-major 7 x 1 value with `arrayLength = 2`: rank 7 / 2 = 3, the
3-component vector setter with count 2, no error. -/
theorem C20_truncating_row_count_witness :
    (EigenMatrix.mk 7 1 Eigen.ColMajor [1, 2, 3, 4, 5, 6, 7]).isRowMajor = false ∧ 1 ≤ 2 ∧
      ∃ r, Program.setUniformLocation 1 0
          (EigenMatrix.mk 7 1 Eigen.ColMajor [1, 2, 3, 4, 5, 6, 7]) 2 Driver.initial = some r ∧
        r.1 = Outcome.returned () ∧
        issuedSince Driver.initial r.2 =
          [GLCall.glUniformfv UniformOp.glUniform3fv 0 2 none [1, 2, 3, 4, 5, 6, 7],
            GLCall.glGetError] := by
  refine ⟨by decide, by decide, ?_⟩
  obtain ⟨r, hrun, -, -, -⟩ :=
    (C20_truncating_row_count 0 0 2 (EigenMatrix.mk 7 1 Eigen.ColMajor [1, 2, 3, 4, 5, 6, 7])
      Driver.initial (by decide) (by decide)).1
  have hval : Program.setUniformLocation 1 0
      (EigenMatrix.mk 7 1 Eigen.ColMajor [1, 2, 3, 4, 5, 6, 7]) 2 Driver.initial =
      some (Outcome.returned (),
        { Driver.initial with
          trace := [GLCall.glUniformfv UniformOp.glUniform3fv 0 2 none [1, 2, 3, 4, 5, 6, 7],
            GLCall.glGetError] }) := rfl
  rw [hval] at hrun
  have hr : r = _ := (Option.some.inj hrun).symm
  subst hr
  exact ⟨_, hval, rfl, rfl⟩

/-! ### Destructors -/

theorem destroyAll_trace (textures : List Texture) (d : Driver) :
    (Texture.destroyAll textures d).1 = Outcome.returned () ∧
      (Texture.destroyAll textures d).2.trace =
        d.trace ++ textures.map fun t => GLCall.glDeleteTextures 1 t.id := by
  induction textures generalizing d with
  | nil => simp [Texture.destroyAll, pure, GLM.pure]
  | cons t ts ih =>
    have h := ih { d with trace := d.trace ++ [GLCall.glDeleteTextures 1 t.id] }
    simp only [Texture.destroyAll, Texture.destroy, bind, GLM.bind, issue]
    simpa using h

/-- On every driver and for every framebuffer, the destructor issues nothing but the
`glDeleteTextures` calls of the textures it was the last owner of. -/
theorem framebuffer_destroy_issued (self : Framebuffer) (lastOwner : Texture → Bool)
    (d : Driver) :
    issuedSince d (self.destroy lastOwner d).2 =
      (self.color_attachments.filter lastOwner).map fun t => GLCall.glDeleteTextures 1 t.id := by
  unfold Framebuffer.destroy issuedSince
  rw [(destroyAll_trace _ d).2]
  simp

/-- C18: the framebuffer constructed with depth enabled on the initial driver owns
framebuffer 1 and renderbuffer 2; destroying it issues no driver call at all, and with a
texture attached that it is the last owner of, only that texture's `glDeleteTextures`:
neither handle is ever deleted.  The destructors of `Buffer`, `Texture`, `Shader` and
`Program` each delete their handle once. -/
theorem C18_framebuffer_handles_never_deleted :
    ((Framebuffer.create 8 8 true Driver.initial).1 =
        Outcome.returned (Framebuffer.mk 8 8 true [] 1 (some 2)) ∧
      GLCall.glGenFramebuffers 1 ∈ (Framebuffer.create 8 8 true Driver.initial).2.trace ∧
      GLCall.glGenRenderbuffers 1 ∈ (Framebuffer.create 8 8 true Driver.initial).2.trace ∧
      issuedSince (Framebuffer.create 8 8 true Driver.initial).2
          ((Framebuffer.mk 8 8 true [] 1 (some 2)).destroy (fun _ => true)
            (Framebuffer.create 8 8 true Driver.initial).2).2 = [] ∧
      issuedSince (Framebuffer.create 8 8 true Driver.initial).2
          ((Framebuffer.mk 8 8 true [⟨3, GL_TEXTURE_2D⟩] 1 (some 2)).destroy (fun _ => true)
            (Framebuffer.create 8 8 true Driver.initial).2).2 =
        [GLCall.glDeleteTextures 1 3]) ∧
    (issuedSince Driver.initial (Buffer.sampleVertices.destroy Driver.initial).2 =
        [GLCall.glDeleteBuffers 1 5, GLCall.glGetError] ∧
      issuedSince Driver.initial ((Texture.mk 3 GL_TEXTURE_2D).destroy Driver.initial).2 =
        [GLCall.glDeleteTextures 1 3] ∧
      issuedSince Driver.initial ((Shader.mk 8 GL_VERTEX_SHADER).destroy Driver.initial).2 =
        [GLCall.glDeleteShader 8, GLCall.glGetError] ∧
      issuedSince Driver.initial (Program.sample.destroy Driver.initial).2 =
        [GLCall.glDetachShader 9 8, GLCall.glGetError, GLCall.glDeleteProgram 9,
          GLCall.glGetError]) := by
  decide

/-! ### Program: draw -/

/-- C13: a draw whose error check after the draw call reports an error.  The indexed
draw on the sample program throws with the program unchanged (attribute slot 0 and the
texture still listed) after enabling slot 0, binding the index buffer and drawing: no
`glDisableVertexAttribArray` and no `glActiveTexture` follows.  The direct draw throws
the same way with both attribute entries and the texture still listed. -/
theorem C13_cleanup_skipped_on_draw_error :
    ((Program.sample.render ElementArrayBuffer.sampleFaces (Driver.linked [0, 0, 0x502])).1 =
        Outcome.raised (Exn.OpenGLError "OpenGL error 0x502 at glDrawElements") ∧
      (Program.sample.render ElementArrayBuffer.sampleFaces
          (Driver.linked [0, 0, 0x502])).2.1 = Program.sample ∧
      Program.sample.activeAttributes ≠ [] ∧ Program.sample.activeTextures ≠ [] ∧
      issuedSince (Driver.linked [0, 0, 0x502])
          (Program.sample.render ElementArrayBuffer.sampleFaces
            (Driver.linked [0, 0, 0x502])).2.2 =
        [GLCall.glEnableVertexAttribArray 0, GLCall.glGetError,
          GLCall.glBindBuffer GL_ELEMENT_ARRAY_BUFFER 6, GLCall.glGetError,
          GLCall.glDrawElements GL_TRIANGLES 3 GL_UNSIGNED_INT, GLCall.glGetError]) ∧
    ((Program.sample.render_arrays Buffer.sampleVertices "vertex" GL_TRIANGLES
          (Driver.linked [0, 0, 0, 0, 0x502])).1 =
        Outcome.raised (Exn.OpenGLError "OpenGL error 0x502 at glDrawArrays") ∧
      (Program.sample.render_arrays Buffer.sampleVertices "vertex" GL_TRIANGLES
          (Driver.linked [0, 0, 0, 0, 0x502])).2.1.activeAttributes =
        [(0, Buffer.sampleVertices), (0, Buffer.sampleVertices)] ∧
      (Program.sample.render_arrays Buffer.sampleVertices "vertex" GL_TRIANGLES
          (Driver.linked [0, 0, 0, 0, 0x502])).2.1.activeTextures =
        [⟨3, GL_TEXTURE_2D⟩] ∧
      issuedSince (Driver.linked [0, 0, 0, 0, 0x502])
          (Program.sample.render_arrays Buffer.sampleVertices "vertex" GL_TRIANGLES
            (Driver.linked [0, 0, 0, 0, 0x502])).2.2 =
        [GLCall.glGetAttribLocation 9 "vertex", GLCall.glGetError,
          GLCall.glBindBuffer GL_ARRAY_BUFFER 5,
          GLCall.glVertexAttribPointer 0 3 GL_FLOAT GL_FALSE 0, GLCall.glGetError,
          GLCall.glEnableVertexAttribArray 0, GLCall.glGetError,
          GLCall.glEnableVertexAttribArray 0, GLCall.glGetError,
          GLCall.glDrawArrays GL_TRIANGLES 0 9, GLCall.glGetError]) ∧
    ((Program.sample.render ElementArrayBuffer.sampleFaces (Driver.linked [])).1 =
        Outcome.returned () ∧
      GLCall.glDisableVertexAttribArray 0 ∈
        issuedSince (Driver.linked [])
          (Program.sample.render ElementArrayBuffer.sampleFaces (Driver.linked [])).2.2) := by
  simp [Program.render, Program.render_arrays, Program.attribute, ArrayBuffer.bind,
    glGetAttribLocation, Program.sample, Program.enableAttributes, Program.enableLoop,
    Program.disableLoop, Program.disableAttributesAndClear, ElementArrayBuffer.bind,
    ElementArrayBuffer.sampleFaces, Buffer.sampleVertices, bind, GLM.bind, issue,
    assertNoGLError, glGetError, glActiveTexture, Driver.linked, Driver.initial, pure,
    GLM.pure, GLM.raise, issuedSince, GL_NO_ERROR, toSize, toUnsigned,
    Buffer.ValueType.toGLenum]
  exact ⟨by decide, by decide⟩

/-! ### Framebuffer: bind -/

/-- The calls of `bind()` on a framebuffer with attachments, complete, both error checks
passing. -/
theorem bind_complete_run (self : Framebuffer) (d : Driver)
    (hn : self.color_attachments.length ≠ 0)
    (hcomplete : d.framebufferStatus = GL_FRAMEBUFFER_COMPLETE)
    (hcheck1 : d.errors.headD GL_NO_ERROR = GL_NO_ERROR)
    (hcheck2 : d.errors.tail.headD GL_NO_ERROR = GL_NO_ERROR) :
    (self.bind d).1 = Outcome.returned () ∧
      issuedSince d (self.bind d).2 =
        [GLCall.glBindFramebuffer GL_FRAMEBUFFER self.id, GLCall.glGetError,
          GLCall.glCheckFramebufferStatus GL_FRAMEBUFFER,
          GLCall.glViewport 0 0 self.width self.height,
          GLCall.glDrawBuffers (self.color_attachments.length % 4294967296)
            ((List.range (self.color_attachments.length % 4294967296)).map
              fun i => uadd GL_COLOR_ATTACHMENT0 i),
          GLCall.glGetError] ++
        (if self.use_depth_test then
          [GLCall.glEnable GL_DEPTH_TEST, GLCall.glClear GL_DEPTH_BUFFER_BIT]
        else [GLCall.glDisable GL_DEPTH_TEST]) ++
        [GLCall.glClear GL_COLOR_BUFFER_BIT] := by
  unfold Framebuffer.bind
  simp only [bind, GLM.bind, issue, glCheckFramebufferStatus, hn, if_false, pure, GLM.pure]
  rw [assertNoGLError_of_head _ _ (by exact hcheck1)]
  simp only [hcomplete, ne_eq, not_true_eq_false, if_false, GLM.pure, GLM.bind, issue]
  rw [assertNoGLError_of_head _ _ (by exact hcheck2)]
  cases hdepth : self.use_depth_test <;> simp [issuedSince, GLM.pure, GLM.bind, issue]

theorem uadd_attachment (i : Nat) (h : i < 4294931232) :
    uadd GL_COLOR_ATTACHMENT0 i = GL_COLOR_ATTACHMENT0 + i := by
  unfold uadd GL_COLOR_ATTACHMENT0
  exact Nat.mod_eq_of_lt (by omega)

/-- C19: `bind()` on a framebuffer with `n ≥ 1` attachments (`n` small enough for
`GL_COLOR_ATTACHMENT0 + n` to fit `unsigned int`) that the driver reports complete, both
error checks of `bind()` passing: the call returns; the viewport is `(0, 0, width,
height)`; the draw-target list has length `n` and entry `i` is `GL_COLOR_ATTACHMENT0 + i`;
the color buffer is cleared last in either case; with depth enabled depth testing is
enabled and the depth buffer cleared, and otherwise depth testing is disabled and the
depth buffer is not cleared. -/
theorem C19_bind_complete (self : Framebuffer) (d : Driver)
    (hn : 1 ≤ self.color_attachments.length)
    (hfit : self.color_attachments.length < 4294931232)
    (hcomplete : d.framebufferStatus = GL_FRAMEBUFFER_COMPLETE)
    (hcheck1 : d.errors.headD GL_NO_ERROR = GL_NO_ERROR)
    (hcheck2 : d.errors.tail.headD GL_NO_ERROR = GL_NO_ERROR) :
    (self.bind d).1 = Outcome.returned () ∧
    (∃ bufs,
      issuedSince d (self.bind d).2 =
        [GLCall.glBindFramebuffer GL_FRAMEBUFFER self.id, GLCall.glGetError,
          GLCall.glCheckFramebufferStatus GL_FRAMEBUFFER,
          GLCall.glViewport 0 0 self.width self.height,
          GLCall.glDrawBuffers self.color_attachments.length bufs,
          GLCall.glGetError] ++
        (if self.use_depth_test then
          [GLCall.glEnable GL_DEPTH_TEST, GLCall.glClear GL_DEPTH_BUFFER_BIT]
        else [GLCall.glDisable GL_DEPTH_TEST]) ++
        [GLCall.glClear GL_COLOR_BUFFER_BIT] ∧
      bufs.length = self.color_attachments.length ∧
      ∀ i, i < self.color_attachments.length → bufs[i]? = some (GL_COLOR_ATTACHMENT0 + i)) ∧
    GLCall.glClear GL_COLOR_BUFFER_BIT ∈ issuedSince d (self.bind d).2 ∧
    (GLCall.glEnable GL_DEPTH_TEST ∈ issuedSince d (self.bind d).2 ↔
      self.use_depth_test = true) ∧
    (GLCall.glClear GL_DEPTH_BUFFER_BIT ∈ issuedSince d (self.bind d).2 ↔
      self.use_depth_test = true) ∧
    (GLCall.glDisable GL_DEPTH_TEST ∈ issuedSince d (self.bind d).2 ↔
      self.use_depth_test = false) := by
  obtain ⟨hout, htrace⟩ := bind_complete_run self d (by omega) hcomplete hcheck1 hcheck2
  have hmod : self.color_attachments.length % 4294967296 = self.color_attachments.length :=
    Nat.mod_eq_of_lt (by omega)
  rw [hmod] at htrace
  refine ⟨hout, ⟨_, htrace, by simp, ?_⟩, ?_, ?_, ?_, ?_⟩
  · intro i hi
    rw [List.getElem?_map, List.getElem?_range hi]
    simp [uadd_attachment i (by omega)]
  · rw [htrace]
    simp
  · rw [htrace]
    cases self.use_depth_test <;> simp
  · rw [htrace]
    cases self.use_depth_test <;> simp
    decide
  · rw [htrace]
    cases self.use_depth_test <;> simp

/-- C19 at a 64 x 48 framebuffer with two attachments and depth enabled on the initial
driver. -/
theorem C19_bind_complete_witness :
    1 ≤ (Framebuffer.mk 64 48 true [⟨3, GL_TEXTURE_2D⟩, ⟨4, GL_TEXTURE_2D⟩] 1
        (some 2)).color_attachments.length ∧
      (Framebuffer.mk 64 48 true [⟨3, GL_TEXTURE_2D⟩, ⟨4, GL_TEXTURE_2D⟩] 1
        (some 2)).color_attachments.length < 4294931232 ∧
      Driver.initial.framebufferStatus = GL_FRAMEBUFFER_COMPLETE ∧
      Driver.initial.errors.headD GL_NO_ERROR = GL_NO_ERROR ∧
      Driver.initial.errors.tail.headD GL_NO_ERROR = GL_NO_ERROR ∧
      ((Framebuffer.mk 64 48 true [⟨3, GL_TEXTURE_2D⟩, ⟨4, GL_TEXTURE_2D⟩] 1 (some 2)).bind
        Driver.initial).1 = Outcome.returned () ∧
      GLCall.glClear GL_DEPTH_BUFFER_BIT ∈ issuedSince Driver.initial
        ((Framebuffer.mk 64 48 true [⟨3, GL_TEXTURE_2D⟩, ⟨4, GL_TEXTURE_2D⟩] 1 (some 2)).bind
          Driver.initial).2 := by
  have h := C19_bind_complete
    (Framebuffer.mk 64 48 true [⟨3, GL_TEXTURE_2D⟩, ⟨4, GL_TEXTURE_2D⟩] 1 (some 2))
    Driver.initial (by decide) (by decide) rfl rfl rfl
  exact ⟨by decide, by decide, rfl, rfl, rfl, h.1, h.2.2.2.2.1.mpr rfl⟩
/-! ### Texture: readback -/

theorem benign_bind {α β : Type} {m : GLM α} {f : α → GLM β} (hm : Benign m)
    (hf : ∀ a, Benign (f a)) : Benign (m >>= f) := by
  intro d
  have h := hm d
  simp only [bind, GLM.bind]
  split
  · next a d1 _ => exact hf a d1
  · next e d1 heq =>
    rw [heq] at h
    rcases h with ⟨a, ha⟩ | ⟨w, hw⟩
    · simp at ha
    · simp only [Outcome.raised.injEq] at hw
      exact Or.inr ⟨w, by rw [hw]⟩
  · next d1 heq =>
    rw [heq] at h
    rcases h with ⟨a, ha⟩ | ⟨w, hw⟩
    · simp at ha
    · simp at hw

theorem benign_pure {α : Type} (a : α) : Benign (pure a : GLM α) :=
  fun _ => Or.inl ⟨a, rfl⟩

theorem benign_issue (c : GLCall) : Benign (issue c) :=
  fun _ => Or.inl ⟨(), rfl⟩

theorem benign_glGen (c : GLCall) : Benign (glGen c) :=
  fun d => Or.inl ⟨d.fresh, rfl⟩

theorem benign_glGetTexLevelParameteriv (target level pname : Nat) :
    Benign (glGetTexLevelParameteriv target level pname) :=
  fun _ => Or.inl ⟨_, rfl⟩

theorem benign_glReadPixels (x y : Nat) (width height : Int) (format type : Nat) :
    Benign (glReadPixels x y width height format type) :=
  fun _ => Or.inl ⟨_, rfl⟩

theorem benign_glGetTexImage (target level format type : Nat) :
    Benign (glGetTexImage target level format type) :=
  fun _ => Or.inl ⟨_, rfl⟩

theorem benign_assertNoGLError (component : String) : Benign (assertNoGLError component) := by
  intro d
  rcases assertNoGLError_outcome component d with h | ⟨w, h⟩
  · exact Or.inl ⟨(), h⟩
  · exact Or.inr ⟨w, h⟩

theorem benign_size2D (self : Texture) : Benign (Texture2D.size self) := by
  unfold Texture2D.size
  exact benign_bind (benign_glGetTexLevelParameteriv _ _ _) fun _ =>
    benign_bind (benign_glGetTexLevelParameteriv _ _ _) fun _ =>
    benign_bind (benign_assertNoGLError _) fun _ => benign_pure _

theorem benign_sizeArray (self : Texture) : Benign (TextureArray2D.size self) := by
  unfold TextureArray2D.size
  exact benign_bind (benign_glGetTexLevelParameteriv _ _ _) fun _ =>
    benign_bind (benign_glGetTexLevelParameteriv _ _ _) fun _ =>
    benign_bind (benign_glGetTexLevelParameteriv _ _ _) fun _ =>
    benign_bind (benign_assertNoGLError _) fun _ => benign_pure _

theorem glBindTexture_bind {β : Type} (target texture : Nat) (f : Unit → GLM β) (d : Driver) :
    (glBindTexture target texture >>= f) d =
      f () { d with trace := d.trace ++ [GLCall.glBindTexture target texture]
                    bound := Function.update d.bound target texture } := rfl

theorem glGetTexLevelParameteriv_bind {β : Type} (target level pname : Nat) (f : Int → GLM β)
    (d : Driver) :
    (glGetTexLevelParameteriv target level pname >>= f) d =
      f ((d.textures (d.bound target)).levelParameter pname)
        { d with trace := d.trace ++ [GLCall.glGetTexLevelParameteriv target level pname] } :=
  rfl

theorem levelParameter_internalFormat (t : TextureObject) :
    t.levelParameter GL_TEXTURE_INTERNAL_FORMAT = t.internalFormat := by
  simp [TextureObject.levelParameter, GL_TEXTURE_INTERNAL_FORMAT, GL_TEXTURE_WIDTH,
    GL_TEXTURE_HEIGHT, GL_TEXTURE_DEPTH]

/-- What `Texture2D::image` does up to its format test. -/
theorem image2D_cases (self : Texture) (d : Driver) :
    Texture2D.image self d =
      if (d.textures self.id).internalFormat ≠ GL_RGBA ∧
          (d.textures self.id).internalFormat ≠ GL_BGRA then
        (Outcome.raised (Exn.TextureError
            "Internal format must be GL_RGBA or GL_BGRA to extract image."),
          { d with
            trace := d.trace ++ [GLCall.glBindTexture self.target self.id] ++
              [GLCall.glGetTexLevelParameteriv self.target 0 GL_TEXTURE_INTERNAL_FORMAT]
            bound := Function.update d.bound self.target self.id })
      else
        (do
          let s ← Texture2D.size self
          let pixels ← glGetTexImage self.target 0 GL_RGBA GL_UNSIGNED_BYTE
          assertNoGLError "glGetTexImage"
          pure { spec := s, localpixels := pixels } : GLM ImageBuf)
          { d with
            trace := d.trace ++ [GLCall.glBindTexture self.target self.id] ++
              [GLCall.glGetTexLevelParameteriv self.target 0 GL_TEXTURE_INTERNAL_FORMAT]
            bound := Function.update d.bound self.target self.id } := by
  unfold Texture2D.image
  rw [glBindTexture_bind, glGetTexLevelParameteriv_bind]
  simp only [Function.update_same, levelParameter_internalFormat]
  split <;> rfl

/-- What `TextureArray2D::image` does up to its format test. -/
theorem imageArray_cases (self : Texture) (layer : Nat) (d : Driver) :
    TextureArray2D.image self layer d =
      if (d.textures self.id).internalFormat ≠ GL_RGBA ∧
          (d.textures self.id).internalFormat ≠ GL_BGRA then
        (Outcome.raised (Exn.TextureError
            "Internal format must be GL_RGBA or GL_BGRA to extract image."),
          { d with
            trace := d.trace ++ [GLCall.glBindTexture self.target self.id] ++
              [GLCall.glGetTexLevelParameteriv self.target 0 GL_TEXTURE_INTERNAL_FORMAT]
            bound := Function.update d.bound self.target self.id })
      else
        (do
          let s ← TextureArray2D.size self
          let s := { s with depth := 0 }
          let fb ← glGen (GLCall.glGenFramebuffers 1)
          issue (GLCall.glBindFramebuffer GL_FRAMEBUFFER fb)
          issue (GLCall.glFramebufferTextureLayer GL_FRAMEBUFFER GL_COLOR_ATTACHMENT0 self.id 0
            layer)
          assertNoGLError "glFramebufferTextureLayer"
          issue (GLCall.glReadBuffer GL_COLOR_ATTACHMENT0)
          let pixels ← glReadPixels 0 0 s.width s.height GL_RGBA GL_UNSIGNED_BYTE
          assertNoGLError "glReadPixels"
          issue (GLCall.glDeleteFramebuffers 1 fb)
          assertNoGLError "glDeleteFramebuffers"
          pure { spec := s, localpixels := pixels } : GLM ImageBuf)
          { d with
            trace := d.trace ++ [GLCall.glBindTexture self.target self.id] ++
              [GLCall.glGetTexLevelParameteriv self.target 0 GL_TEXTURE_INTERNAL_FORMAT]
            bound := Function.update d.bound self.target self.id } := by
  unfold TextureArray2D.image
  rw [glBindTexture_bind, glGetTexLevelParameteriv_bind]
  simp only [Function.update_same, levelParameter_internalFormat]
  split <;> rfl

theorem image2D_rest_benign (self : Texture) :
    Benign (do
      let s ← Texture2D.size self
      let pixels ← glGetTexImage self.target 0 GL_RGBA GL_UNSIGNED_BYTE
      assertNoGLError "glGetTexImage"
      pure { spec := s, localpixels := pixels } : GLM ImageBuf) :=
  benign_bind (benign_size2D self) fun _ =>
    benign_bind (benign_glGetTexImage _ _ _ _) fun _ =>
    benign_bind (benign_assertNoGLError _) fun _ => benign_pure _

theorem imageArray_rest_benign (self : Texture) (layer : Nat) :
    Benign (do
      let s ← TextureArray2D.size self
      let s := { s with depth := 0 }
      let fb ← glGen (GLCall.glGenFramebuffers 1)
      issue (GLCall.glBindFramebuffer GL_FRAMEBUFFER fb)
      issue (GLCall.glFramebufferTextureLayer GL_FRAMEBUFFER GL_COLOR_ATTACHMENT0 self.id 0
        layer)
      assertNoGLError "glFramebufferTextureLayer"
      issue (GLCall.glReadBuffer GL_COLOR_ATTACHMENT0)
      let pixels ← glReadPixels 0 0 s.width s.height GL_RGBA GL_UNSIGNED_BYTE
      assertNoGLError "glReadPixels"
      issue (GLCall.glDeleteFramebuffers 1 fb)
      assertNoGLError "glDeleteFramebuffers"
      pure { spec := s, localpixels := pixels } : GLM ImageBuf) :=
  benign_bind (benign_sizeArray self) fun _ =>
    benign_bind (benign_glGen _) fun _ =>
    benign_bind (benign_issue _) fun _ =>
    benign_bind (benign_issue _) fun _ =>
    benign_bind (benign_assertNoGLError _) fun _ =>
    benign_bind (benign_issue _) fun _ =>
    benign_bind (benign_glReadPixels _ _ _ _ _ _) fun _ =>
    benign_bind (benign_assertNoGLError _) fun _ =>
    benign_bind (benign_issue _) fun _ =>
    benign_bind (benign_assertNoGLError _) fun _ => benign_pure _

theorem benign_not_textureError {α : Type} (o : Outcome α) (h : o.benign) (what : String) :
    o ≠ Outcome.raised (Exn.TextureError what) := by
  rcases h with ⟨a, ha⟩ | ⟨w, hw⟩
  · rw [ha]; simp
  · rw [hw]; simp

/-- C16: `Texture2D::image()` and `TextureArray2D::image(layer)` throw a `TextureError`
exactly when the internal format that the driver reports for the texture is neither
`GL_RGBA` nor `GL_BGRA`; it is then the format error, thrown after two driver calls, the
bind and the format query: no framebuffer has been generated and no pixel read issued,
and nothing after the test (the host buffer is created there) has run. -/
theorem C16_readback_format (self : Texture) (layer : Nat) (d : Driver) :
    ((∃ what, (Texture2D.image self d).1 = Outcome.raised (Exn.TextureError what)) ↔
      ((d.textures self.id).internalFormat ≠ GL_RGBA ∧
        (d.textures self.id).internalFormat ≠ GL_BGRA)) ∧
    ((∃ what, (TextureArray2D.image self layer d).1 =
        Outcome.raised (Exn.TextureError what)) ↔
      ((d.textures self.id).internalFormat ≠ GL_RGBA ∧
        (d.textures self.id).internalFormat ≠ GL_BGRA)) ∧
    (((d.textures self.id).internalFormat ≠ GL_RGBA ∧
        (d.textures self.id).internalFormat ≠ GL_BGRA) →
      (Texture2D.image self d).1 = Outcome.raised (Exn.TextureError
          "Internal format must be GL_RGBA or GL_BGRA to extract image.") ∧
        issuedSince d (Texture2D.image self d).2 =
          [GLCall.glBindTexture self.target self.id,
            GLCall.glGetTexLevelParameteriv self.target 0 GL_TEXTURE_INTERNAL_FORMAT] ∧
        (TextureArray2D.image self layer d).1 = Outcome.raised (Exn.TextureError
          "Internal format must be GL_RGBA or GL_BGRA to extract image.") ∧
        issuedSince d (TextureArray2D.image self layer d).2 =
          [GLCall.glBindTexture self.target self.id,
            GLCall.glGetTexLevelParameteriv self.target 0 GL_TEXTURE_INTERNAL_FORMAT]) := by
  have h2 := image2D_cases self d
  have ha := imageArray_cases self layer d
  refine ⟨⟨?_, ?_⟩, ⟨?_, ?_⟩, ?_⟩
  · rintro ⟨what, hout⟩
    by_contra hfmt
    rw [h2, if_neg hfmt] at hout
    exact benign_not_textureError _ (image2D_rest_benign self _) what hout
  · intro hfmt
    exact ⟨_, by rw [h2, if_pos hfmt]⟩
  · rintro ⟨what, hout⟩
    by_contra hfmt
    rw [ha, if_neg hfmt] at hout
    exact benign_not_textureError _ (imageArray_rest_benign self layer _) what hout
  · intro hfmt
    exact ⟨_, by rw [ha, if_pos hfmt]⟩
  · intro hfmt
    rw [h2, ha, if_pos hfmt, if_pos hfmt]
    simp [issuedSince]
/-! ### The error protocol -/

theorem issue_returned (c : GLCall) (d d1 : Driver) (u : Unit)
    (h : issue c d = (Outcome.returned u, d1)) : d1.trace = d.trace ++ [c] := by
  simp only [issue, Prod.mk.injEq] at h
  rw [← h.2]

theorem assert_returned (component : String) (d d1 : Driver) (u : Unit)
    (h : assertNoGLError component d = (Outcome.returned u, d1)) :
    d1.trace = d.trace ++ [GLCall.glGetError] := by
  have ht := assertNoGLError_trace component d
  rw [h] at ht
  exact ht

theorem enableLoop_returned (attrs : List (Nat × Buffer)) (d d1 : Driver) (u : Unit)
    (h : Program.enableLoop attrs d = (Outcome.returned u, d1)) :
    d1.trace = d.trace ++ Program.enableCalls attrs := by
  induction attrs generalizing d with
  | nil =>
    simp only [Program.enableLoop, pure, GLM.pure, Prod.mk.injEq] at h
    simp [Program.enableCalls, ← h.2]
  | cons a rest ih =>
    unfold Program.enableLoop at h
    obtain ⟨u1, da, h1, h⟩ := bind_returned _ _ _ _ _ h
    obtain ⟨u2, db, h2, h⟩ := bind_returned _ _ _ _ _ h
    rw [ih db h, assert_returned _ _ _ _ h2, issue_returned _ _ _ _ h1]
    simp [Program.enableCalls]

theorem disableLoop_returned (attrs : List (Nat × Buffer)) (d d1 : Driver) (u : Unit)
    (h : Program.disableLoop attrs d = (Outcome.returned u, d1)) :
    d1.trace = d.trace ++ Program.disableCalls attrs := by
  induction attrs generalizing d with
  | nil =>
    simp only [Program.disableLoop, pure, GLM.pure, Prod.mk.injEq] at h
    simp [Program.disableCalls, ← h.2]
  | cons a rest ih =>
    unfold Program.disableLoop at h
    obtain ⟨u1, da, h1, h⟩ := bind_returned _ _ _ _ _ h
    obtain ⟨u2, db, h2, h⟩ := bind_returned _ _ _ _ _ h
    rw [ih db h, assert_returned _ _ _ _ h2, issue_returned _ _ _ _ h1]
    simp [Program.disableCalls]

theorem activeTexture_check_trace (texture : Nat) (component : String) (d : Driver) :
    ((do glActiveTexture texture; assertNoGLError component : GLM Unit) d).2.trace =
      d.trace ++ [GLCall.glActiveTexture texture, GLCall.glGetError] := by
  simp only [bind, GLM.bind, glActiveTexture]
  rw [assertNoGLError_trace]
  split <;> simp

/-- A cleanup that returns has emptied both lists and issued the disable calls and the
unit reset. -/
theorem cleanup_returned (self self1 : Program) (d d1 : Driver) (u : Unit)
    (h : self.disableAttributesAndClear d = (Outcome.returned u, self1, d1)) :
    self1 = { self with activeAttributes := [], activeTextures := [] } ∧
      d1.trace = d.trace ++ Program.disableCalls self.activeAttributes ++ self.resetCalls := by
  unfold Program.disableAttributesAndClear at h
  split at h
  · next u1 dl hloop =>
    have hl := disableLoop_returned _ _ _ _ hloop
    by_cases htex : self.activeTextures.length ≠ 0
    · simp only [htex, ne_eq, not_false_eq_true, if_true, Prod.mk.injEq] at h
      obtain ⟨-, hself, hd⟩ := h
      refine ⟨hself.symm, ?_⟩
      rw [← hd, activeTexture_check_trace, hl]
      simp [Program.resetCalls, htex]
    · simp only [htex, if_false, Prod.mk.injEq] at h
      obtain ⟨-, hself, hd⟩ := h
      have hnil : self.activeTextures = [] := by
        cases hl2 : self.activeTextures with
        | nil => rfl
        | cons t ts => simp [hl2] at htex
      refine ⟨?_, ?_⟩
      · rw [← hself]
        cases self
        simp_all
      · rw [← hd, hl]
        simp [Program.resetCalls, htex]
  · simp at h
  · simp at h

/-- An indexed draw that returns: the emptied program and the calls issued. -/
theorem render_returned (self self1 : Program) (faces : ElementArrayBuffer) (d d1 : Driver)
    (u : Unit) (h : self.render faces d = (Outcome.returned u, self1, d1)) :
    self1 = { self with activeAttributes := [], activeTextures := [] } ∧
      ∃ elements dimension valueType,
        faces.elements = some elements ∧ faces.dimension = some dimension ∧
        faces.valueType = some valueType ∧
        d1.trace = d.trace ++ Program.enableCalls self.activeAttributes ++
          [GLCall.glBindBuffer faces.bufferType faces.id, GLCall.glGetError,
            GLCall.glDrawElements faces.mode (toSize (elements * dimension))
              (Buffer.ValueType.toGLenum valueType),
            GLCall.glGetError] ++
          Program.disableCalls self.activeAttributes ++ self.resetCalls := by
  unfold Program.render at h
  split at h
  · next elements dimension valueType he hdim hv =>
    dsimp only at h
    split at h
    · next u1 dr hr =>
      obtain ⟨hself, hclean⟩ := cleanup_returned _ _ _ _ _ h
      refine ⟨hself, ?_⟩
      obtain ⟨u2, da, h1, hr⟩ := bind_returned _ _ _ _ _ hr
      unfold Program.enableAttributes at h1
      have ha := enableLoop_returned _ _ _ _ h1
      obtain ⟨u3, db, h2, hr⟩ := bind_returned _ _ _ _ _ hr
      unfold ElementArrayBuffer.bind at h2
      obtain ⟨u4, dc, h3, h2⟩ := bind_returned _ _ _ _ _ h2
      have hb : db.trace = da.trace ++
          [GLCall.glBindBuffer faces.bufferType faces.id, GLCall.glGetError] := by
        rw [assert_returned _ _ _ _ h2, issue_returned _ _ _ _ h3]
        simp
      obtain ⟨u5, de, h4, hr⟩ := bind_returned _ _ _ _ _ hr
      refine ⟨elements, dimension, valueType, he, hdim, hv, ?_⟩
      rw [hclean, assert_returned _ _ _ _ hr, issue_returned _ _ _ _ h4, hb, ha]
      simp
    · simp at h
    · simp at h
  · dsimp only at h
    split at h
    · next u1 dr hr =>
      obtain ⟨u2, da, h1, hr⟩ := bind_returned _ _ _ _ _ hr
      obtain ⟨u3, db, h2, hr⟩ := bind_returned _ _ _ _ _ hr
      simp [GLM.undefined] at hr
    · simp at h
    · simp at h

/-- A call of `attribute` that returns: the entry added and the calls issued. -/
theorem attribute_returned (self self1 : Program) (name : String) (buffer : Buffer)
    (d d1 : Driver) (u : Unit)
    (h : self.attribute name buffer d = (Outcome.returned u, self1, d1)) :
    self1 = { self with activeAttributes := self.activeAttributes ++
        [(toUnsigned (d.attribLocation self.programID name), buffer)] } ∧
      ∃ dimension valueType,
        buffer.dimension = some dimension ∧ buffer.valueType = some valueType ∧
        d1.trace = d.trace ++
          [GLCall.glGetAttribLocation self.programID name, GLCall.glGetError,
            GLCall.glBindBuffer buffer.bufferType buffer.id,
            GLCall.glVertexAttribPointer (toUnsigned (d.attribLocation self.programID name))
              dimension (Buffer.ValueType.toGLenum valueType) GL_FALSE 0,
            GLCall.glGetError] := by
  unfold Program.attribute at h
  dsimp only at h
  split at h
  · next loc dr hr =>
    simp only [Prod.mk.injEq] at h
    obtain ⟨-, hself, hd⟩ := h
    obtain ⟨loc0, da, h1, hr⟩ := bind_returned _ _ _ _ _ hr
    simp only [glGetAttribLocation, Prod.mk.injEq, Outcome.returned.injEq] at h1
    obtain ⟨hloc, hda⟩ := h1
    obtain ⟨u2, db, h2, hr⟩ := bind_returned _ _ _ _ _ hr
    have hb := assert_returned _ _ _ _ h2
    have hneg : ¬ loc0 < 0 := by
      intro hlt
      rw [if_pos hlt] at hr
      obtain ⟨u3, dc, h3, -⟩ := bind_returned _ _ _ _ _ hr
      simp [GLM.raise] at h3
    rw [if_neg hneg] at hr
    obtain ⟨u3, dc, h3, hr⟩ := bind_returned _ _ _ _ _ hr
    have hc : dc = db := by
      simp only [pure, GLM.pure, Prod.mk.injEq] at h3
      exact h3.2.symm
    obtain ⟨u4, de, h4, hr⟩ := bind_returned _ _ _ _ _ hr
    simp only [pure, GLM.pure, Prod.mk.injEq, Outcome.returned.injEq] at hr
    obtain ⟨hlocr, hder⟩ := hr
    unfold ArrayBuffer.bind at h4
    obtain ⟨u5, df, h5, h4⟩ := bind_returned _ _ _ _ _ h4
    have hf := issue_returned _ _ _ _ h5
    rcases hdim : buffer.dimension with _ | dimension
    · rw [hdim] at h4
      simp [GLM.undefined] at h4
    · rcases hv : buffer.valueType with _ | valueType
      · rw [hdim, hv] at h4
        simp [GLM.undefined] at h4
      · rw [hdim, hv] at h4
        dsimp only at h4
        obtain ⟨u6, dg, h6, h4⟩ := bind_returned _ _ _ _ _ h4
        refine ⟨?_, dimension, valueType, rfl, rfl, ?_⟩
        · rw [← hself, ← hlocr, hloc]
        · rw [← hd, ← hder, assert_returned _ _ _ _ h4, issue_returned _ _ _ _ h6, hf, hc, hb,
            ← hda, hloc]
          simp
  · simp at h
  · simp at h

/-- A direct draw that returns: the emptied program and the calls issued. -/
theorem render_arrays_returned (self self1 : Program) (vertices : Buffer) (location : String)
    (mode : Nat) (d d1 : Driver) (u : Unit)
    (h : self.render_arrays vertices location mode d = (Outcome.returned u, self1, d1)) :
    self1 = { self with activeAttributes := [], activeTextures := [] } ∧
      ∃ elements dimension valueType,
        vertices.elements = some elements ∧ vertices.dimension = some dimension ∧
        vertices.valueType = some valueType ∧
        d1.trace = d.trace ++
          [GLCall.glGetAttribLocation self.programID location, GLCall.glGetError,
            GLCall.glBindBuffer vertices.bufferType vertices.id,
            GLCall.glVertexAttribPointer
              (toUnsigned (d.attribLocation self.programID location)) dimension
              (Buffer.ValueType.toGLenum valueType) GL_FALSE 0,
            GLCall.glGetError] ++
          Program.enableCalls (self.activeAttributes ++
            [(toUnsigned (d.attribLocation self.programID location), vertices)]) ++
          [GLCall.glDrawArrays mode 0 (toSize (elements * dimension)), GLCall.glGetError] ++
          Program.disableCalls (self.activeAttributes ++
            [(toUnsigned (d.attribLocation self.programID location), vertices)]) ++
          self.resetCalls := by
  unfold Program.render_arrays at h
  split at h
  · next u1 selfa da hattr =>
    obtain ⟨hselfa, dimension, valueType, hdim, hv, hta⟩ :=
      attribute_returned _ _ _ _ _ _ _ hattr
    split at h
    · next elements dimension2 he hdim2 =>
      dsimp only at h
      split at h
      · next u2 dr hr =>
        obtain ⟨hself, hclean⟩ := cleanup_returned _ _ _ _ _ h
        obtain ⟨u3, db, h1, hr⟩ := bind_returned _ _ _ _ _ hr
        unfold Program.enableAttributes at h1
        have hb := enableLoop_returned _ _ _ _ h1
        obtain ⟨u4, dc, h2, hr⟩ := bind_returned _ _ _ _ _ hr
        have hdd : dimension2 = dimension := by
          rw [hdim] at hdim2
          exact (Option.some.inj hdim2).symm
        refine ⟨?_, elements, dimension, valueType, he, hdim, hv, ?_⟩
        · rw [hself, hselfa]
        · rw [hclean, assert_returned _ _ _ _ hr, issue_returned _ _ _ _ h2, hb, hta, hselfa,
            hdd]
          simp [Program.resetCalls]
      · simp at h
      · simp at h
    · dsimp only at h
      split at h
      · next u2 dr hr =>
        obtain ⟨u3, db, h1, hr⟩ := bind_returned _ _ _ _ _ hr
        simp [GLM.undefined] at hr
      · simp at h
      · simp at h
  · next hne =>
    cases hattr : self.attribute location vertices d with
    | mk out rest =>
      rw [hattr] at h
      cases out with
      | returned a => exact absurd hattr (hne a rest.1 rest.2)
      | raised e => simp at h
      | undefined => simp at h

theorem issuedSince_of_trace (d d1 : Driver) (calls : List GLCall)
    (h : d1.trace = d.trace ++ calls) : issuedSince d d1 = calls := by
  simp [issuedSince, h]

theorem enabledSlots_append (a b : List GLCall) :
    enabledSlots (a ++ b) = enabledSlots a ++ enabledSlots b := by
  simp [enabledSlots, List.filterMap_append]

theorem disabledSlots_append (a b : List GLCall) :
    disabledSlots (a ++ b) = disabledSlots a ++ disabledSlots b := by
  simp [disabledSlots, List.filterMap_append]

theorem enabledSlots_nil : enabledSlots [] = [] := rfl

theorem disabledSlots_nil : disabledSlots [] = [] := rfl

theorem enabledSlots_cons (c : GLCall) (cs : List GLCall) :
    enabledSlots (c :: cs) =
      (match c with
        | GLCall.glEnableVertexAttribArray index => [index]
        | _ => []) ++ enabledSlots cs := by
  cases c <;> simp [enabledSlots, List.filterMap_cons]

theorem disabledSlots_cons (c : GLCall) (cs : List GLCall) :
    disabledSlots (c :: cs) =
      (match c with
        | GLCall.glDisableVertexAttribArray index => [index]
        | _ => []) ++ disabledSlots cs := by
  cases c <;> simp [disabledSlots, List.filterMap_cons]

theorem enabledSlots_enableCalls (attrs : List (Nat × Buffer)) :
    enabledSlots (Program.enableCalls attrs) = attrs.map Prod.fst := by
  induction attrs with
  | nil => rfl
  | cons a rest ih => simp [Program.enableCalls, enabledSlots_cons, disabledSlots_cons, ih]

theorem disabledSlots_enableCalls (attrs : List (Nat × Buffer)) :
    disabledSlots (Program.enableCalls attrs) = [] := by
  induction attrs with
  | nil => rfl
  | cons a rest ih => simp [Program.enableCalls, enabledSlots_cons, disabledSlots_cons, ih]

theorem disabledSlots_disableCalls (attrs : List (Nat × Buffer)) :
    disabledSlots (Program.disableCalls attrs) = attrs.map Prod.fst := by
  induction attrs with
  | nil => rfl
  | cons a rest ih => simp [Program.disableCalls, enabledSlots_cons, disabledSlots_cons, ih]

theorem enabledSlots_disableCalls (attrs : List (Nat × Buffer)) :
    enabledSlots (Program.disableCalls attrs) = [] := by
  induction attrs with
  | nil => rfl
  | cons a rest ih => simp [Program.disableCalls, enabledSlots_cons, disabledSlots_cons, ih]

theorem enabledSlots_resetCalls (self : Program) : enabledSlots self.resetCalls = [] := by
  unfold Program.resetCalls
  split <;> simp [enabledSlots_cons, enabledSlots_nil]

theorem disabledSlots_resetCalls (self : Program) : disabledSlots self.resetCalls = [] := by
  unfold Program.resetCalls
  split <;> simp [disabledSlots_cons, disabledSlots_nil]

theorem activeTexture_not_mem_enableCalls (texture : Nat) (attrs : List (Nat × Buffer)) :
    GLCall.glActiveTexture texture ∉ Program.enableCalls attrs := by
  induction attrs with
  | nil => simp [Program.enableCalls]
  | cons a rest ih => simp [Program.enableCalls, ih]

theorem activeTexture_not_mem_disableCalls (texture : Nat) (attrs : List (Nat × Buffer)) :
    GLCall.glActiveTexture texture ∉ Program.disableCalls attrs := by
  induction attrs with
  | nil => simp [Program.disableCalls]
  | cons a rest ih => simp [Program.disableCalls, ih]

theorem activeTexture_mem_resetCalls (self : Program) :
    GLCall.glActiveTexture GL_TEXTURE0 ∈ self.resetCalls ↔ self.activeTextures ≠ [] := by
  unfold Program.resetCalls
  cases h : self.activeTextures <;> simp

/-- Claim C12. Every draw that completes without error resets the per-draw state, in both
draw forms (`render`: indexed, `render_arrays`: direct with the vertex buffer bound to the
named attribute). When the draw returns, the active-attribute list and the active-texture
list of the program are empty and its shader list is the one before the draw; the slots
enabled during the draw are those of the active attributes (for the direct form: followed
by the slot of the named attribute), and the slots disabled during the draw are the same
slots in the same order; and `glActiveTexture(GL_TEXTURE0)` is among the calls of the
draw exactly when the active-texture list was non-empty before the draw. -/
theorem C12_draw_resets_state (self : Program) (faces : ElementArrayBuffer)
    (vertices : Buffer) (location : String) (mode : Nat) (d : Driver) :
    ((self.render faces d).1 = Outcome.returned () →
      (self.render faces d).2.1.activeAttributes = [] ∧
      (self.render faces d).2.1.activeTextures = [] ∧
      (self.render faces d).2.1.shaders = self.shaders ∧
      enabledSlots (issuedSince d (self.render faces d).2.2) =
        self.activeAttributes.map Prod.fst ∧
      disabledSlots (issuedSince d (self.render faces d).2.2) =
        enabledSlots (issuedSince d (self.render faces d).2.2) ∧
      (GLCall.glActiveTexture GL_TEXTURE0 ∈ issuedSince d (self.render faces d).2.2 ↔
        self.activeTextures ≠ [])) ∧
    ((self.render_arrays vertices location mode d).1 = Outcome.returned () →
      (self.render_arrays vertices location mode d).2.1.activeAttributes = [] ∧
      (self.render_arrays vertices location mode d).2.1.activeTextures = [] ∧
      (self.render_arrays vertices location mode d).2.1.shaders = self.shaders ∧
      enabledSlots (issuedSince d (self.render_arrays vertices location mode d).2.2) =
        self.activeAttributes.map Prod.fst ++
          [toUnsigned (d.attribLocation self.programID location)] ∧
      disabledSlots (issuedSince d (self.render_arrays vertices location mode d).2.2) =
        enabledSlots (issuedSince d (self.render_arrays vertices location mode d).2.2) ∧
      (GLCall.glActiveTexture GL_TEXTURE0 ∈
          issuedSince d (self.render_arrays vertices location mode d).2.2 ↔
        self.activeTextures ≠ [])) := by
  constructor
  · intro h
    rcases hr : self.render faces d with ⟨o, self1, d1⟩
    rw [hr] at h
    simp only at h
    subst h
    obtain ⟨hself, elements, dimension, valueType, -, -, -, ht⟩ :=
      render_returned _ _ _ _ _ _ hr
    have hi := issuedSince_of_trace d d1 _ (by rw [ht]; simp only [List.append_assoc]; rfl)
    simp only
    rw [hi, hself]
    refine ⟨rfl, rfl, rfl, ?_, ?_, ?_⟩
    · simp [enabledSlots_append, enabledSlots_enableCalls, enabledSlots_disableCalls,
        enabledSlots_resetCalls, enabledSlots_cons, enabledSlots_nil]
    · simp [enabledSlots_append, enabledSlots_enableCalls, enabledSlots_disableCalls,
        enabledSlots_resetCalls, disabledSlots_append, disabledSlots_enableCalls,
        disabledSlots_disableCalls, disabledSlots_resetCalls, enabledSlots_cons,
        enabledSlots_nil, disabledSlots_cons, disabledSlots_nil]
    · simp [activeTexture_not_mem_enableCalls, activeTexture_not_mem_disableCalls,
        activeTexture_mem_resetCalls]
  · intro h
    rcases hr : self.render_arrays vertices location mode d with ⟨o, self1, d1⟩
    rw [hr] at h
    simp only at h
    subst h
    obtain ⟨hself, elements, dimension, valueType, -, -, -, ht⟩ :=
      render_arrays_returned _ _ _ _ _ _ _ _ hr
    have hi := issuedSince_of_trace d d1 _ (by rw [ht]; simp only [List.append_assoc]; rfl)
    simp only
    rw [hi, hself]
    refine ⟨rfl, rfl, rfl, ?_, ?_, ?_⟩
    · simp [enabledSlots_append, enabledSlots_enableCalls, enabledSlots_disableCalls,
        enabledSlots_resetCalls, enabledSlots_cons, enabledSlots_nil]
    · simp [enabledSlots_append, enabledSlots_enableCalls, enabledSlots_disableCalls,
        enabledSlots_resetCalls, disabledSlots_append, disabledSlots_enableCalls,
        disabledSlots_disableCalls, disabledSlots_resetCalls, enabledSlots_cons,
        enabledSlots_nil, disabledSlots_cons, disabledSlots_nil]
    · simp [activeTexture_not_mem_enableCalls, activeTexture_not_mem_disableCalls,
        activeTexture_mem_resetCalls]

/-- Witness for C12: both draw forms of the sample program complete on a driver that
reports no error, and then the lists are empty and unit 0 has been reactivated. -/
theorem C12_draw_resets_state_witness :
    (Program.sample.render ElementArrayBuffer.sampleFaces (Driver.linked [])).1 =
        Outcome.returned () ∧
      (Program.sample.render_arrays Buffer.sampleVertices "vertex" GL_TRIANGLES
          (Driver.linked [])).1 = Outcome.returned () ∧
      (Program.sample.render ElementArrayBuffer.sampleFaces
          (Driver.linked [])).2.1.activeAttributes = [] ∧
      GLCall.glActiveTexture GL_TEXTURE0 ∈ issuedSince (Driver.linked [])
        (Program.sample.render ElementArrayBuffer.sampleFaces (Driver.linked [])).2.2 ∧
      enabledSlots (issuedSince (Driver.linked [])
        (Program.sample.render_arrays Buffer.sampleVertices "vertex" GL_TRIANGLES
          (Driver.linked [])).2.2) = [0, 0] := by
  have h1 : (Program.sample.render ElementArrayBuffer.sampleFaces (Driver.linked [])).1 =
      Outcome.returned () := by
    simp [Program.render, Program.sample, Program.enableAttributes, Program.enableLoop,
      Program.disableLoop, Program.disableAttributesAndClear, ElementArrayBuffer.bind,
      ElementArrayBuffer.sampleFaces, Buffer.sampleVertices, bind, GLM.bind, issue,
      assertNoGLError, glGetError, glActiveTexture, Driver.linked, Driver.initial, pure,
      GLM.pure, GL_NO_ERROR]
  have h2 : (Program.sample.render_arrays Buffer.sampleVertices "vertex" GL_TRIANGLES
      (Driver.linked [])).1 = Outcome.returned () := by
    simp [Program.render_arrays, Program.attribute, ArrayBuffer.bind, glGetAttribLocation,
      Program.sample, Program.enableAttributes, Program.enableLoop, Program.disableLoop,
      Program.disableAttributesAndClear, Buffer.sampleVertices, bind, GLM.bind, issue,
      assertNoGLError, glGetError, glActiveTexture, Driver.linked, Driver.initial, pure,
      GLM.pure, GLM.raise, GL_NO_ERROR]
  have h := C12_draw_resets_state Program.sample ElementArrayBuffer.sampleFaces
    Buffer.sampleVertices "vertex" GL_TRIANGLES (Driver.linked [])
  refine ⟨h1, h2, (h.1 h1).1, (h.1 h1).2.2.2.2.2.2 (by decide), ?_⟩
  rw [(h.2 h2).2.2.2.1]
  decide

/-! ### Program: texture uniforms -/

theorem issue_returned_state (c : GLCall) (d d1 : Driver) (u : Unit)
    (h : issue c d = (Outcome.returned u, d1)) :
    d1 = { d with trace := d.trace ++ [c] } := by
  simp only [issue, Prod.mk.injEq] at h
  exact h.2.symm

theorem assert_returned_state (component : String) (d d1 : Driver) (u : Unit)
    (h : assertNoGLError component d = (Outcome.returned u, d1)) :
    d1 = { d with trace := d.trace ++ [GLCall.glGetError], errors := d.errors.tail } := by
  unfold assertNoGLError at h
  simp only [bind, GLM.bind, glGetError] at h
  split at h
  · simp [GLM.raise] at h
  · simp only [pure, GLM.pure, Prod.mk.injEq] at h
    exact h.2.symm

/-- A location lookup that returns: the value and the driver state left. -/
theorem uniformLocation_returned (self : Program) (name : String) (d d1 : Driver) (loc : Nat)
    (h : self.uniformLocation name d = (Outcome.returned loc, d1)) :
    loc = toUnsigned (d.uniformLocation self.programID name) ∧
      d1 = { d with
        trace := d.trace ++ [GLCall.glGetUniformLocation self.programID name,
          GLCall.glGetError]
        errors := d.errors.tail } := by
  unfold Program.uniformLocation at h
  obtain ⟨loc0, da, h1, h⟩ := bind_returned _ _ _ _ _ h
  simp only [glGetUniformLocation, Prod.mk.injEq, Outcome.returned.injEq] at h1
  obtain ⟨hloc, hda⟩ := h1
  obtain ⟨u2, db, h2, h⟩ := bind_returned _ _ _ _ _ h
  have hb := assert_returned_state _ _ _ _ h2
  dsimp only at h
  have hneg : ¬ loc0 < 0 := by
    intro hlt
    rw [if_pos hlt] at h
    obtain ⟨u3, dc, h3, -⟩ := bind_returned _ _ _ _ _ h
    simp [GLM.raise] at h3
  rw [if_neg hneg] at h
  obtain ⟨u3, dc, h3, h⟩ := bind_returned _ _ _ _ _ h
  simp only [pure, GLM.pure, Prod.mk.injEq, Outcome.returned.injEq] at h3 h
  refine ⟨?_, ?_⟩
  · rw [← h.1, ← hloc]
  · rw [← h.2, ← h3.2, hb, ← hda]
    simp

/-- An integer uniform write that returns: the driver state left. -/
theorem uniform_int_returned (self : Program) (location : String) (value : Int)
    (d d1 : Driver) (u : Unit)
    (h : self.uniform_int location value d = (Outcome.returned u, d1)) :
    d1 = { d with
      trace := d.trace ++ [GLCall.glGetUniformLocation self.programID location,
        GLCall.glGetError,
        GLCall.glUniform1i (toUnsigned (d.uniformLocation self.programID location)) value,
        GLCall.glGetError]
      errors := d.errors.tail.tail } := by
  unfold Program.uniform_int at h
  obtain ⟨loc, da, h1, h⟩ := bind_returned _ _ _ _ _ h
  obtain ⟨hloc, hda⟩ := uniformLocation_returned _ _ _ _ _ h1
  obtain ⟨u2, db, h2, h⟩ := bind_returned _ _ _ _ _ h
  rw [assert_returned_state _ _ _ _ h, issue_returned_state _ _ _ _ h2, hda, hloc]
  simp

theorem toSigned_small (n : Nat) (h : n < 2147483648) : toSigned (n % 4294967296) = (n : Int) := by
  unfold toSigned
  have h1 : n % 4294967296 = n := Nat.mod_eq_of_lt (by omega)
  simp only [Nat.mod_mod, h1, h, if_true]

theorem toSize_unit (n : Nat) (h : n < 2147483648) :
    toSize (GL_TEXTURE0 + n) = GL_TEXTURE0 + n := by
  unfold toSize GL_TEXTURE0
  exact Nat.mod_eq_of_lt (by omega)

theorem unitBinding_glActiveTexture (texture : Nat) (d : Driver) (unit target : Nat) :
    (glActiveTexture texture d).2.unitBinding unit target = d.unitBinding unit target := by
  unfold glActiveTexture Driver.unitBinding
  by_cases h : texture = d.activeTexture
  · simp [h]
  · simp only [h, if_false]
    by_cases hu : unit = texture
    · subst hu
      simp [h]
    · by_cases ha : unit = d.activeTexture
      · subst ha
        simp [hu, Function.update_same]
      · simp [hu, ha, Function.update_noteq ha]

theorem activeTexture_glActiveTexture (texture : Nat) (d : Driver) :
    (glActiveTexture texture d).2.activeTexture = texture := by
  unfold glActiveTexture
  by_cases h : texture = d.activeTexture
  · simp [h]
  · simp [h]

theorem uniformLocation_glActiveTexture (texture : Nat) (d : Driver) :
    (glActiveTexture texture d).2.uniformLocation = d.uniformLocation := by
  unfold glActiveTexture
  by_cases h : texture = d.activeTexture
  · simp [h]
  · simp [h]

theorem trace_glActiveTexture (texture : Nat) (d : Driver) :
    (glActiveTexture texture d).2.trace = d.trace ++ [GLCall.glActiveTexture texture] := by
  unfold glActiveTexture
  by_cases h : texture = d.activeTexture
  · simp [h]
  · simp [h]

theorem glActiveTexture_returned (texture : Nat) (d d1 : Driver) (u : Unit)
    (h : glActiveTexture texture d = (Outcome.returned u, d1)) :
    d1 = (glActiveTexture texture d).2 := by
  rw [h]

/-- A texture-uniform set that returns: the program and the driver state left. -/
theorem uniform_texture_returned (self self1 : Program) (location : String)
    (texture : Texture) (d d1 : Driver) (u : Unit)
    (hsmall : self.activeTextures.length < 2147483648)
    (h : self.uniform_texture location texture d = (Outcome.returned u, self1, d1)) :
    self1 = { self with activeTextures := self.activeTextures ++ [texture] } ∧
      d1.trace = d.trace ++
        [GLCall.glGetUniformLocation self.programID location, GLCall.glGetError,
          GLCall.glUniform1i (toUnsigned (d.uniformLocation self.programID location))
            (self.activeTextures.length : Int),
          GLCall.glGetError,
          GLCall.glActiveTexture (GL_TEXTURE0 + self.activeTextures.length),
          GLCall.glGetError,
          GLCall.glBindTexture texture.target texture.id, GLCall.glGetError] ∧
      d1.uniformLocation = d.uniformLocation ∧
      d1.activeTexture = GL_TEXTURE0 + self.activeTextures.length ∧
      ∀ unit target, d1.unitBinding unit target =
        if unit = GL_TEXTURE0 + self.activeTextures.length ∧ target = texture.target
        then texture.id else d.unitBinding unit target := by
  unfold Program.uniform_texture at h
  dsimp only at h
  split at h
  · next u1 dr hr =>
    simp only [Prod.mk.injEq] at h
    obtain ⟨-, hself, hd⟩ := h
    obtain ⟨u2, da, h1, hr⟩ := bind_returned _ _ _ _ _ hr
    unfold Program.uniform_unsigned at h1
    rw [toSigned_small _ hsmall] at h1
    have ha := uniform_int_returned _ _ _ _ _ _ h1
    obtain ⟨u3, db, h2, hr⟩ := bind_returned _ _ _ _ _ hr
    rw [toSize_unit _ hsmall] at h2
    have hb := glActiveTexture_returned _ _ _ _ h2
    obtain ⟨u4, dc, h3, hr⟩ := bind_returned _ _ _ _ _ hr
    have hc := assert_returned_state _ _ _ _ h3
    unfold Texture.bind at hr
    obtain ⟨u5, de, h4, hr⟩ := bind_returned _ _ _ _ _ hr
    simp only [glBindTexture, Prod.mk.injEq] at h4
    have he := h4.2
    have hf := assert_returned_state _ _ _ _ hr
    have hbt := trace_glActiveTexture (GL_TEXTURE0 + self.activeTextures.length) da
    have hbu := uniformLocation_glActiveTexture (GL_TEXTURE0 + self.activeTextures.length) da
    have hba := activeTexture_glActiveTexture (GL_TEXTURE0 + self.activeTextures.length) da
    have hbb := unitBinding_glActiveTexture (GL_TEXTURE0 + self.activeTextures.length) da
    rw [← hb] at hbt hbu hba hbb
    refine ⟨hself.symm, ?_, ?_, ?_, ?_⟩
    · rw [← hd, hf, ← he, hc, hbt, ha]
      simp
    · rw [← hd, hf, ← he, hc, hbu, ha]
    · rw [← hd, hf, ← he, hc, hba]
    · intro unit target
      have hunit : d.unitBinding unit target = db.unitBinding unit target := by
        rw [hbb, ha]
        rfl
      rw [hunit, ← hd, hf, ← he, hc]
      unfold Driver.unitBinding
      simp only [hba]
      by_cases hu : unit = GL_TEXTURE0 + self.activeTextures.length
      · by_cases ht : target = texture.target
        · subst ht
          simp [hu, hba]
        · simp [hu, ht, hba, Function.update_noteq ht]
      · simp [hu, hba]
  · simp at h
  · simp at h

/-- The calls of the set at position `i` within the calls that the contract prescribes. -/
theorem textureUniformCalls_at (program : Nat) (location : String → Int)
    (pairs : List (String × Texture)) :
    ∀ (first i : Nat) (name : String) (texture : Texture),
      pairs[i]? = some (name, texture) →
      ((textureUniformCalls program location first pairs).drop (8 * i)).take 8 =
        [GLCall.glGetUniformLocation program name, GLCall.glGetError,
          GLCall.glUniform1i (toUnsigned (location name)) ((first + i : Nat) : Int),
          GLCall.glGetError,
          GLCall.glActiveTexture (GL_TEXTURE0 + (first + i)), GLCall.glGetError,
          GLCall.glBindTexture texture.target texture.id, GLCall.glGetError] := by
  induction pairs with
  | nil =>
    intro first i name texture h
    simp at h
  | cons p rest ih =>
    intro first i name texture h
    obtain ⟨name0, texture0⟩ := p
    cases i with
    | zero =>
      simp only [List.getElem?_cons_zero, Option.some.injEq, Prod.mk.injEq] at h
      obtain ⟨hn, ht⟩ := h
      subst hn
      subst ht
      simp [textureUniformCalls]
    | succ j =>
      simp only [List.getElem?_cons_succ] at h
      have hstep := ih (first + 1) j name texture h
      have hidx : first + 1 + j = first + (j + 1) := by omega
      rw [hidx] at hstep
      rw [← hstep]
      have h8 : 8 * (j + 1) = 8 + 8 * j := by omega
      rw [h8, ← List.drop_drop]
      simp [textureUniformCalls]

/-- A sequence of texture-uniform sets that returns: the program and the driver state
left. -/
theorem uniform_sequence_returned (pairs : List (String × Texture)) :
    ∀ (self self1 : Program) (d d1 : Driver) (u : Unit),
      self.activeTextures.length + pairs.length ≤ 2147483648 →
      self.uniform_sequence pairs d = (Outcome.returned u, self1, d1) →
      self1 = { self with activeTextures := self.activeTextures ++ pairs.map Prod.snd } ∧
        d1.trace = d.trace ++ textureUniformCalls self.programID
          (d.uniformLocation self.programID) self.activeTextures.length pairs ∧
        d1.uniformLocation = d.uniformLocation ∧
        (∀ unit target,
          (∀ i, i < pairs.length → unit ≠ GL_TEXTURE0 + (self.activeTextures.length + i)) →
          d1.unitBinding unit target = d.unitBinding unit target) ∧
        (∀ i name texture, pairs[i]? = some (name, texture) →
          d1.unitBinding (GL_TEXTURE0 + (self.activeTextures.length + i)) texture.target =
            texture.id) := by
  induction pairs with
  | nil =>
    intro self self1 d d1 u _ h
    simp only [Program.uniform_sequence, Prod.mk.injEq] at h
    obtain ⟨-, hself, hd⟩ := h
    subst hself
    subst hd
    refine ⟨by simp, by simp [textureUniformCalls], rfl, fun _ _ _ => rfl, ?_⟩
    intro i name texture hi
    simp at hi
  | cons p rest ih =>
    intro self self1 d d1 u hlen h
    obtain ⟨name0, texture0⟩ := p
    simp only [List.length_cons] at hlen
    unfold Program.uniform_sequence at h
    split at h
    · next u1 selfa da hstep =>
      obtain ⟨hselfa, hta, hua, -, hba⟩ :=
        uniform_texture_returned _ _ _ _ _ _ _ (by omega) hstep
      have hla : selfa.activeTextures.length = self.activeTextures.length + 1 := by
        rw [hselfa]
        simp
      have hpa : selfa.programID = self.programID := by
        rw [hselfa]
      obtain ⟨hself1, ht1, hu1, hframe, hbind⟩ := ih selfa self1 da d1 u (by omega) h
      rw [hla] at hframe hbind ht1
      rw [hpa, hua] at ht1
      refine ⟨?_, ?_, ?_, ?_, ?_⟩
      · rw [hself1, hselfa]
        simp
      · rw [ht1, hta]
        simp [textureUniformCalls]
      · rw [hu1, hua]
      · intro unit target hne
        rw [hframe unit target, hba unit target]
        · have h0 := hne 0 (by simp)
          simp only [Nat.add_zero] at h0
          simp [h0]
        · intro i hi
          have h1 := hne (i + 1) (by simp; omega)
          intro heq
          apply h1
          rw [heq]
          omega
      · intro i name texture hi
        cases i with
        | zero =>
          simp only [List.getElem?_cons_zero, Option.some.injEq, Prod.mk.injEq] at hi
          obtain ⟨-, ht⟩ := hi
          subst ht
          rw [hframe, hba]
          · simp
          · intro j _
            unfold GL_TEXTURE0
            omega
        | succ j =>
          simp only [List.getElem?_cons_succ] at hi
          have hb := hbind j name texture hi
          have hidx : self.activeTextures.length + 1 + j = self.activeTextures.length + (j + 1) := by
            omega
          rw [hidx] at hb
          exact hb
    · next hfail =>
      exact absurd h (by
        intro hcontra
        exact hfail u self1 d1 hcontra)

/-- Claim C11. Texture-unit assignment follows insertion order. For every program whose
active-texture list is empty, every list of at most 2^31 (name, texture) pairs, and
every driver state: if the texture-uniform sets of the list, made one after the other
with no draw in between, all return, then the active-texture list afterwards is exactly
the list of the textures in the order given; the calls issued are exactly those that
the contract prescribes, so that the calls of the set at position `i` are the query of
the location of uniform `name_i`, the write of the integer `i` to that location, the
activation of unit `GL_TEXTURE0 + i` and the bind of `texture_i` to its target, each
followed by an error query; and in the driver state left, `texture_i` is the texture
bound to its target on unit `GL_TEXTURE0 + i`. The bound 2^31 on the number of textures
keeps the conversions of the index to `unsigned int` and `int` exact. -/
theorem C11_texture_units_follow_insertion_order (self : Program)
    (pairs : List (String × Texture)) (d : Driver)
    (hempty : self.activeTextures = [])
    (hrange : pairs.length ≤ 2147483648)
    (hok : (self.uniform_sequence pairs d).1 = Outcome.returned ()) :
    (self.uniform_sequence pairs d).2.1.activeTextures = pairs.map Prod.snd ∧
      issuedSince d (self.uniform_sequence pairs d).2.2 =
        textureUniformCalls self.programID (d.uniformLocation self.programID) 0 pairs ∧
      ∀ i name texture, pairs[i]? = some (name, texture) →
        ((issuedSince d (self.uniform_sequence pairs d).2.2).drop (8 * i)).take 8 =
          [GLCall.glGetUniformLocation self.programID name, GLCall.glGetError,
            GLCall.glUniform1i (toUnsigned (d.uniformLocation self.programID name)) (i : Int),
            GLCall.glGetError,
            GLCall.glActiveTexture (GL_TEXTURE0 + i), GLCall.glGetError,
            GLCall.glBindTexture texture.target texture.id, GLCall.glGetError] ∧
        (self.uniform_sequence pairs d).2.2.unitBinding (GL_TEXTURE0 + i) texture.target =
          texture.id := by
  rcases hr : self.uniform_sequence pairs d with ⟨o, self1, d1⟩
  rw [hr] at hok
  simp only at hok
  subst hok
  have hlen : self.activeTextures.length = 0 := by
    rw [hempty]
    rfl
  obtain ⟨hself, ht, -, -, hbind⟩ :=
    uniform_sequence_returned pairs self self1 d d1 () (by omega) hr
  rw [hlen] at ht hbind
  have hi := issuedSince_of_trace d d1 _ ht
  simp only
  refine ⟨?_, hi, ?_⟩
  · rw [hself, hempty]
    rfl
  · intro i name texture hget
    refine ⟨?_, ?_⟩
    · rw [hi]
      have hat := textureUniformCalls_at self.programID (d.uniformLocation self.programID)
        pairs 0 i name texture hget
      simp only [Nat.zero_add] at hat
      exact hat
    · have hb := hbind i name texture hget
      simp only [Nat.zero_add] at hb
      exact hb

/-- Witness for C11: two textures set on a program without active textures, on a driver
that knows both uniforms and reports no error. -/
theorem C11_texture_units_follow_insertion_order_witness :
    ({ Program.sample with activeTextures := [] } : Program).activeTextures = [] ∧
      (Program.uniform_sequence { Program.sample with activeTextures := [] }
        [("tex0", { id := 3, target := GL_TEXTURE_2D }),
          ("tex1", { id := 4, target := GL_TEXTURE_2D })] (Driver.linked [])).1 =
        Outcome.returned () ∧
      (Program.uniform_sequence { Program.sample with activeTextures := [] }
        [("tex0", { id := 3, target := GL_TEXTURE_2D }),
          ("tex1", { id := 4, target := GL_TEXTURE_2D })]
        (Driver.linked [])).2.1.activeTextures =
        [{ id := 3, target := GL_TEXTURE_2D }, { id := 4, target := GL_TEXTURE_2D }] := by
  have hok : (Program.uniform_sequence { Program.sample with activeTextures := [] }
      [("tex0", { id := 3, target := GL_TEXTURE_2D }),
        ("tex1", { id := 4, target := GL_TEXTURE_2D })] (Driver.linked [])).1 =
      Outcome.returned () := by
    simp [Program.uniform_sequence, Program.uniform_texture, Program.uniform_unsigned,
      Program.uniform_int, Program.uniformLocation, glGetUniformLocation, Texture.bind,
      glBindTexture, Program.sample, bind, GLM.bind, issue, assertNoGLError, glGetError,
      glActiveTexture, Driver.linked, Driver.initial, pure, GLM.pure, GLM.raise,
      GL_NO_ERROR, toSize, toSigned, toUnsigned, GL_TEXTURE0]
  exact ⟨rfl, hok,
    (C11_texture_units_follow_insertion_order { Program.sample with activeTextures := [] }
      [("tex0", { id := 3, target := GL_TEXTURE_2D }),
        ("tex1", { id := 4, target := GL_TEXTURE_2D })] (Driver.linked []) rfl (by decide)
      hok).1⟩

end gpgpu
